import Mathlib

/-!
# Book catalogue service: validation, services and persistence

A shallow embedding of `Backend/src` (the request-validation, service, persistence
and error-translation pipeline of the book catalogue and of its accounts) together
with the properties of the book operations, of registration and login, and of the
translation of errors.

Conventions of the embedding:

* an `async` function that reads or writes the book collection becomes a function
  from the collection to a pair: the settled promise (`Except`, where `.error` is
  the thrown value) and the collection afterwards;
* a `try { .. } catch (error) { .. }` becomes a body returning `Except` followed by
  a separate handler function applied to the thrown value;
* the document store (Mongoose over MongoDB) and the validation library (Joi) are
  external collaborators; the calls the code makes to them are modelled below from
  the schema of `models/Book.js`, the schemas of `validators/schemas.js` and the
  options passed at each call site;
* every persistence call takes `fault : Option Fault`: the failure of the
  round trip to the store (connectivity loss and the like), `none` when the
  store answers;
* `models/User.js` and `middleware/auth.js` are not among the sources: the account
  document and its outward representation follow the specification, and the
  primitives of the auth service (token signing and verification, password hashing
  and comparison) are parameters.
-/

deriving instance DecidableEq for Except

namespace Libreria

/-! ## config/constants.js -/

/-- The values of `BOOK_STATES`, in declaration order (`Object.values(BOOK_STATES)`). -/
def BOOK_STATES.AVAILABLE : String := "disponible"

/-- The second value of `BOOK_STATES`. -/
def BOOK_STATES.RESERVED : String := "reservado"

/-- The list `Object.values(BOOK_STATES)`. -/
def BOOK_STATES.values : List String := [BOOK_STATES.AVAILABLE, BOOK_STATES.RESERVED]

/-- `ERROR_CODES.VALIDATION_ERROR`. -/
def ERROR_CODES.VALIDATION_ERROR : String := "VALIDATION_ERROR"
/-- `ERROR_CODES.AUTHENTICATION_ERROR`. -/
def ERROR_CODES.AUTHENTICATION_ERROR : String := "AUTHENTICATION_ERROR"
/-- `ERROR_CODES.AUTHORIZATION_ERROR`. -/
def ERROR_CODES.AUTHORIZATION_ERROR : String := "AUTHORIZATION_ERROR"
/-- `ERROR_CODES.NOT_FOUND_ERROR`. -/
def ERROR_CODES.NOT_FOUND_ERROR : String := "NOT_FOUND_ERROR"
/-- `ERROR_CODES.DUPLICATE_ERROR`. -/
def ERROR_CODES.DUPLICATE_ERROR : String := "DUPLICATE_ERROR"
/-- `ERROR_CODES.INTERNAL_ERROR` (whose value is the string INTERNAL_SERVER_ERROR). -/
def ERROR_CODES.INTERNAL_ERROR : String := "INTERNAL_SERVER_ERROR"

/-! ## JavaScript values and thrown errors -/

/-- A JavaScript value as far as the field rules distinguish it: a JSON scalar, or
an array or object (whose contents no rule of these schemas inspects), or
`undefined` for an absent key. A number is a finite double, hence a rational. -/
inductive JsVal where
  | undefined
  | null
  | bool (b : Bool)
  | num (q : ℚ)
  | str (s : String)
  | arr
  | obj
  deriving DecidableEq, Repr

/-- The `code` property of an error: a string (service errors) or a number
(driver errors such as 11000). -/
inductive JsCode where
  | str (s : String)
  | num (n : Int)
  deriving DecidableEq, Repr

/-- One entry of the `errors` map of a Mongoose `ValidationError`. -/
structure FieldError where
  path : String
  message : String
  kind : String
  deriving DecidableEq, Repr

/-- An error thrown by a library or by the store: the properties the handlers of this
repository read from it (`none` for a property the error does not have). -/
structure Fault where
  name : String := "Error"
  message : String
  code : Option JsCode := none
  errors : Option (List FieldError) := none
  keyValue : Option (List (String × String)) := none
  type : Option String := none
  path : Option String := none
  value : Option String := none
  kind : Option String := none
  expiredAt : Option String := none
  stack : Option String := none
  deriving DecidableEq, Repr

/-- A thrown value inside the services: a library error as it is, or an `Error`
created by a service, which may carry `validationErrors`, `field` and the wrapped
`originalError`. -/
structure JsError extends Fault where
  validationErrors : Option (List FieldError) := none
  field : Option String := none
  originalError : Option Fault := none
  deriving DecidableEq, Repr

/-- A library error seen as a thrown value. -/
def Fault.toError (f : Fault) : JsError := { toFault := f }

/-- The statement pair `const e = new Error(message); e.code = code`. -/
def newError (message code : String) : JsError :=
  { name := "Error", message := message, code := some (JsCode.str code) }

/-! ## Strings -/

/-- The characters `String.prototype.trim` removes (ECMAScript WhiteSpace and
LineTerminator). -/
def isJsWhitespace (c : Char) : Bool :=
  c.toNat ∈ [0x09, 0x0A, 0x0B, 0x0C, 0x0D, 0x20, 0xA0, 0x1680, 0x2028, 0x2029, 0x202F, 0x205F,
    0x3000, 0xFEFF] || (0x2000 ≤ c.toNat && c.toNat ≤ 0x200A)

/-- The method `String.prototype.trim`. -/
def jsTrim (s : String) : String :=
  String.mk ((s.toList.dropWhile isJsWhitespace).reverse.dropWhile isJsWhitespace).reverse

/-- The `length` of a JavaScript string: its number of UTF-16 code units. -/
def jsLength (s : String) : Nat :=
  (s.toList.map fun c => if c.toNat < 0x10000 then 1 else 2).sum

/-! ## Object identifiers -/

/-- The characters of the pattern class `[0-9a-fA-F]`. -/
def isHexChar (c : Char) : Bool :=
  c ∈ ['0', '1', '2', '3', '4', '5', '6', '7', '8', '9', 'a', 'b', 'c', 'd', 'e', 'f',
    'A', 'B', 'C', 'D', 'E', 'F']

/-- The test `/^[0-9a-fA-F]{24}$/.test(id)` on a string. -/
def isMongoId (s : String) : Bool :=
  s.toList.length == 24 && s.toList.all isHexChar

/-- The lower-case form of a hexadecimal digit. -/
def hexLower (c : Char) : Char :=
  match c with
  | 'A' => 'a' | 'B' => 'b' | 'C' => 'c' | 'D' => 'd' | 'E' => 'e' | 'F' => 'f'
  | _ => c

/-- The canonical rendering of an identifier: 24 lower-case hexadecimal digits. -/
def isCanonicalHex (s : String) : Bool :=
  s.toList.length == 24 &&
    s.toList.all fun c => c ∈ ['0', '1', '2', '3', '4', '5', '6', '7', '8', '9',
      'a', 'b', 'c', 'd', 'e', 'f']

/-- An `ObjectId`, kept as its `toHexString()`. -/
structure ObjectId where
  hex : String
  canonical : isCanonicalHex hex = true
  deriving DecidableEq

/-- The cast Mongoose applies to the `_id` of a query: a 24-digit hexadecimal string
becomes the identifier it spells, whatever the case of its digits; any other string
is a cast failure. (The second conjunct of the test follows from the first; it is
there to build the identifier.) -/
def castObjectId (s : String) : Option ObjectId :=
  if h : isMongoId s = true ∧ isCanonicalHex (String.mk (s.toList.map hexLower)) = true then
    some ⟨String.mk (s.toList.map hexLower), h.2⟩
  else none

/-! ## models/Book.js and the document store -/

/-- A stored document of the `books` collection. -/
structure Book where
  id : ObjectId
  titulo : String
  autor : String
  anoPublicacion : ℚ
  estado : String
  createdAt : Nat
  updatedAt : Nat
  deriving DecidableEq

/-- The `books` collection, in insertion order. -/
abbrev Collection := List Book

/-- The object handed to `createBook` and `updateBook`: the four schema fields, each
present or absent, with the types the validation layer produces. (Keys outside the
schema are dropped by the model and are not represented.) -/
structure BookData where
  titulo : Option String := none
  autor : Option String := none
  anoPublicacion : Option ℚ := none
  estado : Option String := none
  deriving DecidableEq

/-- What Joi's number type does with a string under `convert: true`: it leaves a
string that does not spell a number as it is, converts one that does, and flags one
whose conversion loses digits. -/
inductive NumberCoercion where
  | unchanged
  | converted (q : ℚ)
  | flagged
  deriving DecidableEq

/-- What the code takes from outside: `new Date().getFullYear()` as evaluated when
the modules are loaded (it bounds the year in both `schemas.js` and `Book.js`; no
`Date` has a year beyond 275760), and the string-to-number conversion of the
validation library. -/
structure Env where
  currentYear : Int
  currentYear_le : currentYear ≤ 275760
  coerceNumber : String → NumberCoercion

/-- A document built by `new Book(bookData)` and not yet validated: the `trim`
setters have run on the strings that are present, `estado` has its default when
absent, and the driver has generated `_id`. -/
structure BookDoc where
  id : ObjectId
  titulo : Option String
  autor : Option String
  anoPublicacion : Option ℚ
  estado : String
  deriving DecidableEq

/-- The constructor call `new Book(bookData)`, with `newId` the identifier generated
for the document. -/
def Book.new (newId : ObjectId) (bookData : BookData) : BookDoc :=
  { id := newId
    titulo := bookData.titulo.map jsTrim
    autor := bookData.autor.map jsTrim
    anoPublicacion := bookData.anoPublicacion
    estado := bookData.estado.getD BOOK_STATES.AVAILABLE }

/-- The validators of path `titulo`, run in order until one fails: `required` (a
string of non-zero length), then `maxlength: 200`. -/
def validateTitulo (v : Option String) : Option FieldError :=
  match v with
  | none => some ⟨"titulo", "El título es requerido", "required"⟩
  | some s =>
    if jsLength s = 0 then some ⟨"titulo", "El título es requerido", "required"⟩
    else if 200 < jsLength s then
      some ⟨"titulo", "El título no puede exceder 200 caracteres", "maxlength"⟩
    else none

/-- The validators of path `autor`: `required`, then `maxlength: 100`. -/
def validateAutor (v : Option String) : Option FieldError :=
  match v with
  | none => some ⟨"autor", "El autor es requerido", "required"⟩
  | some s =>
    if jsLength s = 0 then some ⟨"autor", "El autor es requerido", "required"⟩
    else if 100 < jsLength s then
      some ⟨"autor", "El autor no puede exceder 100 caracteres", "maxlength"⟩
    else none

/-- The validators of path `anoPublicacion`: `required`, `min: 1000`,
`max: new Date().getFullYear()`, then the custom `Number.isInteger` validator. -/
def validateAnoPublicacion (env : Env) (v : Option ℚ) : Option FieldError :=
  match v with
  | none => some ⟨"anoPublicacion", "El año de publicación es requerido", "required"⟩
  | some q =>
    if q < 1000 then
      some ⟨"anoPublicacion", "El año de publicación debe ser mayor a 1000", "min"⟩
    else if (env.currentYear : ℚ) < q then
      some ⟨"anoPublicacion", "El año de publicación no puede ser mayor al año actual", "max"⟩
    else if q.isInt = false then
      some ⟨"anoPublicacion", "El año de publicación debe ser un número entero", "user defined"⟩
    else none

/-- The `enum` validator of path `estado`. -/
def validateEstado (s : String) : Option FieldError :=
  if s ∈ BOOK_STATES.values then none
  else some ⟨"estado", "El estado debe ser uno de: " ++ ", ".intercalate BOOK_STATES.values, "enum"⟩

/-- Document validation before `save()`: every path is validated and every failing
path contributes its error. -/
def validateDoc (env : Env) (doc : BookDoc) : List FieldError :=
  (validateTitulo doc.titulo).toList ++ (validateAutor doc.autor).toList ++
    (validateAnoPublicacion env doc.anoPublicacion).toList ++ (validateEstado doc.estado).toList

/-- Update validation (`runValidators: true`): only the paths present in the update
are validated, each with all its validators. -/
def validateUpdate (env : Env) (upd : BookData) : List FieldError :=
  (match upd.titulo with
    | none => []
    | some s => (validateTitulo (some s)).toList) ++
  (match upd.autor with
    | none => []
    | some s => (validateAutor (some s)).toList) ++
  (match upd.anoPublicacion with
    | none => []
    | some q => (validateAnoPublicacion env (some q)).toList) ++
  (match upd.estado with
    | none => []
    | some s => (validateEstado s).toList)

/-- The `ValidationError` Mongoose throws for a list of failing paths. -/
def validationFault (title : String) (errs : List FieldError) : Fault :=
  { name := "ValidationError"
    message := title ++ ": " ++ ", ".intercalate (errs.map fun e => e.path ++ ": " ++ e.message)
    errors := some errs }

/-- The `CastError` Mongoose throws when the `_id` of a query is not an identifier. -/
def castFault (id : String) : Fault :=
  { name := "CastError"
    message := "Cast to ObjectId failed for value \"" ++ id ++
      "\" (type string) at path \"_id\" for model \"Book\""
    path := some "_id"
    value := some id
    kind := some "ObjectId" }

/-- The error of the store when an inserted `_id` is already taken (the unique index
every collection has on `_id`). -/
def duplicateKeyFault (id : ObjectId) : Fault :=
  { name := "MongoServerError"
    message := "E11000 duplicate key error collection: gestion_libros.books index: _id_"
    code := some (JsCode.num 11000)
    keyValue := some [("_id", id.hex)] }

/-- The first document of the collection with the given `_id`. -/
def findDoc (oid : ObjectId) (db : Collection) : Option Book :=
  db.find? fun b => decide (b.id = oid)

/-- The collection with the first document of the given `_id` replaced. -/
def replaceDoc (oid : ObjectId) (b' : Book) : Collection → Collection
  | [] => []
  | b :: rest => if b.id = oid then b' :: rest else b :: replaceDoc oid b' rest

/-- The collection without the first document of the given `_id`. -/
def removeDoc (oid : ObjectId) : Collection → Collection
  | [] => []
  | b :: rest => if b.id = oid then rest else b :: removeDoc oid rest

/-- The call `book.save()` on a new document, at time `now` (`timestamps: true`): the
document is validated; a valid document is inserted unless the round trip fails or
its `_id` is taken. -/
def Book.save (env : Env) (fault : Option Fault) (now : Nat) (doc : BookDoc)
    (db : Collection) : Except Fault Book × Collection :=
  match doc.titulo, doc.autor, doc.anoPublicacion, validateDoc env doc with
  | some t, some a, some y, [] =>
    match fault with
    | some f => (.error f, db)
    | none =>
      if (findDoc doc.id db).isSome then (.error (duplicateKeyFault doc.id), db)
      else
        let book : Book :=
          { id := doc.id, titulo := t, autor := a, anoPublicacion := y, estado := doc.estado
            createdAt := now, updatedAt := now }
        (.ok book, db ++ [book])
  | _, _, _, errs => (.error (validationFault "Book validation failed" errs), db)

/-- The call `Book.findById(bookId)`: `null` (here `none`) when no document has the
identifier. -/
def Book.findById (fault : Option Fault) (bookId : String) (db : Collection) :
    Except Fault (Option Book) × Collection :=
  match castObjectId bookId with
  | none => (.error (castFault bookId), db)
  | some oid =>
    match fault with
    | some f => (.error f, db)
    | none => (.ok (findDoc oid db), db)

/-- The update Mongoose sends for `updateData`: the `trim` setters run on the strings
of the update. -/
def castUpdate (updateData : BookData) : BookData :=
  { updateData with titulo := updateData.titulo.map jsTrim, autor := updateData.autor.map jsTrim }

/-- The effect of the update on the matched document: the fields of the update are
set, and `timestamps: true` sets `updatedAt`. -/
def applyUpdate (upd : BookData) (now : Nat) (b : Book) : Book :=
  { b with
    titulo := upd.titulo.getD b.titulo
    autor := upd.autor.getD b.autor
    anoPublicacion := upd.anoPublicacion.getD b.anoPublicacion
    estado := upd.estado.getD b.estado
    updatedAt := now }

/-- The call `Book.findByIdAndUpdate(bookId, updateData, { new: true, runValidators:
true, context: 'query' })` at time `now`: the identifier and the update are cast and
the update is validated before the store is asked; with `new: true` the document
after the update is returned, `null` (here `none`) when none matched. -/
def Book.findByIdAndUpdate (env : Env) (fault : Option Fault) (now : Nat) (bookId : String)
    (updateData : BookData) (db : Collection) : Except Fault (Option Book) × Collection :=
  match castObjectId bookId with
  | none => (.error (castFault bookId), db)
  | some oid =>
    match validateUpdate env (castUpdate updateData) with
    | e :: es => (.error (validationFault "Validation failed" (e :: es)), db)
    | [] =>
      match fault with
      | some f => (.error f, db)
      | none =>
        match findDoc oid db with
        | none => (.ok none, db)
        | some b =>
          (.ok (some (applyUpdate (castUpdate updateData) now b)),
            replaceDoc oid (applyUpdate (castUpdate updateData) now b) db)

/-- The call `Book.findByIdAndDelete(bookId)`: the removed document, `null` (here
`none`) when none matched. -/
def Book.findByIdAndDelete (fault : Option Fault) (bookId : String) (db : Collection) :
    Except Fault (Option Book) × Collection :=
  match castObjectId bookId with
  | none => (.error (castFault bookId), db)
  | some oid =>
    match fault with
    | some f => (.error f, db)
    | none =>
      match findDoc oid db with
      | none => (.ok none, db)
      | some b => (.ok (some b), removeDoc oid db)

/-! ## services/BookService.js -/

/-- The `catch` block of `getBookById`. -/
def getBookByIdCatch (error : JsError) : JsError :=
  if error.name = "CastError" then newError "ID de libro inválido" ERROR_CODES.VALIDATION_ERROR
  else if error.code = some (JsCode.str ERROR_CODES.NOT_FOUND_ERROR) then error
  else
    { newError "Error al obtener el libro" ERROR_CODES.INTERNAL_ERROR with
      originalError := some error.toFault }

/-- The `try` block of `getBookById`. -/
def getBookByIdTry (fault : Option Fault) (bookId : String) (db : Collection) :
    Except JsError Book × Collection :=
  match Book.findById fault bookId db with
  | (.error f, db') => (.error f.toError, db')
  | (.ok none, db') => (.error (newError "Libro no encontrado" ERROR_CODES.NOT_FOUND_ERROR), db')
  | (.ok (some book), db') => (.ok book, db')

/-- The method `BookService.getBookById`. -/
def getBookById (fault : Option Fault) (bookId : String) (db : Collection) :
    Except JsError Book × Collection :=
  match getBookByIdTry fault bookId db with
  | (.ok book, db') => (.ok book, db')
  | (.error error, db') => (.error (getBookByIdCatch error), db')

/-- The `catch` block of `createBook`. -/
def createBookCatch (error : JsError) : JsError :=
  if error.name = "ValidationError" then
    { newError "Datos de libro inválidos" ERROR_CODES.VALIDATION_ERROR with
      validationErrors := error.errors }
  else
    { newError "Error al crear el libro" ERROR_CODES.INTERNAL_ERROR with
      originalError := some error.toFault }

/-- The method `BookService.createBook`, with `newId` the identifier generated for
the document and `now` the time of the call. -/
def createBook (env : Env) (fault : Option Fault) (newId : ObjectId) (now : Nat)
    (bookData : BookData) (db : Collection) : Except JsError Book × Collection :=
  match Book.save env fault now (Book.new newId bookData) db with
  | (.ok book, db') => (.ok book, db')
  | (.error f, db') => (.error (createBookCatch f.toError), db')

/-- The `catch` block of `updateBook`. -/
def updateBookCatch (error : JsError) : JsError :=
  if error.name = "CastError" then newError "ID de libro inválido" ERROR_CODES.VALIDATION_ERROR
  else if error.name = "ValidationError" then
    { newError "Datos de actualización inválidos" ERROR_CODES.VALIDATION_ERROR with
      validationErrors := error.errors }
  else if error.code = some (JsCode.str ERROR_CODES.NOT_FOUND_ERROR) then error
  else
    { newError "Error al actualizar el libro" ERROR_CODES.INTERNAL_ERROR with
      originalError := some error.toFault }

/-- The `try` block of `updateBook`. -/
def updateBookTry (env : Env) (fault : Option Fault) (now : Nat) (bookId : String)
    (updateData : BookData) (db : Collection) : Except JsError Book × Collection :=
  match Book.findByIdAndUpdate env fault now bookId updateData db with
  | (.error f, db') => (.error f.toError, db')
  | (.ok none, db') => (.error (newError "Libro no encontrado" ERROR_CODES.NOT_FOUND_ERROR), db')
  | (.ok (some book), db') => (.ok book, db')

/-- The method `BookService.updateBook`. -/
def updateBook (env : Env) (fault : Option Fault) (now : Nat) (bookId : String)
    (updateData : BookData) (db : Collection) : Except JsError Book × Collection :=
  match updateBookTry env fault now bookId updateData db with
  | (.ok book, db') => (.ok book, db')
  | (.error error, db') => (.error (updateBookCatch error), db')

/-- The `catch` block of `deleteBook`. -/
def deleteBookCatch (error : JsError) : JsError :=
  if error.name = "CastError" then newError "ID de libro inválido" ERROR_CODES.VALIDATION_ERROR
  else if error.code = some (JsCode.str ERROR_CODES.NOT_FOUND_ERROR) then error
  else
    { newError "Error al eliminar el libro" ERROR_CODES.INTERNAL_ERROR with
      originalError := some error.toFault }

/-- The `try` block of `deleteBook`. -/
def deleteBookTry (fault : Option Fault) (bookId : String) (db : Collection) :
    Except JsError Book × Collection :=
  match Book.findByIdAndDelete fault bookId db with
  | (.error f, db') => (.error f.toError, db')
  | (.ok none, db') => (.error (newError "Libro no encontrado" ERROR_CODES.NOT_FOUND_ERROR), db')
  | (.ok (some book), db') => (.ok book, db')

/-- The method `BookService.deleteBook`. -/
def deleteBook (fault : Option Fault) (bookId : String) (db : Collection) :
    Except JsError Book × Collection :=
  match deleteBookTry fault bookId db with
  | (.ok book, db') => (.ok book, db')
  | (.error error, db') => (.error (deleteBookCatch error), db')

/-- The test `Object.values(BOOK_STATES).includes(newState)`: only a string can be
equal to one of the listed strings. -/
def includesState (newState : JsVal) : Bool :=
  match newState with
  | .str s => decide (s ∈ BOOK_STATES.values)
  | _ => false

/-- The method `BookService.changeBookState`; its `catch` block re-throws what it
caught. The update object `{ estado: newState }` is built in the branch where
`newState` is one of the listed strings. -/
def changeBookState (env : Env) (fault : Option Fault) (now : Nat) (bookId : String)
    (newState : JsVal) (db : Collection) : Except JsError Book × Collection :=
  if includesState newState = false then
    (.error (newError "Estado de libro inválido" ERROR_CODES.VALIDATION_ERROR), db)
  else
    match newState with
    | .str s => updateBook env fault now bookId { estado := some s } db
    | _ => (.error (newError "Estado de libro inválido" ERROR_CODES.VALIDATION_ERROR), db)

/-! ## validators/schemas.js and validators/validation.js -/

/-- A request body, query or params object: its keys with their values. -/
abbrev Payload := List (String × JsVal)

/-- The property read `data[key]`: `undefined` for an absent key. -/
def Payload.get (data : Payload) (key : String) : JsVal :=
  (data.lookup key).getD JsVal.undefined

/-- An item of `error.details`: the key it is about (`context.key`, absent for a
violation of the object as a whole), the code of the violated rule, and the message
when the schema gives one for that code in `.messages(..)` (otherwise the message is
the built-in text of the library, which is not spelled out here). -/
structure Detail where
  key : Option String
  type : String
  message : Option String
  deriving DecidableEq

/-- The detail a rule of code `type` reports for `key` under the given `.messages(..)`. -/
def Detail.of (messages : List (String × String)) (key type : String) : Detail :=
  { key := some key, type := type, message := messages.lookup type }

/-- The outcome for one key: its violations (all of them: `abortEarly: false`), or
its normalised value, `none` standing for a key that stays absent. -/
abbrev KeyResult (α : Type) := Except (List Detail) (Option α)

/-- The chain `Joi.string().min(min).max(max)`, `.required()` or `.optional()`. A
value that is not a string, and the empty string, fail the type itself; otherwise
every failing rule is reported. -/
def joiString (key : String) (min max : Nat) (required : Bool)
    (messages : List (String × String)) (v : JsVal) : KeyResult String :=
  match v with
  | .undefined => if required then .error [Detail.of messages key "any.required"] else .ok none
  | .str s =>
    if jsLength s = 0 ∧ min ≠ 0 then .error [Detail.of messages key "string.empty"]
    else
      match (if jsLength s < min then [Detail.of messages key "string.min"] else []) ++
          (if max < jsLength s then [Detail.of messages key "string.max"] else []) with
      | [] => .ok (some s)
      | d :: ds => .error (d :: ds)
  | _ => .error [Detail.of messages key "string.base"]

/-- `Number.MAX_SAFE_INTEGER`. -/
def MAX_SAFE_INTEGER : ℚ := 9007199254740991

/-- The rules of `Joi.number().integer().min(min).max(max)` on a number. -/
def joiIntegerRules (key : String) (min max : ℚ) (messages : List (String × String))
    (q : ℚ) : KeyResult ℚ :=
  if MAX_SAFE_INTEGER < q ∨ q < -MAX_SAFE_INTEGER then
    .error [Detail.of messages key "number.unsafe"]
  else
    match (if q.isInt = false then [Detail.of messages key "number.integer"] else []) ++
        (if q < min then [Detail.of messages key "number.min"] else []) ++
        (if max < q then [Detail.of messages key "number.max"] else []) with
    | [] => .ok (some q)
    | d :: ds => .error (d :: ds)

/-- The chain `Joi.number().integer().min(min).max(max)`, `.required()` or
`.optional()`, under `convert: true`. -/
def joiInteger (env : Env) (key : String) (min max : ℚ) (required : Bool)
    (messages : List (String × String)) (v : JsVal) : KeyResult ℚ :=
  match v with
  | .undefined => if required then .error [Detail.of messages key "any.required"] else .ok none
  | .num q => joiIntegerRules key min max messages q
  | .str s =>
    match env.coerceNumber s with
    | .converted q => joiIntegerRules key min max messages q
    | .flagged => .error [Detail.of messages key "number.unsafe"]
    | .unchanged => .error [Detail.of messages key "number.base"]
  | _ => .error [Detail.of messages key "number.base"]

/-- How an absent key is treated: `.required()`, `.optional()` or `.default(d)`. -/
inductive Presence where
  | required
  | optional
  | default (d : String)
  deriving DecidableEq

/-- The chain `Joi.string().valid(...valids)` with its presence. A value outside the
list is reported as `any.only`; the check of the type then runs as well. -/
def joiValid (key : String) (valids : List String) (presence : Presence)
    (messages : List (String × String)) (v : JsVal) : KeyResult String :=
  match v with
  | .undefined =>
    match presence with
    | .required => .error [Detail.of messages key "any.required"]
    | .optional => .ok none
    | .default d => .ok (some d)
  | .str s =>
    if s ∈ valids then .ok (some s)
    else if jsLength s = 0 then
      .error [Detail.of messages key "any.only", Detail.of messages key "string.empty"]
    else .error [Detail.of messages key "any.only"]
  | _ => .error [Detail.of messages key "any.only", Detail.of messages key "string.base"]

/-- The violations of a key result. -/
def KeyResult.details {α : Type} (r : KeyResult α) : List Detail :=
  match r with
  | .error ds => ds
  | .ok _ => []

/-- The normalised value of a key result (absent when the key has violations). -/
def KeyResult.value {α : Type} (r : KeyResult α) : Option α :=
  match r with
  | .error _ => none
  | .ok v => v

/-- The rule of `bookSchemas.create` for `titulo`. -/
def bookSchemas.create.titulo (v : JsVal) : KeyResult String :=
  joiString "titulo" 1 200 true
    [("string.min", "El título no puede estar vacío"),
     ("string.max", "El título no puede exceder 200 caracteres"),
     ("any.required", "El título es requerido")] v

/-- The rule of `bookSchemas.create` for `autor`. -/
def bookSchemas.create.autor (v : JsVal) : KeyResult String :=
  joiString "autor" 1 100 true
    [("string.min", "El autor no puede estar vacío"),
     ("string.max", "El autor no puede exceder 100 caracteres"),
     ("any.required", "El autor es requerido")] v

/-- The rule of `bookSchemas.create` for `anoPublicacion`. -/
def bookSchemas.create.anoPublicacion (env : Env) (v : JsVal) : KeyResult ℚ :=
  joiInteger env "anoPublicacion" 1000 env.currentYear true
    [("number.integer", "El año debe ser un número entero"),
     ("number.min", "El año debe ser mayor a 1000"),
     ("number.max", "El año no puede ser futuro"),
     ("any.required", "El año de publicación es requerido")] v

/-- The rule of `bookSchemas.create` for `estado`. -/
def bookSchemas.create.estado (v : JsVal) : KeyResult String :=
  joiValid "estado" BOOK_STATES.values (Presence.default BOOK_STATES.AVAILABLE)
    [("any.only", "El estado debe ser: " ++ " o ".intercalate BOOK_STATES.values)] v

/-- The call `bookSchemas.create.validate(data, { abortEarly: false, stripUnknown:
true, convert: true })`: every key of the schema is checked, in the order of the
schema, and the violations of all of them are collected; without violations the
value is the normalised object, which has the keys of the schema only. -/
def bookSchemas.create.validate (env : Env) (data : Payload) : Except (List Detail) BookData :=
  match (bookSchemas.create.titulo (data.get "titulo")).details ++
      (bookSchemas.create.autor (data.get "autor")).details ++
      (bookSchemas.create.anoPublicacion env (data.get "anoPublicacion")).details ++
      (bookSchemas.create.estado (data.get "estado")).details with
  | [] =>
    .ok
      { titulo := (bookSchemas.create.titulo (data.get "titulo")).value
        autor := (bookSchemas.create.autor (data.get "autor")).value
        anoPublicacion := (bookSchemas.create.anoPublicacion env (data.get "anoPublicacion")).value
        estado := (bookSchemas.create.estado (data.get "estado")).value }
  | d :: ds => .error (d :: ds)

/-- An entry of the `errors` array the validation middleware answers with. -/
structure Violation where
  field : Option String
  message : Option String
  deriving DecidableEq

/-- The `details` object of a failure response of `errorHandler`: the keys it may
have (the `value` of a validation error, which repeats the rejected input, is not
kept). -/
structure ErrorDetails where
  validationErrors : Option (List FieldError) := none
  field : Option String := none
  value : Option String := none
  duplicateKey : Option (List (String × String)) := none
  expectedType : Option String := none
  expiredAt : Option String := none
  deriving DecidableEq

/-- The `debug` object `errorHandler` adds in development. -/
structure DebugInfo where
  originalError : String
  stack : Option String
  name : String
  deriving DecidableEq

/-- The JSON body of a failure response: the keys the handlers of this repository
put in one (`none` for a key that is absent or `undefined`, which JSON drops). -/
structure ErrorBody where
  success : Bool
  message : String
  error_type : Option String := none
  errors : Option (List Violation) := none
  field : Option String := none
  validationErrors : Option (List FieldError) := none
  timestamp : Option String := none
  path : Option String := none
  method : Option String := none
  details : Option ErrorDetails := none
  debug : Option DebugInfo := none
  requestId : Option String := none
  deriving DecidableEq

/-- What a middleware does with a request: it answers (`res.status(..).json(..)`), or
it calls `next()` with the request data it has set. -/
inductive Handled (α : Type) where
  | responded (status : Nat) (body : ErrorBody)
  | next (data : α)
  deriving DecidableEq

/-- The middleware `validate(schema, source)` applied to `req[source]`. -/
def validate {α : Type} (schema : Payload → Except (List Detail) α) (dataToValidate : Payload) :
    Handled α :=
  match schema dataToValidate with
  | .error details =>
    Handled.responded 400
      { success := false
        message := "Datos inválidos"
        errors := some (details.map fun detail => ⟨detail.key, detail.message⟩) }
  | .ok value => Handled.next value

/-- The middleware `validateBody(schema)`. -/
def validateBody {α : Type} (schema : Payload → Except (List Detail) α) (body : Payload) :
    Handled α :=
  validate schema body

/-! ## Sample data -/

/-- A sample environment: the year 2025, and a conversion that converts no string. -/
def sampleEnv : Env :=
  { currentYear := 2025, currentYear_le := by decide
    coerceNumber := fun _ => NumberCoercion.unchanged }

/-- A sample identifier. -/
def sampleId : ObjectId := ⟨"507f1f77bcf86cd799439011", by decide⟩

/-- A second sample identifier. -/
def otherId : ObjectId := ⟨"507f1f77bcf86cd799439012", by decide⟩

/-- A sample stored book. -/
def sampleBook : Book :=
  { id := sampleId, titulo := "Ficciones", autor := "Jorge Luis Borges", anoPublicacion := 1944
    estado := "disponible", createdAt := 1, updatedAt := 1 }

/-- A second sample stored book. -/
def otherBook : Book :=
  { id := otherId, titulo := "Rayuela", autor := "Julio Cortázar", anoPublicacion := 1963
    estado := "reservado", createdAt := 2, updatedAt := 2 }

/-! ## The field rules of the data model -/

/-- The rule the data model of the specification states for each field of a create
payload, in the specification's words: the title is a string of 1 to 200
characters; the author is a string of 1 to 100 characters; the publication year is
an integer from 1000 to the current year (given as a number, or as a string the
validation library converts to one); the state is absent or one of the two state
values. A key outside the schema has no rule. -/
def specFieldRule (env : Env) (key : String) (v : JsVal) : Bool :=
  if key = "titulo" then
    match v with
    | .str s => decide (1 ≤ jsLength s ∧ jsLength s ≤ 200)
    | _ => false
  else if key = "autor" then
    match v with
    | .str s => decide (1 ≤ jsLength s ∧ jsLength s ≤ 100)
    | _ => false
  else if key = "anoPublicacion" then
    match v with
    | .num q => decide (q.isInt = true ∧ 1000 ≤ q ∧ q ≤ env.currentYear)
    | .str s =>
      match env.coerceNumber s with
      | .converted q => decide (q.isInt = true ∧ 1000 ≤ q ∧ q ≤ env.currentYear)
      | _ => false
    | _ => false
  else if key = "estado" then
    match v with
    | .undefined => true
    | .str s => decide (s = BOOK_STATES.AVAILABLE ∨ s = BOOK_STATES.RESERVED)
    | _ => false
  else true

/-! ## validators: the update schema and the identifier check -/

/-- The rule of `bookSchemas.update` for `titulo`. -/
def bookSchemas.update.titulo (v : JsVal) : KeyResult String :=
  joiString "titulo" 1 200 false
    [("object.min", "Debe proporcionar al menos un campo para actualizar")] v

/-- The rule of `bookSchemas.update` for `autor`. -/
def bookSchemas.update.autor (v : JsVal) : KeyResult String :=
  joiString "autor" 1 100 false
    [("object.min", "Debe proporcionar al menos un campo para actualizar")] v

/-- The rule of `bookSchemas.update` for `anoPublicacion`. -/
def bookSchemas.update.anoPublicacion (env : Env) (v : JsVal) : KeyResult ℚ :=
  joiInteger env "anoPublicacion" 1000 env.currentYear false
    [("object.min", "Debe proporcionar al menos un campo para actualizar")] v

/-- The rule of `bookSchemas.update` for `estado`. -/
def bookSchemas.update.estado (v : JsVal) : KeyResult String :=
  joiValid "estado" BOOK_STATES.values Presence.optional
    [("object.min", "Debe proporcionar al menos un campo para actualizar")] v

/-- The number of keys of a normalised object (`Object.keys(value).length`). -/
def BookData.keyCount (value : BookData) : Nat :=
  value.titulo.toList.length + value.autor.toList.length +
    value.anoPublicacion.toList.length + value.estado.toList.length

/-- The call `bookSchemas.update.validate(data, { abortEarly: false, stripUnknown: true,
convert: true })`: the keys are checked as for `create`; when none of them has a
violation, the rule `.min(1)` of the object is checked on the normalised value,
from which the unknown keys are gone. Its violation is about the object as a whole
and names no key. -/
def bookSchemas.update.validate (env : Env) (data : Payload) : Except (List Detail) BookData :=
  match (bookSchemas.update.titulo (data.get "titulo")).details ++
      (bookSchemas.update.autor (data.get "autor")).details ++
      (bookSchemas.update.anoPublicacion env (data.get "anoPublicacion")).details ++
      (bookSchemas.update.estado (data.get "estado")).details with
  | [] =>
    if BookData.keyCount
        { titulo := (bookSchemas.update.titulo (data.get "titulo")).value
          autor := (bookSchemas.update.autor (data.get "autor")).value
          anoPublicacion := (bookSchemas.update.anoPublicacion env (data.get "anoPublicacion")).value
          estado := (bookSchemas.update.estado (data.get "estado")).value } < 1 then
      .error
        [{ key := none, type := "object.min"
           message := some "Debe proporcionar al menos un campo para actualizar" }]
    else
      .ok
        { titulo := (bookSchemas.update.titulo (data.get "titulo")).value
          autor := (bookSchemas.update.autor (data.get "autor")).value
          anoPublicacion := (bookSchemas.update.anoPublicacion env (data.get "anoPublicacion")).value
          estado := (bookSchemas.update.estado (data.get "estado")).value }
  | d :: ds => .error (d :: ds)

/-- The route parameters `req.params`. -/
abbrev Params := List (String × String)

/-- The middleware `validateMongoId(paramName)` applied to `req.params`: an absent or
empty parameter, and one the pattern does not match, are answered with 400. -/
def validateMongoId (paramName : String) (params : Params) : Handled Params :=
  match params.lookup paramName with
  | none => Handled.responded 400 { success := false, message := "ID inválido" }
  | some id =>
    if id = "" ∨ isMongoId id = false then
      Handled.responded 400 { success := false, message := "ID inválido" }
    else Handled.next params

/-! ## controllers/BookController.js and routes/books.routes.js -/

/-- The JSON body of a response: a failure body, or one of the success bodies
`{ success: true, message, data }`. -/
inductive ResBody where
  | failure (body : ErrorBody)
  | book (message : Option String) (data : Book)
  | auth (message : String) (user : Payload) (token : String)
  deriving DecidableEq

/-- What a controller does: it answers with `res.status(status).json(body)`, or it
forwards an error with `next(error)`. -/
inductive Reply where
  | json (status : Nat) (body : ResBody)
  | next (error : JsError)
  deriving DecidableEq

/-- `MESSAGES.SUCCESS.BOOK_UPDATED`. -/
def MESSAGES.SUCCESS.BOOK_UPDATED : String := "Libro actualizado exitosamente"

/-- The `catch` block of `BookController.getBookById`. -/
def BookController.getBookByIdCatch (error : JsError) : Reply :=
  if error.code = some (JsCode.str ERROR_CODES.NOT_FOUND_ERROR) then
    Reply.json 404 (ResBody.failure
      { success := false, message := error.message
        error_type := some ERROR_CODES.NOT_FOUND_ERROR })
  else if error.code = some (JsCode.str ERROR_CODES.VALIDATION_ERROR) then
    Reply.json 400 (ResBody.failure
      { success := false, message := error.message
        error_type := some ERROR_CODES.VALIDATION_ERROR })
  else Reply.next error

/-- The method `BookController.getBookById`, on the parameter `req.params.id`. -/
def BookController.getBookById (fault : Option Fault) (id : String) (db : Collection) :
    Reply × Collection :=
  match Libreria.getBookById fault id db with
  | (.ok book, db') => (Reply.json 200 (ResBody.book none book), db')
  | (.error error, db') => (BookController.getBookByIdCatch error, db')

/-- The `catch` block of `BookController.updateBook`. -/
def BookController.updateBookCatch (error : JsError) : Reply :=
  if error.code = some (JsCode.str ERROR_CODES.NOT_FOUND_ERROR) then
    Reply.json 404 (ResBody.failure
      { success := false, message := error.message
        error_type := some ERROR_CODES.NOT_FOUND_ERROR })
  else if error.code = some (JsCode.str ERROR_CODES.DUPLICATE_ERROR) then
    Reply.json 400 (ResBody.failure
      { success := false, message := error.message
        error_type := some ERROR_CODES.DUPLICATE_ERROR, field := error.field })
  else if error.code = some (JsCode.str ERROR_CODES.VALIDATION_ERROR) then
    Reply.json 400 (ResBody.failure
      { success := false, message := error.message
        error_type := some ERROR_CODES.VALIDATION_ERROR
        validationErrors := error.validationErrors })
  else Reply.next error

/-- The method `BookController.updateBook`, on `req.params.id` and `req.body`. -/
def BookController.updateBook (env : Env) (fault : Option Fault) (now : Nat) (id : String)
    (body : BookData) (db : Collection) : Reply × Collection :=
  match Libreria.updateBook env fault now id body db with
  | (.ok book, db') =>
    (Reply.json 200 (ResBody.book (some MESSAGES.SUCCESS.BOOK_UPDATED) book), db')
  | (.error error, db') => (BookController.updateBookCatch error, db')

/-- The read `req.params.id` (a string once `validateMongoId()` has let the request
through). -/
def Params.id (params : Params) : String :=
  (params.lookup "id").getD ""

/-- The route `router.get('/:id', validateMongoId(), asyncHandler(controller))`: the
controller runs when the middleware before it calls `next()`. -/
def books.routes.getById (controller : String → Collection → Reply × Collection)
    (params : Params) (db : Collection) : Reply × Collection :=
  match validateMongoId "id" params with
  | .responded status body => (Reply.json status (ResBody.failure body), db)
  | .next params' => controller params'.id db

/-- The route `router.put('/:id', authMiddleware, validateMongoId(),
validateBody(bookSchemas.update), asyncHandler(controller))`, from the point where
`authMiddleware` (of `middleware/auth.js`, which is not among the sources) has called
`next()`: each handler runs when the one before it calls `next()`. -/
def books.routes.put (env : Env) (controller : String → BookData → Collection → Reply × Collection)
    (params : Params) (body : Payload) (db : Collection) : Reply × Collection :=
  match validateMongoId "id" params with
  | .responded status errorBody => (Reply.json status (ResBody.failure errorBody), db)
  | .next params' =>
    match validateBody (bookSchemas.update.validate env) body with
    | .responded status errorBody => (Reply.json status (ResBody.failure errorBody), db)
    | .next value => controller params'.id value db

/-! ## models/User.js, services/AuthService.js and controllers/AuthController.js -/

/-- Modelled from the spec: the account document of `models/User.js`, which is not
among the sources. An account has an identifier, a username, an e-mail address
stored lower-cased, and a password hash, held in the field `password` (the field
`loginUser` asks for with `select('+password')`). -/
structure User where
  id : ObjectId
  username : String
  email : String
  password : String
  deriving DecidableEq

/-- The `users` collection, in insertion order. -/
abbrev Users := List User

/-- Modelled from the spec: the outward representation of an account, which is what
`res.json` sends for a document of `models/User.js` (not among the sources). The
specification has the identifier, the username and the e-mail address in it, and
states that the password hash is never serialized in any outward-facing
representation. -/
def User.toJSON (user : User) : Payload :=
  [("_id", JsVal.str user.id.hex), ("username", JsVal.str user.username),
    ("email", JsVal.str user.email)]

/-- The primitives the auth service takes from outside: `String.prototype.toLowerCase`;
`jwt.sign(payload, JWT.SECRET, { expiresIn: JWT.EXPIRE, algorithm: JWT.ALGORITHM })`
at the time of the call; `jwt.verify(token, JWT.SECRET)`, which returns the decoded
payload or throws; and, modelled from the spec since `models/User.js` is not among
the sources, the salted one-way hash applied to the password when an account is
saved and the method `comparePassword` of an account. -/
structure AuthEnv where
  toLowerCase : String → String
  sign : Payload → String
  verify : String → Except Fault Payload
  hash : String → String
  comparePassword : User → String → Bool

/-- `MESSAGES.ERROR.INVALID_CREDENTIALS`. -/
def MESSAGES.ERROR.INVALID_CREDENTIALS : String := "Credenciales inválidas"
/-- `MESSAGES.ERROR.INVALID_TOKEN`. -/
def MESSAGES.ERROR.INVALID_TOKEN : String := "Token inválido"
/-- `MESSAGES.ERROR.TOKEN_EXPIRED`. -/
def MESSAGES.ERROR.TOKEN_EXPIRED : String := "Token expirado"
/-- `MESSAGES.ERROR.INTERNAL_ERROR`. -/
def MESSAGES.ERROR.INTERNAL_ERROR : String := "Error interno del servidor"
/-- `MESSAGES.SUCCESS.USER_REGISTERED`. -/
def MESSAGES.SUCCESS.USER_REGISTERED : String := "Usuario registrado exitosamente"
/-- `MESSAGES.SUCCESS.LOGIN_SUCCESS`. -/
def MESSAGES.SUCCESS.LOGIN_SUCCESS : String := "Login exitoso"

/-- The expression `new Error(message)`. -/
def plainError (message : String) : JsError :=
  { name := "Error", message := message }

/-- The method `AuthService.generateToken`. -/
def generateToken (aenv : AuthEnv) (payload : Payload) : String :=
  aenv.sign payload

/-- The `catch` block of `AuthService.verifyToken`. -/
def verifyTokenCatch (error : JsError) : JsError :=
  if error.name = "TokenExpiredError" then plainError "TOKEN_EXPIRED"
  else if error.name = "JsonWebTokenError" then plainError "INVALID_TOKEN"
  else plainError "TOKEN_ERROR"

/-- The method `AuthService.verifyToken`. -/
def verifyToken (aenv : AuthEnv) (token : String) : Except JsError Payload :=
  match aenv.verify token with
  | .ok decoded => .ok decoded
  | .error error => .error (verifyTokenCatch error.toError)

/-- The argument of `registerUser`: `req.body` as `authSchemas.register` lets it
through. -/
structure UserData where
  username : String
  email : String
  password : String
  deriving DecidableEq

/-- The value `{ user, token }` the auth service returns. -/
structure AuthResult where
  user : User
  token : String
  deriving DecidableEq

/-- The error `registerUser` throws for an account that exists. -/
def userExistsError (field : String) : JsError :=
  { name := "Error", message := "El " ++ field ++ " ya está en uso"
    code := some (JsCode.str "USER_ALREADY_EXISTS"), field := some field }

/-- The method `AuthService.registerUser`, which has no `catch`: what the store throws
is thrown on. `fault` is the failure of `User.findOne`, `saveFault` that of
`user.save()` (a validator or an index of the model, or the round trip), `newId` the
identifier generated for the document. The query
`{ $or: [{ email: email.toLowerCase() }, { username }] }` yields the first account
that matches either condition. -/
def registerUser (aenv : AuthEnv) (fault saveFault : Option Fault) (newId : ObjectId)
    (userData : UserData) (users : Users) : Except JsError AuthResult × Users :=
  match fault with
  | some f => (.error f.toError, users)
  | none =>
    match users.find? fun u =>
        decide (u.email = aenv.toLowerCase userData.email ∨ u.username = userData.username) with
    | some existingUser =>
      (.error (userExistsError
        (if existingUser.email = aenv.toLowerCase userData.email then "email" else "username")),
        users)
    | none =>
      match saveFault with
      | some f => (.error f.toError, users)
      | none =>
        let user : User :=
          { id := newId, username := userData.username
            email := aenv.toLowerCase userData.email, password := aenv.hash userData.password }
        (.ok
          { user := user
            token := generateToken aenv
              [("userId", JsVal.str user.id.hex), ("email", JsVal.str user.email)] },
          users ++ [user])

/-- The error `loginUser` throws, for an unknown e-mail address and for a password
that does not match alike. -/
def invalidCredentialsError : JsError :=
  newError MESSAGES.ERROR.INVALID_CREDENTIALS ERROR_CODES.AUTHENTICATION_ERROR

/-- The method `AuthService.loginUser`, which has no `catch`; `fault` is the failure of
`User.findOne`. -/
def loginUser (aenv : AuthEnv) (fault : Option Fault) (email password : String)
    (users : Users) : Except JsError AuthResult × Users :=
  match fault with
  | some f => (.error f.toError, users)
  | none =>
    match users.find? fun u => decide (u.email = aenv.toLowerCase email) with
    | none => (.error invalidCredentialsError, users)
    | some user =>
      if aenv.comparePassword user password = false then (.error invalidCredentialsError, users)
      else
        (.ok
          { user := user
            token := generateToken aenv
              [("userId", JsVal.str user.id.hex), ("email", JsVal.str user.email)] },
          users)

/-- The `catch` block of `AuthController.register`. -/
def AuthController.registerCatch (error : JsError) : Reply :=
  if error.code = some (JsCode.str "USER_ALREADY_EXISTS") then
    Reply.json 409 (ResBody.failure
      { success := false, message := error.message
        error_type := some ERROR_CODES.DUPLICATE_ERROR, field := error.field })
  else Reply.next error

/-- The method `AuthController.register`, on `req.body`. The `user` of the result is
sent in its outward representation. -/
def AuthController.register (aenv : AuthEnv) (fault saveFault : Option Fault)
    (newId : ObjectId) (body : UserData) (users : Users) : Reply × Users :=
  match registerUser aenv fault saveFault newId body users with
  | (.ok result, users') =>
    (Reply.json 201
      (ResBody.auth MESSAGES.SUCCESS.USER_REGISTERED result.user.toJSON result.token), users')
  | (.error error, users') => (AuthController.registerCatch error, users')

/-- The `catch` block of `AuthController.login`. -/
def AuthController.loginCatch (error : JsError) : Reply :=
  if error.code = some (JsCode.str ERROR_CODES.AUTHENTICATION_ERROR) then
    Reply.json 401 (ResBody.failure
      { success := false, message := error.message
        error_type := some ERROR_CODES.AUTHENTICATION_ERROR })
  else Reply.next error

/-- The method `AuthController.login`, on the `email` and `password` of `req.body`. -/
def AuthController.login (aenv : AuthEnv) (fault : Option Fault) (email password : String)
    (users : Users) : Reply × Users :=
  match loginUser aenv fault email password users with
  | (.ok result, users') =>
    (Reply.json 200
      (ResBody.auth MESSAGES.SUCCESS.LOGIN_SUCCESS result.user.toJSON result.token), users')
  | (.error error, users') => (AuthController.loginCatch error, users')

/-- A sample of the auth primitives: ASCII lower-casing, a token that spells the
e-mail address of its payload, a verification that rejects every token as badly
signed, a hash that marks the password, and the comparison that goes with it. -/
def sampleAuthEnv : AuthEnv :=
  { toLowerCase := fun s => String.mk (s.toList.map Char.toLower)
    sign := fun payload =>
      match payload.lookup "email" with
      | some (JsVal.str e) => "token:" ++ e
      | _ => "token"
    verify := fun _ => .error { name := "JsonWebTokenError", message := "invalid signature" }
    hash := fun p => "hash:" ++ p
    comparePassword := fun u p => decide (u.password = "hash:" ++ p) }

/-- A sample account. -/
def sampleUser : User :=
  { id := sampleId, username := "prueba", email := "admin@libros.com"
    password := "hash:admin1234" }

/-! ## middleware/errorHandler.js and server.js -/

/-- The list `Object.values(ERROR_CODES)`. -/
def ERROR_CODES.values : List String :=
  [ERROR_CODES.VALIDATION_ERROR, ERROR_CODES.AUTHENTICATION_ERROR,
    ERROR_CODES.AUTHORIZATION_ERROR, ERROR_CODES.NOT_FOUND_ERROR, ERROR_CODES.DUPLICATE_ERROR,
    ERROR_CODES.INTERNAL_ERROR]

/-- The request as `errorHandler` reads it for its answer. -/
structure Req where
  path : String
  method : String
  requestId : Option String := none
  deriving DecidableEq

/-- The four variables a branch of `errorHandler` assigns. -/
structure Classified where
  statusCode : Nat
  message : String
  errorType : String
  details : Option ErrorDetails
  deriving DecidableEq

/-- The `TypeError` of `Object.values(x)` and `Object.keys(x)` for an `x` that is
`undefined` or `null`. -/
def objectTypeError : JsError :=
  { name := "TypeError", message := "Cannot convert undefined or null to object" }

/-- The status the `switch` of `errorHandler` assigns to a code. -/
def errorHandler.statusOfCode (code : String) : Nat :=
  if code = ERROR_CODES.NOT_FOUND_ERROR then 404
  else if code = ERROR_CODES.AUTHENTICATION_ERROR then 401
  else if code = ERROR_CODES.AUTHORIZATION_ERROR then 403
  else if code = ERROR_CODES.VALIDATION_ERROR then 400
  else if code = ERROR_CODES.DUPLICATE_ERROR then 409
  else 500

/-- The `details` of the branch of service errors: `validationErrors` when the error
has them, then `field` when the error has a non-empty one. -/
def errorHandler.serviceDetails (err : JsError) : Option ErrorDetails :=
  match err.field with
  | some field =>
    if field = "" then err.validationErrors.map fun ve => { validationErrors := some ve }
    else some { validationErrors := err.validationErrors, field := some field }
  | none => err.validationErrors.map fun ve => { validationErrors := some ve }

/-- The test `err.code && Object.values(ERROR_CODES).includes(err.code)`: the code
when it passes. -/
def errorHandler.serviceCode (code : Option JsCode) : Option String :=
  match code with
  | some (JsCode.str c) => if c ∈ ERROR_CODES.values then some c else none
  | _ => none

/-- The chain of `if` and `else if` of `errorHandler`, from the initial values (500,
`MESSAGES.ERROR.INTERNAL_ERROR`, `ERROR_CODES.INTERNAL_ERROR`, no details). A
`ValidationError` without `errors`, and an error of code 11000 without `keyValue`,
make the handler throw. -/
def errorHandler.classify (err : JsError) : Except JsError Classified :=
  if err.name = "ValidationError" then
    match err.errors with
    | none => .error objectTypeError
    | some errors =>
      .ok ⟨400, "Error de validación de datos", ERROR_CODES.VALIDATION_ERROR,
        some { validationErrors := some errors }⟩
  else if err.code = some (JsCode.num 11000) then
    match err.keyValue with
    | none => .error objectTypeError
    | some [] =>
      .ok ⟨409, "El undefined 'undefined' ya está en uso", ERROR_CODES.DUPLICATE_ERROR,
        some { duplicateKey := some [] }⟩
    | some ((field, value) :: rest) =>
      .ok ⟨409, "El " ++ field ++ " '" ++ value ++ "' ya está en uso",
        ERROR_CODES.DUPLICATE_ERROR,
        some { field := some field, value := some value
               duplicateKey := some ((field, value) :: rest) }⟩
  else if err.name = "CastError" then
    .ok ⟨400, "ID de recurso inválido", ERROR_CODES.VALIDATION_ERROR,
      some { field := err.path, value := err.value, expectedType := err.kind }⟩
  else if err.name = "JsonWebTokenError" then
    .ok ⟨401, MESSAGES.ERROR.INVALID_TOKEN, ERROR_CODES.AUTHENTICATION_ERROR, none⟩
  else if err.name = "TokenExpiredError" then
    .ok ⟨401, MESSAGES.ERROR.TOKEN_EXPIRED, ERROR_CODES.AUTHENTICATION_ERROR,
      some { expiredAt := err.expiredAt }⟩
  else if err.name = "MongoNetworkError" then
    .ok ⟨503, "Error de conexión con la base de datos", "DATABASE_CONNECTION_ERROR", none⟩
  else if err.name = "MongoServerError" then
    .ok ⟨503, "Error del servidor de base de datos", "DATABASE_SERVER_ERROR", none⟩
  else
    match errorHandler.serviceCode err.code with
    | some code =>
      .ok ⟨errorHandler.statusOfCode code, err.message, code, errorHandler.serviceDetails err⟩
    | none =>
      if err.type = some "entity.too.large" then
        .ok ⟨413, "El tamaño de la solicitud es demasiado grande", "PAYLOAD_TOO_LARGE", none⟩
      else if err.type = some "entity.parse.failed" then
        .ok ⟨400, "JSON inválido en la solicitud", ERROR_CODES.VALIDATION_ERROR, none⟩
      else .ok ⟨500, MESSAGES.ERROR.INTERNAL_ERROR, ERROR_CODES.INTERNAL_ERROR, none⟩

/-- The function `errorHandler(err, req, res)`: the status and the body of its
`res.status(statusCode).json(errorResponse)`, or the error it throws. `nodeEnv` is
`process.env.NODE_ENV` and `now` is `new Date().toISOString()`. (The `console.error`
at its start has no part in the answer.) -/
def errorHandler (nodeEnv : Option String) (now : String) (err : JsError) (req : Req) :
    Except JsError (Nat × ErrorBody) :=
  match errorHandler.classify err with
  | .error thrown => .error thrown
  | .ok c =>
    .ok (c.statusCode,
      { success := false
        message := c.message
        error_type := some c.errorType
        timestamp := some now
        path := some req.path
        method := some req.method
        details := c.details
        debug :=
          if nodeEnv = some "development" then
            some { originalError := err.message, stack := err.stack, name := err.name }
          else none
        requestId := req.requestId.filter fun id => decide (id ≠ "") })

/-- A function registered with `app.use`: its name and its `length`, the number of
parameters it declares. -/
structure Middleware where
  name : String
  length : Nat
  deriving DecidableEq

/-- The function `notFoundHandler = (req, res, next) => ..` as registered. -/
def server.notFoundHandler : Middleware := ⟨"notFoundHandler", 3⟩

/-- The function `errorHandler = (err, req, res) => ..` as registered. -/
def server.errorHandler : Middleware := ⟨"errorHandler", 3⟩

/-- The functions `server.js` registers after the routes, in order:
`app.use(notFoundHandler); app.use(errorHandler)`. -/
def server.afterRoutes : List Middleware := [server.notFoundHandler, server.errorHandler]

/-- Who answers an error forwarded with `next(error)`. -/
inductive ErrorResponder where
  | middleware (name : String)
  | expressDefault
  deriving DecidableEq

/-- The dispatch of a forwarded error by Express: a registered function is called
with the error only if it declares exactly four parameters; the others are skipped,
and when none is left the built-in handler of Express answers (a page that is not
JSON, with the status of the error or 500). -/
def forwardedErrorResponder (registered : List Middleware) : ErrorResponder :=
  match registered.find? fun m => m.length == 4 with
  | some m => ErrorResponder.middleware m.name
  | none => ErrorResponder.expressDefault

/-- A sample request. -/
def sampleReq : Req := { path := "/api/books", method := "GET" }

/-! ## services/BookService.js: the listings -/

/-- The list with `b` put before the first book that is not newer than it. -/
def insertNewest (b : Book) : List Book → List Book
  | [] => [b]
  | x :: rest => if x.createdAt ≤ b.createdAt then b :: x :: rest else x :: insertNewest b rest

/-- The order of `.sort({ createdAt: -1 })`: newest first. Among books created at the
same time the store promises no order; here they keep the order of the collection. -/
def sortNewestFirst : List Book → List Book
  | [] => []
  | b :: rest => insertNewest b (sortNewestFirst rest)

/-- The query `Book.find(filters).sort({ createdAt: -1 })`, with `filter` the test the
filters make on a document. -/
def Book.findSorted (fault : Option Fault) (filter : Book → Bool) (db : Collection) :
    Except Fault (List Book) × Collection :=
  match fault with
  | some f => (.error f, db)
  | none => (.ok (sortNewestFirst (db.filter filter)), db)

/-- The `catch` block of `getAllBooks`. -/
def getAllBooksCatch (error : JsError) : JsError :=
  { newError "Error al obtener los libros" ERROR_CODES.INTERNAL_ERROR with
    originalError := some error.toFault }

/-- The method `BookService.getAllBooks`. -/
def getAllBooks (fault : Option Fault) (db : Collection) : Except JsError (List Book) × Collection :=
  match Book.findSorted fault (fun _ => true) db with
  | (.ok books, db') => (.ok books, db')
  | (.error f, db') => (.error (getAllBooksCatch f.toError), db')

/-- The constructor `new RegExp(pattern, 'i')` together with the matching the store
does with the expression: for a pattern that is not a regular expression the
constructor throws (a `SyntaxError`); otherwise the result is the test the expression
makes on a string. -/
abbrev RegExpEngine := String → Except Fault (String → Bool)

/-- The argument of `getBooks`: the options `estado` and `autor`, each present or not. -/
structure BookOptions where
  estado : Option String := none
  autor : Option String := none
  deriving DecidableEq

/-- The filter `getBooks` builds for `estado`: `estado` when it is a non-empty string
among the values of `BOOK_STATES`. -/
def getBooks.estadoFilter (estado : Option String) : Option String :=
  match estado with
  | some s => if s ≠ "" ∧ s ∈ BOOK_STATES.values then some s else none
  | none => none

/-- The filter `getBooks` builds for `autor`: none for an absent or empty `autor`,
otherwise `new RegExp(autor, 'i')`, which may throw. -/
def getBooks.autorFilter (regExp : RegExpEngine) (autor : Option String) :
    Except Fault (Option (String → Bool)) :=
  match autor with
  | none => .ok none
  | some a =>
    if a = "" then .ok none
    else
      match regExp a with
      | .ok test => .ok (some test)
      | .error thrown => .error thrown

/-- The test the filters `{ estado, autor }` make on a document. -/
def getBooks.matches (estado : Option String) (autor : Option (String → Bool)) (b : Book) :
    Bool :=
  (match estado with
    | some s => decide (b.estado = s)
    | none => true) &&
  (match autor with
    | some test => test b.autor
    | none => true)

/-- The `catch` block of `getBooks`. -/
def getBooksCatch (error : JsError) : JsError :=
  { newError "Error al obtener libros" ERROR_CODES.INTERNAL_ERROR with
    originalError := some error.toFault }

/-- The `try` block of `getBooks`: the filters are built, then the store is asked. -/
def getBooksTry (regExp : RegExpEngine) (fault : Option Fault) (options : BookOptions)
    (db : Collection) : Except JsError (List Book) × Collection :=
  match getBooks.autorFilter regExp options.autor with
  | .error thrown => (.error thrown.toError, db)
  | .ok autorFilter =>
    match Book.findSorted fault
        (getBooks.matches (getBooks.estadoFilter options.estado) autorFilter) db with
    | (.ok books, db') => (.ok books, db')
    | (.error f, db') => (.error f.toError, db')

/-- The method `BookService.getBooks`. -/
def getBooks (regExp : RegExpEngine) (fault : Option Fault) (options : BookOptions)
    (db : Collection) : Except JsError (List Book) × Collection :=
  match getBooksTry regExp fault options db with
  | (.ok books, db') => (.ok books, db')
  | (.error error, db') => (.error (getBooksCatch error), db')

/-- The method `BookService.getBooksByAuthor`. -/
def getBooksByAuthor (regExp : RegExpEngine) (fault : Option Fault) (autor : String)
    (db : Collection) : Except JsError (List Book) × Collection :=
  getBooks regExp fault { autor := some autor } db

/-- A document as `.select('titulo autor anoPublicacion estado createdAt')` returns
it: the selected fields and `_id`. -/
structure RecentBook where
  id : ObjectId
  titulo : String
  autor : String
  anoPublicacion : ℚ
  estado : String
  createdAt : Nat
  deriving DecidableEq

/-- The projection `.select('titulo autor anoPublicacion estado createdAt')`. -/
def Book.select (b : Book) : RecentBook :=
  { id := b.id, titulo := b.titulo, autor := b.autor, anoPublicacion := b.anoPublicacion
    estado := b.estado, createdAt := b.createdAt }

/-- The effect of `.limit(limit)` for an integer `limit`: 0 sets no limit, and a
negative limit is the limit of its absolute value. -/
def applyLimit {α : Type} (limit : Int) (docs : List α) : List α :=
  if limit = 0 then docs else docs.take limit.natAbs

/-- The query
`Book.find().sort({ createdAt: -1 }).limit(limit).select('titulo autor anoPublicacion
estado createdAt')`. -/
def Book.findRecent (fault : Option Fault) (limit : Int) (db : Collection) :
    Except Fault (List RecentBook) × Collection :=
  match fault with
  | some f => (.error f, db)
  | none => (.ok ((applyLimit limit (sortNewestFirst db)).map Book.select), db)

/-- The `catch` block of `getRecentBooks`. -/
def getRecentBooksCatch (error : JsError) : JsError :=
  { newError "Error al obtener libros recientes" ERROR_CODES.INTERNAL_ERROR with
    originalError := some error.toFault }

/-- The method `BookService.getRecentBooks`, for an integer `limit` (a `limit` that is
not a number is refused by the store, which is a fault). -/
def getRecentBooks (fault : Option Fault) (limit : Int) (db : Collection) :
    Except JsError (List RecentBook) × Collection :=
  match Book.findRecent fault limit db with
  | (.ok books, db') => (.ok books, db')
  | (.error f, db') => (.error (getRecentBooksCatch f.toError), db')

/-- A sample of the engine: the pattern `(` is not a regular expression; the
pattern `.` matches a string that has a character other than a line terminator; a
pattern without special characters matches the strings that contain it, case aside. -/
def sampleRegExp : RegExpEngine := fun pattern =>
  if pattern = "(" then
    .error { name := "SyntaxError"
             message := "Invalid regular expression: /(/: Unterminated group" }
  else if pattern = "." then
    .ok fun s => s.toList.any fun c => decide (c.toNat ∉ [0x0A, 0x0D, 0x2028, 0x2029])
  else
    .ok fun s =>
      decide ((pattern.toList.map Char.toLower) <:+: (s.toList.map Char.toLower))

/-! ## The routes `POST /` and `GET /author/:autor` -/

/-- `MESSAGES.SUCCESS.BOOK_CREATED`. -/
def MESSAGES.SUCCESS.BOOK_CREATED : String := "Libro creado exitosamente"

/-- The `catch` block of `BookController.createBook`. -/
def BookController.createBookCatch (error : JsError) : Reply :=
  if error.code = some (JsCode.str ERROR_CODES.DUPLICATE_ERROR) then
    Reply.json 400 (ResBody.failure
      { success := false, message := error.message
        error_type := some ERROR_CODES.DUPLICATE_ERROR, field := error.field })
  else if error.code = some (JsCode.str ERROR_CODES.VALIDATION_ERROR) then
    Reply.json 400 (ResBody.failure
      { success := false, message := error.message
        error_type := some ERROR_CODES.VALIDATION_ERROR
        validationErrors := error.validationErrors })
  else Reply.next error

/-- The method `BookController.createBook`, on `req.body`. -/
def BookController.createBook (env : Env) (fault : Option Fault) (newId : ObjectId) (now : Nat)
    (body : BookData) (db : Collection) : Reply × Collection :=
  match Libreria.createBook env fault newId now body db with
  | (.ok book, db') =>
    (Reply.json 201 (ResBody.book (some MESSAGES.SUCCESS.BOOK_CREATED) book), db')
  | (.error error, db') => (BookController.createBookCatch error, db')

/-- The route `router.post('/', authMiddleware, validateBody(bookSchemas.create),
asyncHandler(controller))`, from the point where `authMiddleware` has called
`next()`: the controller runs, on the request data the middleware has set, when the
middleware calls `next()`. -/
def books.routes.post (env : Env) (controller : BookData → Collection → Reply × Collection)
    (body : Payload) (db : Collection) : Reply × Collection :=
  match validateBody (bookSchemas.create.validate env) body with
  | .responded status errorBody => (Reply.json status (ResBody.failure errorBody), db)
  | .next value => controller value db

/-- The middleware `validateParams(schema)`, on `req.params`, whose values are
strings. -/
def validateParams {α : Type} (schema : Payload → Except (List Detail) α) (params : Params) :
    Handled α :=
  validate schema (params.map fun kv => (kv.1, JsVal.str kv.2))

/-- The call `paramSchemas.bookAuthor.validate(data, ..)`: the one key `autor`, a
required string of 1 to 100 characters. -/
def paramSchemas.bookAuthor.validate (data : Payload) : Except (List Detail) String :=
  match joiString "autor" 1 100 true [("any.required", "El autor es requerido")]
      (data.get "autor") with
  | .ok (some autor) => .ok autor
  | .ok none => .error [Detail.of [("any.required", "El autor es requerido")] "autor" "any.required"]
  | .error details => .error details

/-- The middleware `validateQuery(schema)`, on `req.query`. -/
def validateQuery {α : Type} (schema : Payload → Except (List Detail) α) (query : Payload) :
    Handled α :=
  validate schema query

/-- The least `limit` the swagger block of the route `GET /recent` declares for the
query parameter (`minimum: 1`). No middleware of the route checks it: `validateQuery`
is imported in `books.routes.js` and not applied. -/
def books.routes.recent.limitMinimum : Int := 1

/-- The greatest `limit` the swagger block of the route `GET /recent` declares
(`maximum: 50`). -/
def books.routes.recent.limitMaximum : Int := 50

/-! # Properties -/

/-! ## Identifiers -/

theorem lowerHex_chars :
    ∀ c ∈ ['0', '1', '2', '3', '4', '5', '6', '7', '8', '9', 'a', 'b', 'c', 'd', 'e', 'f'],
      isHexChar c = true ∧ hexLower c = c := by decide

theorem hexLower_chars :
    ∀ c ∈ ['0', '1', '2', '3', '4', '5', '6', '7', '8', '9', 'a', 'b', 'c', 'd', 'e', 'f',
        'A', 'B', 'C', 'D', 'E', 'F'],
      hexLower c ∈ ['0', '1', '2', '3', '4', '5', '6', '7', '8', '9', 'a', 'b', 'c', 'd', 'e', 'f'] := by
  decide

theorem isMongoId_of_isCanonicalHex {s : String} (h : isCanonicalHex s = true) :
    isMongoId s = true := by
  simp only [isCanonicalHex, Bool.and_eq_true, beq_iff_eq, List.all_eq_true,
    decide_eq_true_eq] at h
  simp only [isMongoId, Bool.and_eq_true, beq_iff_eq, List.all_eq_true]
  exact ⟨h.1, fun c hc => (lowerHex_chars c (h.2 c hc)).1⟩

theorem map_hexLower_of_isCanonicalHex {s : String} (h : isCanonicalHex s = true) :
    String.mk (s.toList.map hexLower) = s := by
  simp only [isCanonicalHex, Bool.and_eq_true, beq_iff_eq, List.all_eq_true,
    decide_eq_true_eq] at h
  have hmap : s.toList.map hexLower = s.toList := by
    conv_rhs => rw [← List.map_id s.toList]
    exact List.map_congr_left fun c hc => (lowerHex_chars c (h.2 c hc)).2
  rw [hmap]
  rfl

theorem isCanonicalHex_lower_of_isMongoId {s : String} (h : isMongoId s = true) :
    isCanonicalHex (String.mk (s.toList.map hexLower)) = true := by
  simp only [isMongoId, Bool.and_eq_true, beq_iff_eq, List.all_eq_true] at h
  simp only [isCanonicalHex, Bool.and_eq_true, beq_iff_eq, List.all_eq_true,
    decide_eq_true_eq]
  refine ⟨by simpa using h.1, ?_⟩
  intro c hc
  simp only [String.toList, List.mem_map] at hc
  obtain ⟨d, hd, rfl⟩ := hc
  have hd' : d ∈ ['0', '1', '2', '3', '4', '5', '6', '7', '8', '9', 'a', 'b', 'c', 'd', 'e', 'f',
      'A', 'B', 'C', 'D', 'E', 'F'] := by
    have := h.2 d hd
    simpa [isHexChar] using this
  exact hexLower_chars d hd'

/-- A well-formed identifier string is cast to an identifier. -/
theorem castObjectId_of_isMongoId {s : String} (h : isMongoId s = true) :
    ∃ oid, castObjectId s = some oid :=
  ⟨⟨_, isCanonicalHex_lower_of_isMongoId h⟩, by
    unfold castObjectId
    rw [dif_pos ⟨h, isCanonicalHex_lower_of_isMongoId h⟩]⟩

/-- The rendering of an identifier is cast back to it. -/
theorem castObjectId_hex (oid : ObjectId) : castObjectId oid.hex = some oid := by
  have h1 := isMongoId_of_isCanonicalHex oid.canonical
  have h2 := map_hexLower_of_isCanonicalHex oid.canonical
  have h3 : isCanonicalHex (String.mk (oid.hex.toList.map hexLower)) = true := by
    rw [h2]; exact oid.canonical
  unfold castObjectId
  rw [dif_pos ⟨h1, h3⟩]
  congr 1
  cases oid
  simp_all

/-! ## The collection -/

theorem findDoc_nil (oid : ObjectId) : findDoc oid [] = none := rfl

theorem findDoc_cons (oid : ObjectId) (b : Book) (rest : Collection) :
    findDoc oid (b :: rest) = if b.id = oid then some b else findDoc oid rest := by
  by_cases h : b.id = oid <;> simp [findDoc, List.find?, h]

theorem findDoc_eq_none_iff {oid : ObjectId} {db : Collection} :
    findDoc oid db = none ↔ ∀ b ∈ db, b.id ≠ oid := by
  simp [findDoc]

theorem findDoc_append_of_forall_ne {oid : ObjectId} {pre : Collection} (rest : Collection)
    (h : ∀ x ∈ pre, x.id ≠ oid) : findDoc oid (pre ++ rest) = findDoc oid rest := by
  induction pre with
  | nil => rfl
  | cons x pre ih =>
    have hx : x.id ≠ oid := h x (List.mem_cons_self _ _)
    rw [List.cons_append, findDoc_cons, if_neg hx]
    exact ih fun y hy => h y (List.mem_cons_of_mem _ hy)

theorem findDoc_isSome_of_mem {db : Collection} {b : Book} (hb : b ∈ db) :
    ∃ b₀, findDoc b.id db = some b₀ := by
  cases h : findDoc b.id db with
  | some b₀ => exact ⟨b₀, rfl⟩
  | none => exact absurd rfl (findDoc_eq_none_iff.mp h b hb)

/-- The document a lookup finds splits the collection: nothing before it has its
identifier, and replacing or removing by identifier acts at that position. -/
theorem findDoc_some_split {oid : ObjectId} {db : Collection} {b : Book}
    (h : findDoc oid db = some b) :
    b.id = oid ∧ ∃ pre post, db = pre ++ b :: post ∧ (∀ x ∈ pre, x.id ≠ oid) ∧
      (∀ b', replaceDoc oid b' db = pre ++ b' :: post) ∧ removeDoc oid db = pre ++ post := by
  induction db with
  | nil => simp [findDoc] at h
  | cons x rest ih =>
    rw [findDoc_cons] at h
    by_cases hx : x.id = oid
    · rw [if_pos hx] at h
      cases h
      exact ⟨hx, [], rest, rfl, by simp, fun b' => by simp [replaceDoc, hx], by simp [removeDoc, hx]⟩
    · rw [if_neg hx] at h
      obtain ⟨hid, pre, post, hdb, hpre, hrep, hrem⟩ := ih h
      refine ⟨hid, x :: pre, post, by simp [hdb], ?_, ?_, ?_⟩
      · intro y hy
        rcases List.mem_cons.mp hy with rfl | hy
        · exact hx
        · exact hpre y hy
      · intro b'
        simp [replaceDoc, hx, hrep b']
      · simp [removeDoc, hx, hrem]

/-! ## The services on a store that answers -/

/-- The error `new Error('Libro no encontrado')` with code `NOT_FOUND_ERROR`. -/
theorem notFound_not_cast_or_validation :
    (newError "Libro no encontrado" ERROR_CODES.NOT_FOUND_ERROR).name ≠ "CastError" ∧
    (newError "Libro no encontrado" ERROR_CODES.NOT_FOUND_ERROR).name ≠ "ValidationError" ∧
    (newError "Libro no encontrado" ERROR_CODES.NOT_FOUND_ERROR).code =
      some (JsCode.str ERROR_CODES.NOT_FOUND_ERROR) := by decide

theorem updateBookCatch_notFound :
    updateBookCatch (newError "Libro no encontrado" ERROR_CODES.NOT_FOUND_ERROR) =
      newError "Libro no encontrado" ERROR_CODES.NOT_FOUND_ERROR := by decide

theorem updateBook_of_found {env : Env} {now : Nat} {bookId : String} {upd : BookData}
    {db : Collection} {oid : ObjectId} {b : Book} (hc : castObjectId bookId = some oid)
    (hv : validateUpdate env (castUpdate upd) = []) (hf : findDoc oid db = some b) :
    updateBook env none now bookId upd db =
      (.ok (applyUpdate (castUpdate upd) now b),
        replaceDoc oid (applyUpdate (castUpdate upd) now b) db) := by
  simp [updateBook, updateBookTry, Book.findByIdAndUpdate, hc, hv, hf]

theorem updateBook_of_not_found {env : Env} {now : Nat} {bookId : String} {upd : BookData}
    {db : Collection} {oid : ObjectId} (hc : castObjectId bookId = some oid)
    (hv : validateUpdate env (castUpdate upd) = []) (hf : findDoc oid db = none) :
    updateBook env none now bookId upd db =
      (.error (newError "Libro no encontrado" ERROR_CODES.NOT_FOUND_ERROR), db) := by
  simp [updateBook, updateBookTry, Book.findByIdAndUpdate, hc, hv, hf, updateBookCatch_notFound]

theorem validateUpdate_estado {env : Env} {s : String} (hs : s ∈ BOOK_STATES.values) :
    validateUpdate env (castUpdate { estado := some s }) = [] := by
  simp [validateUpdate, castUpdate, validateEstado, hs]

theorem changeBookState_of_mem {env : Env} {fault : Option Fault} {now : Nat} {bookId : String}
    {s : String} {db : Collection} (hs : s ∈ BOOK_STATES.values) :
    changeBookState env fault now bookId (.str s) db =
      updateBook env fault now bookId { estado := some s } db := by
  simp [changeBookState, includesState, hs]

theorem findDoc_replaceDoc {oid : ObjectId} {db : Collection} {b b' : Book}
    (hf : findDoc oid db = some b) (hid : b'.id = oid) :
    findDoc oid (replaceDoc oid b' db) = some b' := by
  obtain ⟨_, pre, post, _, hpre, hrep, _⟩ := findDoc_some_split hf
  rw [hrep b', findDoc_append_of_forall_ne _ hpre, findDoc_cons, if_pos hid]

/-! ## Changing the state of a book -/

/-- C1: on a store that answers, for every book of the collection, whatever its
current state, and for either target state, `changeBookState` called with the
book's identifier succeeds and returns a record of that identifier whose state is
the target; a second call on the resulting collection, with either target (the
opposite one, or the same one again), succeeds in the same way. -/
theorem changeBookState_succeeds_for_either_target (env : Env) (now₁ now₂ : Nat)
    (db : Collection) (b : Book) (target₁ target₂ : String) (hb : b ∈ db)
    (h₁ : target₁ = BOOK_STATES.AVAILABLE ∨ target₁ = BOOK_STATES.RESERVED)
    (h₂ : target₂ = BOOK_STATES.AVAILABLE ∨ target₂ = BOOK_STATES.RESERVED) :
    ∃ b₁ db₁, changeBookState env none now₁ b.id.hex (JsVal.str target₁) db = (.ok b₁, db₁) ∧
      b₁.id = b.id ∧ b₁.estado = target₁ ∧
      ∃ b₂ db₂, changeBookState env none now₂ b.id.hex (JsVal.str target₂) db₁ = (.ok b₂, db₂) ∧
        b₂.id = b.id ∧ b₂.estado = target₂ := by
  have hs₁ : target₁ ∈ BOOK_STATES.values := by
    rcases h₁ with rfl | rfl <;> decide
  have hs₂ : target₂ ∈ BOOK_STATES.values := by
    rcases h₂ with rfl | rfl <;> decide
  obtain ⟨b₀, hf⟩ := findDoc_isSome_of_mem hb
  have hid₀ : b₀.id = b.id := (findDoc_some_split hf).1
  have hc := castObjectId_hex b.id
  have hf₁ : findDoc b.id (replaceDoc b.id (applyUpdate (castUpdate { estado := some target₁ })
      now₁ b₀) db) = some (applyUpdate (castUpdate { estado := some target₁ }) now₁ b₀) :=
    findDoc_replaceDoc hf hid₀
  refine ⟨applyUpdate (castUpdate { estado := some target₁ }) now₁ b₀,
    replaceDoc b.id (applyUpdate (castUpdate { estado := some target₁ }) now₁ b₀) db, ?_, ?_, ?_,
    applyUpdate (castUpdate { estado := some target₂ }) now₂
      (applyUpdate (castUpdate { estado := some target₁ }) now₁ b₀),
    replaceDoc b.id (applyUpdate (castUpdate { estado := some target₂ }) now₂
      (applyUpdate (castUpdate { estado := some target₁ }) now₁ b₀))
      (replaceDoc b.id (applyUpdate (castUpdate { estado := some target₁ }) now₁ b₀) db),
    ?_, ?_, ?_⟩
  · rw [changeBookState_of_mem hs₁]
    exact updateBook_of_found hc (validateUpdate_estado hs₁) hf
  · exact hid₀
  · rfl
  · rw [changeBookState_of_mem hs₂]
    exact updateBook_of_found hc (validateUpdate_estado hs₂) hf₁
  · exact hid₀
  · rfl

/-- Witness of C1: the sample book is reserved, then made available again. -/
theorem changeBookState_succeeds_for_either_target_witness :
    sampleBook ∈ [otherBook, sampleBook] ∧
    ∃ b₁ db₁, changeBookState sampleEnv none 5 sampleBook.id.hex (JsVal.str "reservado")
        [otherBook, sampleBook] = (.ok b₁, db₁) ∧
      b₁.id = sampleBook.id ∧ b₁.estado = "reservado" ∧
      ∃ b₂ db₂, changeBookState sampleEnv none 6 sampleBook.id.hex (JsVal.str "disponible") db₁ =
          (.ok b₂, db₂) ∧
        b₂.id = sampleBook.id ∧ b₂.estado = "disponible" :=
  ⟨by decide,
    changeBookState_succeeds_for_either_target sampleEnv 5 6 [otherBook, sampleBook] sampleBook
      "reservado" "disponible" (by decide) (Or.inr rfl) (Or.inl rfl)⟩

/-- C2: for every identifier string (well-formed or not, of a stored book or not),
every collection and every state of the store (answering or failing), a `newState`
that is neither of the two recognised state values makes `changeBookState` fail with
the error "Estado de libro inválido" of code `VALIDATION_ERROR`, and the collection
is the one it was: the outcome depends neither on the lookup nor on the identifier. -/
theorem changeBookState_rejects_unrecognised_state (env : Env) (fault : Option Fault)
    (now : Nat) (bookId : String) (newState : JsVal) (db : Collection)
    (h₁ : newState ≠ JsVal.str BOOK_STATES.AVAILABLE)
    (h₂ : newState ≠ JsVal.str BOOK_STATES.RESERVED) :
    changeBookState env fault now bookId newState db =
        (.error (newError "Estado de libro inválido" ERROR_CODES.VALIDATION_ERROR), db) ∧
      (newError "Estado de libro inválido" ERROR_CODES.VALIDATION_ERROR).code =
        some (JsCode.str "VALIDATION_ERROR") := by
  refine ⟨?_, rfl⟩
  have hi : includesState newState = false := by
    cases newState with
    | str s =>
      have hs : s ∉ BOOK_STATES.values := by
        intro hmem
        simp only [BOOK_STATES.values, List.mem_cons, List.mem_singleton, List.not_mem_nil,
          or_false] at hmem
        rcases hmem with rfl | rfl
        · exact h₁ rfl
        · exact h₂ rfl
      simp [includesState, hs]
    | _ => rfl
  simp [changeBookState, hi]

/-- Witness of C2: the state "prestado" on the sample collection. -/
theorem changeBookState_rejects_unrecognised_state_witness :
    JsVal.str "prestado" ≠ JsVal.str BOOK_STATES.AVAILABLE ∧
    JsVal.str "prestado" ≠ JsVal.str BOOK_STATES.RESERVED ∧
    changeBookState sampleEnv none 5 sampleId.hex (JsVal.str "prestado") [sampleBook] =
        (.error (newError "Estado de libro inválido" ERROR_CODES.VALIDATION_ERROR),
          [sampleBook]) ∧
      (newError "Estado de libro inválido" ERROR_CODES.VALIDATION_ERROR).code =
        some (JsCode.str "VALIDATION_ERROR") :=
  ⟨by decide, by decide,
    changeBookState_rejects_unrecognised_state sampleEnv none 5 sampleId.hex
      (JsVal.str "prestado") [sampleBook] (by decide) (by decide)⟩

/-- C3: for every recognised `newState`, every identifier string, every collection
and every state of the store, `changeBookState(id, newState)` has the result and the
effect of `updateBook(id, { estado: newState })`. When the identifier is that of a
stored book and the store answers, the collection afterwards differs from the one
before at the position of that book only, and the record there, which is the one
returned, is the previous record with `estado` set to `newState` (and `updatedAt`
set by the store): title, author, year, identifier and creation time are kept. -/
theorem changeBookState_eq_updateBook_and_frame (env : Env) (fault : Option Fault) (now : Nat)
    (bookId : String) (newState : String) (db : Collection)
    (hs : newState = BOOK_STATES.AVAILABLE ∨ newState = BOOK_STATES.RESERVED) :
    changeBookState env fault now bookId (JsVal.str newState) db =
        updateBook env fault now bookId { estado := some newState } db ∧
      ∀ oid b, castObjectId bookId = some oid → findDoc oid db = some b →
        ∃ pre post, db = pre ++ b :: post ∧ (∀ x ∈ pre, x.id ≠ oid) ∧
          changeBookState env none now bookId (JsVal.str newState) db =
            (.ok { b with estado := newState, updatedAt := now },
              pre ++ { b with estado := newState, updatedAt := now } :: post) := by
  have hs' : newState ∈ BOOK_STATES.values := by
    rcases hs with rfl | rfl <;> decide
  refine ⟨changeBookState_of_mem hs', ?_⟩
  intro oid b hc hf
  obtain ⟨_, pre, post, hdb, hpre, hrep, _⟩ := findDoc_some_split hf
  refine ⟨pre, post, hdb, hpre, ?_⟩
  rw [changeBookState_of_mem hs', updateBook_of_found hc (validateUpdate_estado hs') hf, hrep]
  rfl

/-- Witness of C3: reserving the sample book. -/
theorem changeBookState_eq_updateBook_and_frame_witness :
    ("reservado" = BOOK_STATES.AVAILABLE ∨ "reservado" = BOOK_STATES.RESERVED) ∧
    (changeBookState sampleEnv none 5 sampleId.hex (JsVal.str "reservado")
          [otherBook, sampleBook] =
        updateBook sampleEnv none 5 sampleId.hex { estado := some "reservado" }
          [otherBook, sampleBook] ∧
      ∀ oid b, castObjectId sampleId.hex = some oid →
        findDoc oid [otherBook, sampleBook] = some b →
        ∃ pre post, [otherBook, sampleBook] = pre ++ b :: post ∧ (∀ x ∈ pre, x.id ≠ oid) ∧
          changeBookState sampleEnv none 5 sampleId.hex (JsVal.str "reservado")
              [otherBook, sampleBook] =
            (.ok { b with estado := "reservado", updatedAt := 5 },
              pre ++ { b with estado := "reservado", updatedAt := 5 } :: post)) :=
  ⟨Or.inr rfl,
    changeBookState_eq_updateBook_and_frame sampleEnv none 5 sampleId.hex "reservado"
      [otherBook, sampleBook] (Or.inr rfl)⟩

/-! ## Reading and deleting a book -/

theorem getBookByIdCatch_notFound :
    getBookByIdCatch (newError "Libro no encontrado" ERROR_CODES.NOT_FOUND_ERROR) =
      newError "Libro no encontrado" ERROR_CODES.NOT_FOUND_ERROR := by decide

theorem deleteBookCatch_notFound :
    deleteBookCatch (newError "Libro no encontrado" ERROR_CODES.NOT_FOUND_ERROR) =
      newError "Libro no encontrado" ERROR_CODES.NOT_FOUND_ERROR := by decide

theorem getBookById_db (fault : Option Fault) (bookId : String) (db : Collection) :
    (getBookById fault bookId db).2 = db := by
  cases hc : castObjectId bookId with
  | none => simp [getBookById, getBookByIdTry, Book.findById, hc]
  | some oid =>
    cases fault with
    | some f => simp [getBookById, getBookByIdTry, Book.findById, hc]
    | none =>
      cases hf : findDoc oid db <;> simp [getBookById, getBookByIdTry, Book.findById, hc, hf]

theorem getBookById_of_found {bookId : String} {db : Collection} {oid : ObjectId} {b : Book}
    (hc : castObjectId bookId = some oid) (hf : findDoc oid db = some b) :
    getBookById none bookId db = (.ok b, db) := by
  simp [getBookById, getBookByIdTry, Book.findById, hc, hf]

theorem getBookById_of_not_found {bookId : String} {db : Collection} {oid : ObjectId}
    (hc : castObjectId bookId = some oid) (hf : findDoc oid db = none) :
    getBookById none bookId db =
      (.error (newError "Libro no encontrado" ERROR_CODES.NOT_FOUND_ERROR), db) := by
  simp [getBookById, getBookByIdTry, Book.findById, hc, hf, getBookByIdCatch_notFound]

theorem deleteBook_of_found {bookId : String} {db : Collection} {oid : ObjectId} {b : Book}
    (hc : castObjectId bookId = some oid) (hf : findDoc oid db = some b) :
    deleteBook none bookId db = (.ok b, removeDoc oid db) := by
  simp [deleteBook, deleteBookTry, Book.findByIdAndDelete, hc, hf]

theorem deleteBook_of_not_found {bookId : String} {db : Collection} {oid : ObjectId}
    (hc : castObjectId bookId = some oid) (hf : findDoc oid db = none) :
    deleteBook none bookId db =
      (.error (newError "Libro no encontrado" ERROR_CODES.NOT_FOUND_ERROR), db) := by
  simp [deleteBook, deleteBookTry, Book.findByIdAndDelete, hc, hf, deleteBookCatch_notFound]

/-- A deletion that succeeds found its document on a store that answered. -/
theorem deleteBook_ok_inv {fault : Option Fault} {bookId : String} {db db' : Collection}
    {deleted : Book} (h : deleteBook fault bookId db = (.ok deleted, db')) :
    ∃ oid, castObjectId bookId = some oid ∧ findDoc oid db = some deleted ∧
      db' = removeDoc oid db := by
  unfold deleteBook deleteBookTry Book.findByIdAndDelete at h
  cases hc : castObjectId bookId with
  | none => simp [hc] at h
  | some oid =>
    cases fault with
    | some f => simp [hc] at h
    | none =>
      cases hf : findDoc oid db with
      | none => simp [hc, hf] at h
      | some b =>
        simp only [hc, hf, Prod.mk.injEq, Except.ok.injEq] at h
        exact ⟨oid, rfl, by rw [hf, h.1], h.2.symm⟩

/-- With identifiers that are unique in the collection, no document of the removed
identifier is left. -/
theorem findDoc_removeDoc_of_nodup {oid : ObjectId} {db : Collection} {b : Book}
    (hu : (db.map Book.id).Nodup) (hf : findDoc oid db = some b) :
    findDoc oid (removeDoc oid db) = none := by
  obtain ⟨hid, pre, post, hdb, hpre, _, hrem⟩ := findDoc_some_split hf
  rw [hrem, findDoc_eq_none_iff]
  intro x hx
  rcases List.mem_append.mp hx with hx | hx
  · exact hpre x hx
  · intro hxid
    rw [hdb, List.map_append, List.map_cons] at hu
    have hnd := (List.nodup_append.mp hu).2.1
    have hnot := (List.nodup_cons.mp hnd).1
    apply hnot
    rw [hid, ← hxid]
    exact List.mem_map_of_mem _ hx

/-- C7: for every well-formed identifier string (24 hexadecimal digits), on a store
that answers, `getBookById` returns a stored book of that identifier when there is
one, and fails exactly when there is none, the failure being the error "Libro no
encontrado" of code `NOT_FOUND_ERROR`: the `catch` block hands that error on as it
is, so its code is not `INTERNAL_SERVER_ERROR`. The collection is the one it was,
whatever the store does. -/
theorem getBookById_found_or_not_found (bookId : String) (db : Collection)
    (hid : isMongoId bookId = true) :
    ∃ oid, castObjectId bookId = some oid ∧
      ((∃ b ∈ db, b.id = oid) →
        ∃ b ∈ db, b.id = oid ∧ getBookById none bookId db = (.ok b, db)) ∧
      ((∀ b ∈ db, b.id ≠ oid) ↔
        (getBookById none bookId db).1 =
          .error (newError "Libro no encontrado" ERROR_CODES.NOT_FOUND_ERROR)) ∧
      (∀ e, (getBookById none bookId db).1 = .error e →
        e = newError "Libro no encontrado" ERROR_CODES.NOT_FOUND_ERROR ∧
          e.code = some (JsCode.str "NOT_FOUND_ERROR")) ∧
      getBookByIdCatch (newError "Libro no encontrado" ERROR_CODES.NOT_FOUND_ERROR) =
        newError "Libro no encontrado" ERROR_CODES.NOT_FOUND_ERROR ∧
      ∀ fault, (getBookById fault bookId db).2 = db := by
  obtain ⟨oid, hc⟩ := castObjectId_of_isMongoId hid
  refine ⟨oid, hc, ?_, ?_, ?_, getBookByIdCatch_notFound, fun fault => getBookById_db fault bookId db⟩
  · rintro ⟨b, hb, hbid⟩
    cases hf : findDoc oid db with
    | none => exact absurd hbid (findDoc_eq_none_iff.mp hf b hb)
    | some b₀ =>
      obtain ⟨hid₀, pre, post, hdb, _⟩ := findDoc_some_split hf
      exact ⟨b₀, by simp [hdb], hid₀, getBookById_of_found hc hf⟩
  · constructor
    · intro hnone
      rw [getBookById_of_not_found hc (findDoc_eq_none_iff.mpr hnone)]
    · intro herr
      cases hf : findDoc oid db with
      | none => exact findDoc_eq_none_iff.mp hf
      | some b₀ => simp [getBookById_of_found hc hf] at herr
  · intro e he
    cases hf : findDoc oid db with
    | none =>
      rw [getBookById_of_not_found hc hf] at he
      simp only [Except.error.injEq] at he
      subst he
      exact ⟨rfl, rfl⟩
    | some b₀ => simp [getBookById_of_found hc hf] at he

/-- Witness of C7: the identifier of the sample book, spelled in upper case. -/
theorem getBookById_found_or_not_found_witness :
    isMongoId "507F1F77BCF86CD799439011" = true ∧
    ∃ oid, castObjectId "507F1F77BCF86CD799439011" = some oid ∧
      ((∃ b ∈ [otherBook, sampleBook], b.id = oid) →
        ∃ b ∈ [otherBook, sampleBook], b.id = oid ∧
          getBookById none "507F1F77BCF86CD799439011" [otherBook, sampleBook] =
            (.ok b, [otherBook, sampleBook])) ∧
      ((∀ b ∈ [otherBook, sampleBook], b.id ≠ oid) ↔
        (getBookById none "507F1F77BCF86CD799439011" [otherBook, sampleBook]).1 =
          .error (newError "Libro no encontrado" ERROR_CODES.NOT_FOUND_ERROR)) ∧
      (∀ e, (getBookById none "507F1F77BCF86CD799439011" [otherBook, sampleBook]).1 = .error e →
        e = newError "Libro no encontrado" ERROR_CODES.NOT_FOUND_ERROR ∧
          e.code = some (JsCode.str "NOT_FOUND_ERROR")) ∧
      getBookByIdCatch (newError "Libro no encontrado" ERROR_CODES.NOT_FOUND_ERROR) =
        newError "Libro no encontrado" ERROR_CODES.NOT_FOUND_ERROR ∧
      ∀ fault, (getBookById fault "507F1F77BCF86CD799439011" [otherBook, sampleBook]).2 =
        [otherBook, sampleBook] :=
  ⟨by decide,
    getBookById_found_or_not_found "507F1F77BCF86CD799439011" [otherBook, sampleBook]
      (by decide)⟩

/-- C8: in a collection whose identifiers are unique (the store's index on `_id`),
after a `deleteBook(id)` that succeeded, `getBookById(id)` on the resulting
collection, on a store that answers, fails with the error "Libro no encontrado" of
code `NOT_FOUND_ERROR`; and for the identifier of a stored book the deletion does
succeed. -/
theorem getBookById_after_deleteBook (fault : Option Fault) (bookId : String)
    (db db' : Collection) (deleted : Book) (hu : (db.map Book.id).Nodup)
    (h : deleteBook fault bookId db = (.ok deleted, db')) :
    getBookById none bookId db' =
        (.error (newError "Libro no encontrado" ERROR_CODES.NOT_FOUND_ERROR), db') ∧
      (newError "Libro no encontrado" ERROR_CODES.NOT_FOUND_ERROR).code =
        some (JsCode.str "NOT_FOUND_ERROR") ∧
      ∀ b ∈ db, ∃ d, deleteBook none b.id.hex db = (.ok d, removeDoc b.id db) := by
  obtain ⟨oid, hc, hf, hdb'⟩ := deleteBook_ok_inv h
  refine ⟨?_, rfl, ?_⟩
  · rw [hdb']
    exact getBookById_of_not_found hc (findDoc_removeDoc_of_nodup hu hf)
  · intro b hb
    obtain ⟨b₀, hf₀⟩ := findDoc_isSome_of_mem hb
    exact ⟨b₀, deleteBook_of_found (castObjectId_hex b.id) hf₀⟩

/-- Witness of C8: the sample book is deleted from a collection of two. -/
theorem getBookById_after_deleteBook_witness :
    ([otherBook, sampleBook].map Book.id).Nodup ∧
    deleteBook none sampleId.hex [otherBook, sampleBook] = (.ok sampleBook, [otherBook]) ∧
    (getBookById none sampleId.hex [otherBook] =
        (.error (newError "Libro no encontrado" ERROR_CODES.NOT_FOUND_ERROR), [otherBook]) ∧
      (newError "Libro no encontrado" ERROR_CODES.NOT_FOUND_ERROR).code =
        some (JsCode.str "NOT_FOUND_ERROR") ∧
      ∀ b ∈ [otherBook, sampleBook],
        ∃ d, deleteBook none b.id.hex [otherBook, sampleBook] =
          (.ok d, removeDoc b.id [otherBook, sampleBook])) :=
  ⟨by decide, by decide,
    getBookById_after_deleteBook none sampleId.hex [otherBook, sampleBook] [otherBook] sampleBook
      (by decide) (by decide)⟩

/-- C9: for every well-formed identifier string, on a store that answers,
`deleteBook` fails exactly when no book of the collection has the identifier; the
failure is the error "Libro no encontrado" of code `NOT_FOUND_ERROR` and the
collection is the one it was. When it succeeds, the record returned is a record of
that identifier as it stood in the collection, and the collection afterwards is the
one before without that one entry. -/
theorem deleteBook_not_found_iff_and_removes_one (bookId : String) (db : Collection)
    (hid : isMongoId bookId = true) :
    ∃ oid, castObjectId bookId = some oid ∧
      ((∀ b ∈ db, b.id ≠ oid) ↔
        deleteBook none bookId db =
          (.error (newError "Libro no encontrado" ERROR_CODES.NOT_FOUND_ERROR), db)) ∧
      (∀ e, (deleteBook none bookId db).1 = .error e →
        (∀ b ∈ db, b.id ≠ oid) ∧ e.code = some (JsCode.str "NOT_FOUND_ERROR")) ∧
      ∀ deleted db', deleteBook none bookId db = (.ok deleted, db') →
        deleted.id = oid ∧
          ∃ pre post, db = pre ++ deleted :: post ∧ db' = pre ++ post ∧
            ∀ x ∈ pre, x.id ≠ oid := by
  obtain ⟨oid, hc⟩ := castObjectId_of_isMongoId hid
  refine ⟨oid, hc, ?_, ?_, ?_⟩
  · constructor
    · intro hnone
      exact deleteBook_of_not_found hc (findDoc_eq_none_iff.mpr hnone)
    · intro herr
      cases hf : findDoc oid db with
      | none => exact findDoc_eq_none_iff.mp hf
      | some b₀ => simp [deleteBook_of_found hc hf] at herr
  · intro e he
    cases hf : findDoc oid db with
    | none =>
      rw [deleteBook_of_not_found hc hf] at he
      simp only [Except.error.injEq] at he
      subst he
      exact ⟨findDoc_eq_none_iff.mp hf, rfl⟩
    | some b₀ => simp [deleteBook_of_found hc hf] at he
  · intro deleted db' h
    obtain ⟨oid', hc', hf, hdb'⟩ := deleteBook_ok_inv h
    have : oid' = oid := by
      rw [hc] at hc'
      exact (Option.some.inj hc').symm
    subst this
    obtain ⟨hid', pre, post, hdb, hpre, _, hrem⟩ := findDoc_some_split hf
    exact ⟨hid', pre, post, hdb, by rw [hdb', hrem], hpre⟩

/-- Witness of C9: the identifier of the sample book. -/
theorem deleteBook_not_found_iff_and_removes_one_witness :
    isMongoId sampleId.hex = true ∧
    ∃ oid, castObjectId sampleId.hex = some oid ∧
      ((∀ b ∈ [otherBook, sampleBook], b.id ≠ oid) ↔
        deleteBook none sampleId.hex [otherBook, sampleBook] =
          (.error (newError "Libro no encontrado" ERROR_CODES.NOT_FOUND_ERROR),
            [otherBook, sampleBook])) ∧
      (∀ e, (deleteBook none sampleId.hex [otherBook, sampleBook]).1 = .error e →
        (∀ b ∈ [otherBook, sampleBook], b.id ≠ oid) ∧
          e.code = some (JsCode.str "NOT_FOUND_ERROR")) ∧
      ∀ deleted db', deleteBook none sampleId.hex [otherBook, sampleBook] = (.ok deleted, db') →
        deleted.id = oid ∧
          ∃ pre post, [otherBook, sampleBook] = pre ++ deleted :: post ∧ db' = pre ++ post ∧
            ∀ x ∈ pre, x.id ≠ oid :=
  ⟨by decide,
    deleteBook_not_found_iff_and_removes_one sampleId.hex [otherBook, sampleBook] (by decide)⟩

/-! ## Updating a book -/

theorem updateBook_of_invalid {env : Env} {now : Nat} {bookId : String} {upd : BookData}
    {db : Collection} {oid : ObjectId} (hc : castObjectId bookId = some oid)
    (hv : validateUpdate env (castUpdate upd) ≠ []) :
    updateBook env none now bookId upd db =
      (.error
        { newError "Datos de actualización inválidos" ERROR_CODES.VALIDATION_ERROR with
          validationErrors := some (validateUpdate env (castUpdate upd)) }, db) := by
  cases hl : validateUpdate env (castUpdate upd) with
  | nil => exact absurd hl hv
  | cons e es =>
    simp [updateBook, updateBookTry, Book.findByIdAndUpdate, hc, hl, updateBookCatch,
      validationFault, Fault.toError]

/-- C10, what fails: a title given with surrounding blanks is stored and returned
trimmed, so the returned record does not hold the value of the update data; and for
an identifier that resolves to no book, update data whose title is blank is
rejected by the validators of the model, which run before the lookup, with a
`VALIDATION_ERROR` and not with `NOT_FOUND_ERROR`. -/
theorem updateBook_counterexample :
    (∃ b db', updateBook sampleEnv none 5 sampleId.hex { titulo := some " Ficciones " }
        [sampleBook] = (.ok b, db') ∧ b.titulo ≠ " Ficciones ") ∧
    ((∀ b ∈ [sampleBook], b.id ≠ otherId) ∧ castObjectId otherId.hex = some otherId ∧
      ∃ e, updateBook sampleEnv none 5 otherId.hex { titulo := some "  " } [sampleBook] =
          (.error e, [sampleBook]) ∧
        e.code = some (JsCode.str "VALIDATION_ERROR") ∧
        e.code ≠ some (JsCode.str "NOT_FOUND_ERROR")) := by
  refine ⟨⟨{ sampleBook with titulo := "Ficciones", updatedAt := 5 },
    [{ sampleBook with titulo := "Ficciones", updatedAt := 5 }], by decide, by decide⟩,
    by decide, by decide,
    { newError "Datos de actualización inválidos" ERROR_CODES.VALIDATION_ERROR with
      validationErrors := some [⟨"titulo", "El título es requerido", "required"⟩] },
    by decide, by decide, by decide⟩

/-- C10, as amended: for every well-formed identifier string, on a store that
answers, update data that fails the validators of the model (which see the strings
trimmed and run before the lookup) is rejected with a `VALIDATION_ERROR`, the
collection being the one it was. For update data that passes them, `updateBook`
fails with the error "Libro no encontrado" of code `NOT_FOUND_ERROR` when no book
has the identifier (collection unchanged); otherwise it returns the record stored
under that identifier after the write, in which title and author present in the
update data have their new value trimmed, year and state present in it have their
new value, and every field absent from it keeps its previous value, as do the
identifier and the creation time. -/
theorem updateBook_returns_post_update_record (env : Env) (now : Nat) (bookId : String)
    (upd : BookData) (db : Collection) (hid : isMongoId bookId = true) :
    ∃ oid, castObjectId bookId = some oid ∧
      (validateUpdate env (castUpdate upd) ≠ [] →
        ∃ e, updateBook env none now bookId upd db = (.error e, db) ∧
          e.code = some (JsCode.str "VALIDATION_ERROR")) ∧
      (validateUpdate env (castUpdate upd) = [] →
        ((∀ b ∈ db, b.id ≠ oid) →
          updateBook env none now bookId upd db =
            (.error (newError "Libro no encontrado" ERROR_CODES.NOT_FOUND_ERROR), db)) ∧
        ∀ b, findDoc oid db = some b →
          ∃ b' db', updateBook env none now bookId upd db = (.ok b', db') ∧
            findDoc oid db' = some b' ∧
            b'.titulo = (upd.titulo.map jsTrim).getD b.titulo ∧
            b'.autor = (upd.autor.map jsTrim).getD b.autor ∧
            b'.anoPublicacion = upd.anoPublicacion.getD b.anoPublicacion ∧
            b'.estado = upd.estado.getD b.estado ∧
            b'.id = b.id ∧ b'.createdAt = b.createdAt) := by
  obtain ⟨oid, hc⟩ := castObjectId_of_isMongoId hid
  refine ⟨oid, hc, ?_, ?_⟩
  · intro hv
    exact ⟨_, updateBook_of_invalid hc hv, rfl⟩
  · intro hv
    refine ⟨fun hnone => updateBook_of_not_found hc hv (findDoc_eq_none_iff.mpr hnone), ?_⟩
    intro b hf
    have hbid : b.id = oid := (findDoc_some_split hf).1
    exact ⟨_, _, updateBook_of_found hc hv hf, findDoc_replaceDoc hf hbid, rfl, rfl, rfl, rfl,
      rfl, rfl⟩

/-- Witness of C10 as amended: the identifier of the sample book. -/
theorem updateBook_returns_post_update_record_witness :
    isMongoId sampleId.hex = true ∧
    ∃ oid, castObjectId sampleId.hex = some oid ∧
      (validateUpdate sampleEnv (castUpdate { titulo := some " El Aleph " }) ≠ [] →
        ∃ e, updateBook sampleEnv none 5 sampleId.hex { titulo := some " El Aleph " }
            [sampleBook] = (.error e, [sampleBook]) ∧
          e.code = some (JsCode.str "VALIDATION_ERROR")) ∧
      (validateUpdate sampleEnv (castUpdate { titulo := some " El Aleph " }) = [] →
        ((∀ b ∈ [sampleBook], b.id ≠ oid) →
          updateBook sampleEnv none 5 sampleId.hex { titulo := some " El Aleph " } [sampleBook] =
            (.error (newError "Libro no encontrado" ERROR_CODES.NOT_FOUND_ERROR),
              [sampleBook])) ∧
        ∀ b, findDoc oid [sampleBook] = some b →
          ∃ b' db', updateBook sampleEnv none 5 sampleId.hex { titulo := some " El Aleph " }
              [sampleBook] = (.ok b', db') ∧
            findDoc oid db' = some b' ∧
            b'.titulo = ((some " El Aleph ").map jsTrim).getD b.titulo ∧
            b'.autor = ((none : Option String).map jsTrim).getD b.autor ∧
            b'.anoPublicacion = (none : Option ℚ).getD b.anoPublicacion ∧
            b'.estado = (none : Option String).getD b.estado ∧
            b'.id = b.id ∧ b'.createdAt = b.createdAt) :=
  ⟨by decide,
    updateBook_returns_post_update_record sampleEnv 5 sampleId.hex { titulo := some " El Aleph " }
      [sampleBook] (by decide)⟩

/-! ## Creating a book -/

theorem jsLength_le_of_sublist {l₁ l₂ : List Char} (h : l₁.Sublist l₂) :
    jsLength (String.mk l₁) ≤ jsLength (String.mk l₂) := by
  unfold jsLength
  simp only [String.toList]
  induction h with
  | slnil => exact Nat.le_refl _
  | cons a _ ih => simp only [List.map_cons, List.sum_cons]; omega
  | cons₂ a _ ih => simp only [List.map_cons, List.sum_cons]; omega

/-- Trimming does not lengthen a string. -/
theorem jsLength_jsTrim_le (s : String) : jsLength (jsTrim s) ≤ jsLength s := by
  have h : ((s.toList.dropWhile isJsWhitespace).reverse.dropWhile isJsWhitespace).reverse.Sublist
      s.toList := by
    have h₁ := (List.dropWhile_sublist isJsWhitespace
      (l := (s.toList.dropWhile isJsWhitespace).reverse)).reverse
    rw [List.reverse_reverse] at h₁
    exact h₁.trans (List.dropWhile_sublist isJsWhitespace)
  exact jsLength_le_of_sublist h

/-- Only the empty string has length zero. -/
theorem jsLength_eq_zero_iff (s : String) : jsLength s = 0 ↔ s = "" := by
  constructor
  · intro h
    cases s with
    | mk l =>
      cases l with
      | nil => rfl
      | cons c l =>
        unfold jsLength at h
        simp only [String.toList, List.map_cons, List.sum_cons] at h
        split at h <;> omega
  · rintro rfl
    rfl

/-- A creation that succeeds stored the document built from the data, on a store
that answered and under an identifier that was free. -/
theorem createBook_ok_inv {env : Env} {fault : Option Fault} {newId : ObjectId} {now : Nat}
    {bookData : BookData} {db db' : Collection} {book : Book}
    (h : createBook env fault newId now bookData db = (.ok book, db')) :
    ∃ t a y, bookData.titulo = some t ∧ bookData.autor = some a ∧
      bookData.anoPublicacion = some y ∧
      book = { id := newId, titulo := jsTrim t, autor := jsTrim a, anoPublicacion := y
               estado := bookData.estado.getD BOOK_STATES.AVAILABLE
               createdAt := now, updatedAt := now } ∧
      findDoc newId db = none ∧ db' = db ++ [book] := by
  obtain ⟨titulo, autor, ano, estado⟩ := bookData
  unfold createBook Book.save at h
  cases titulo with
  | none => simp [Book.new] at h
  | some t =>
    cases autor with
    | none => simp [Book.new] at h
    | some a =>
      cases ano with
      | none => simp [Book.new] at h
      | some y =>
        cases hv : validateDoc env (⟨newId, some (jsTrim t), some (jsTrim a), some y,
            estado.getD BOOK_STATES.AVAILABLE⟩ : BookDoc) with
        | cons e es => simp [Book.new, hv] at h
        | nil =>
          cases fault with
          | some f => simp [Book.new, hv] at h
          | none =>
            cases hf : findDoc newId db with
            | some b₀ => simp [Book.new, hv, hf] at h
            | none =>
              simp only [Book.new, Option.map_some', hv, hf, Option.isSome_none,
                Bool.false_eq_true, ↓reduceIte, Prod.mk.injEq, Except.ok.injEq] at h
              refine ⟨t, a, y, rfl, rfl, rfl, h.1.symm, rfl, ?_⟩
              rw [← h.2, ← h.1]

theorem createBook_of_valid {env : Env} {newId : ObjectId} (now : Nat) {db : Collection}
    {t a : String} {y : ℚ} {estado : Option String}
    (hv : validateDoc env (Book.new newId ⟨some t, some a, some y, estado⟩) = [])
    (hf : findDoc newId db = none) :
    createBook env none newId now ⟨some t, some a, some y, estado⟩ db =
      (.ok { id := newId, titulo := jsTrim t, autor := jsTrim a, anoPublicacion := y
             estado := estado.getD BOOK_STATES.AVAILABLE, createdAt := now, updatedAt := now },
        db ++ [{ id := newId, titulo := jsTrim t, autor := jsTrim a, anoPublicacion := y
                 estado := estado.getD BOOK_STATES.AVAILABLE
                 createdAt := now, updatedAt := now }]) := by
  unfold createBook Book.save
  simp only [Book.new, Option.map_some'] at hv ⊢
  simp [hv, hf]

/-- C6, what fails: a payload whose title starts with a blank is accepted, and the
record read back under the returned identifier holds the title without the blank,
which is not the value supplied. -/
theorem createBook_getBookById_counterexample :
    ∃ book db', createBook sampleEnv none sampleId 1
        { titulo := some " Ficciones", autor := some "Jorge Luis Borges",
          anoPublicacion := some 1944 } [] = (.ok book, db') ∧
      getBookById none book.id.hex db' = (.ok book, db') ∧
      book.titulo = "Ficciones" ∧ book.titulo ≠ " Ficciones" :=
  ⟨{ sampleBook with titulo := "Ficciones" }, [{ sampleBook with titulo := "Ficciones" }],
    by decide, by decide, by decide, by decide⟩

/-- C6, as amended: for every payload that `createBook` accepts, `getBookById`
applied to the identifier of the returned record, on the resulting collection and on
a store that answers, succeeds and returns that record, whose title and author are
the supplied ones trimmed, whose year is the supplied one, and whose state is the
supplied one, or 'disponible' when none was supplied. -/
theorem createBook_getBookById_round_trip (env : Env) (fault : Option Fault) (newId : ObjectId)
    (now : Nat) (bookData : BookData) (db db' : Collection) (book : Book)
    (h : createBook env fault newId now bookData db = (.ok book, db')) :
    getBookById none book.id.hex db' = (.ok book, db') ∧
      bookData.titulo.map jsTrim = some book.titulo ∧
      bookData.autor.map jsTrim = some book.autor ∧
      bookData.anoPublicacion = some book.anoPublicacion ∧
      (∀ s, bookData.estado = some s → book.estado = s) ∧
      (bookData.estado = none → book.estado = BOOK_STATES.AVAILABLE) := by
  obtain ⟨t, a, y, ht, ha, hy, hbook, hf, hdb'⟩ := createBook_ok_inv h
  have hid : book.id = newId := by rw [hbook]
  refine ⟨?_, ?_, ?_, ?_, ?_, ?_⟩
  · apply getBookById_of_found (castObjectId_hex book.id)
    rw [hdb', hid, findDoc_append_of_forall_ne _ (findDoc_eq_none_iff.mp hf), findDoc_cons,
      if_pos hid]
  · rw [ht, hbook]; rfl
  · rw [ha, hbook]; rfl
  · rw [hy, hbook]
  · intro s hs
    rw [hbook, hs]; rfl
  · intro hs
    rw [hbook, hs]; rfl

/-- Witness of C6 as amended: the sample book is created in an empty collection. -/
theorem createBook_getBookById_round_trip_witness :
    createBook sampleEnv none sampleId 1
        { titulo := some " Ficciones", autor := some "Jorge Luis Borges",
          anoPublicacion := some 1944 } [] = (.ok sampleBook, [sampleBook]) ∧
    (getBookById none sampleBook.id.hex [sampleBook] = (.ok sampleBook, [sampleBook]) ∧
      (some " Ficciones").map jsTrim = some sampleBook.titulo ∧
      (some "Jorge Luis Borges").map jsTrim = some sampleBook.autor ∧
      some (1944 : ℚ) = some sampleBook.anoPublicacion ∧
      (∀ s, (none : Option String) = some s → sampleBook.estado = s) ∧
      ((none : Option String) = none → sampleBook.estado = BOOK_STATES.AVAILABLE)) :=
  ⟨by decide,
    createBook_getBookById_round_trip sampleEnv none sampleId 1
      { titulo := some " Ficciones", autor := some "Jorge Luis Borges",
        anoPublicacion := some 1944 } [] [sampleBook] sampleBook (by decide)⟩

/-! ## Validation of a create payload -/

theorem create_validate_of_details {env : Env} {data : Payload} {d : Detail} {ds : List Detail}
    (h : (bookSchemas.create.titulo (data.get "titulo")).details ++
      (bookSchemas.create.autor (data.get "autor")).details ++
      (bookSchemas.create.anoPublicacion env (data.get "anoPublicacion")).details ++
      (bookSchemas.create.estado (data.get "estado")).details = d :: ds) :
    validateBody (bookSchemas.create.validate env) data =
      Handled.responded 400
        { success := false, message := "Datos inválidos"
          errors := some ((d :: ds).map fun detail => ⟨detail.key, detail.message⟩) } := by
  unfold validateBody validate bookSchemas.create.validate
  rw [h]

theorem titulo_details_of_violation {env : Env} {v : JsVal} (h : specFieldRule env "titulo" v = false) :
    ∃ d ∈ (bookSchemas.create.titulo v).details, d.key = some "titulo" := by
  cases v with
  | str s =>
    simp only [specFieldRule, ↓reduceIte, decide_eq_false_iff_not, not_and, not_le] at h
    unfold bookSchemas.create.titulo joiString
    by_cases h0 : jsLength s = 0
    · simp [h0, KeyResult.details, Detail.of]
    · have h1 : 200 < jsLength s := h (by omega)
      have h2 : ¬ jsLength s < 1 := by omega
      simp [h0, h1, h2, KeyResult.details, Detail.of]
  | _ => simp [bookSchemas.create.titulo, joiString, KeyResult.details, Detail.of]

theorem autor_details_of_violation {env : Env} {v : JsVal} (h : specFieldRule env "autor" v = false) :
    ∃ d ∈ (bookSchemas.create.autor v).details, d.key = some "autor" := by
  cases v with
  | str s =>
    simp only [specFieldRule, String.reduceEq, ↓reduceIte, decide_eq_false_iff_not, not_and,
      not_le] at h
    unfold bookSchemas.create.autor joiString
    by_cases h0 : jsLength s = 0
    · simp [h0, KeyResult.details, Detail.of]
    · have h1 : 100 < jsLength s := h (by omega)
      have h2 : ¬ jsLength s < 1 := by omega
      simp [h0, h1, h2, KeyResult.details, Detail.of]
  | _ => simp [bookSchemas.create.autor, joiString, KeyResult.details, Detail.of]

theorem joiIntegerRules_details_of_violation {env : Env} {msgs : List (String × String)} {q : ℚ}
    (h : ¬ (q.isInt = true ∧ 1000 ≤ q ∧ q ≤ env.currentYear)) :
    ∃ d ∈ (joiIntegerRules "anoPublicacion" 1000 env.currentYear msgs q).details,
      d.key = some "anoPublicacion" := by
  unfold joiIntegerRules
  by_cases hu : MAX_SAFE_INTEGER < q ∨ q < -MAX_SAFE_INTEGER
  · simp [hu, KeyResult.details, Detail.of]
  · rw [if_neg hu]
    by_cases hi : q.isInt = false
    · simp [hi, KeyResult.details, Detail.of]
    · by_cases hmin : q < 1000
      · simp [hi, hmin, KeyResult.details, Detail.of]
      · have hmax : (env.currentYear : ℚ) < q := by
          by_contra hmax
          exact h ⟨by simpa using hi, not_lt.mp hmin, not_lt.mp hmax⟩
        simp [hi, hmin, hmax, KeyResult.details, Detail.of]

theorem anoPublicacion_details_of_violation {env : Env} {v : JsVal}
    (h : specFieldRule env "anoPublicacion" v = false) :
    ∃ d ∈ (bookSchemas.create.anoPublicacion env v).details, d.key = some "anoPublicacion" := by
  unfold bookSchemas.create.anoPublicacion joiInteger
  cases v with
  | num q =>
    simp only [specFieldRule, String.reduceEq, ↓reduceIte, decide_eq_false_iff_not] at h
    exact joiIntegerRules_details_of_violation h
  | str s =>
    simp only [specFieldRule, String.reduceEq, ↓reduceIte] at h
    cases hcoerce : env.coerceNumber s with
    | converted q =>
      rw [hcoerce] at h
      simp only [decide_eq_false_iff_not] at h
      simp only [hcoerce]
      exact joiIntegerRules_details_of_violation h
    | unchanged => simp [hcoerce, KeyResult.details, Detail.of]
    | flagged => simp [hcoerce, KeyResult.details, Detail.of]
  | _ => simp [KeyResult.details, Detail.of]

theorem estado_details_of_violation {env : Env} {v : JsVal}
    (h : specFieldRule env "estado" v = false) :
    ∃ d ∈ (bookSchemas.create.estado v).details, d.key = some "estado" := by
  unfold bookSchemas.create.estado joiValid
  cases v with
  | undefined => simp [specFieldRule] at h
  | str s =>
    simp only [specFieldRule, String.reduceEq, ↓reduceIte, decide_eq_false_iff_not, not_or] at h
    have hs : s ∉ BOOK_STATES.values := by
      simp only [BOOK_STATES.values, List.mem_cons, List.mem_singleton, List.not_mem_nil,
        or_false, not_or]
      exact h
    by_cases h0 : jsLength s = 0 <;> simp [hs, h0, KeyResult.details, Detail.of]
  | _ => simp [KeyResult.details, Detail.of]

/-- C5: for every create payload and every field of the schema whose value violates
the rule of the data model (title not a string of 1 to 200 characters, author not a
string of 1 to 100 characters, year not an integer from 1000 to the current year,
state present and not a recognised value; a missing title, author or year
included; the year 3000 or 999, an empty title), the validation middleware answers 400 "Datos inválidos" and the list of
violations of that one answer has an entry for that field: each violating field is
reported, not the first only. -/
theorem create_validation_reports_every_violating_field (env : Env) (body : Payload)
    (key : String) (hviolated : specFieldRule env key (body.get key) = false) :
    ∃ errors, validateBody (bookSchemas.create.validate env) body =
        Handled.responded 400
          { success := false, message := "Datos inválidos", errors := some errors } ∧
      ∃ violation ∈ errors, violation.field = some key := by
  have hdetail : ∃ d ∈ (bookSchemas.create.titulo (body.get "titulo")).details ++
      (bookSchemas.create.autor (body.get "autor")).details ++
      (bookSchemas.create.anoPublicacion env (body.get "anoPublicacion")).details ++
      (bookSchemas.create.estado (body.get "estado")).details, d.key = some key := by
    have hkey : key = "titulo" ∨ key = "autor" ∨ key = "anoPublicacion" ∨ key = "estado" := by
      by_contra hne
      simp only [not_or] at hne
      simp [specFieldRule, hne.1, hne.2.1, hne.2.2.1, hne.2.2.2] at hviolated
    rcases hkey with rfl | rfl | rfl | rfl
    · obtain ⟨d, hd, hk⟩ := titulo_details_of_violation hviolated
      exact ⟨d, by simp [hd], hk⟩
    · obtain ⟨d, hd, hk⟩ := autor_details_of_violation hviolated
      exact ⟨d, by simp [hd], hk⟩
    · obtain ⟨d, hd, hk⟩ := anoPublicacion_details_of_violation hviolated
      exact ⟨d, by simp [hd], hk⟩
    · obtain ⟨d, hd, hk⟩ := estado_details_of_violation hviolated
      exact ⟨d, by simp [hd], hk⟩
  obtain ⟨d, hd, hk⟩ := hdetail
  cases hall : (bookSchemas.create.titulo (body.get "titulo")).details ++
      (bookSchemas.create.autor (body.get "autor")).details ++
      (bookSchemas.create.anoPublicacion env (body.get "anoPublicacion")).details ++
      (bookSchemas.create.estado (body.get "estado")).details with
  | nil => rw [hall] at hd; exact absurd hd (List.not_mem_nil d)
  | cons d₀ ds =>
    rw [hall] at hd
    exact ⟨_, create_validate_of_details hall, ⟨d.key, d.message⟩,
      List.mem_map.mpr ⟨d, hd, rfl⟩, hk⟩

/-- Witness of C5: an empty title, no author and the year 3000 are reported
together; the instance is the one of the year. -/
theorem create_validation_reports_every_violating_field_witness :
    specFieldRule sampleEnv "anoPublicacion"
      (Payload.get [("titulo", JsVal.str ""), ("anoPublicacion", JsVal.num 3000)]
        "anoPublicacion") = false ∧
    ∃ errors, validateBody (bookSchemas.create.validate sampleEnv)
          [("titulo", JsVal.str ""), ("anoPublicacion", JsVal.num 3000)] =
        Handled.responded 400
          { success := false, message := "Datos inválidos", errors := some errors } ∧
      ∃ violation ∈ errors, violation.field = some "anoPublicacion" :=
  ⟨by decide,
    create_validation_reports_every_violating_field sampleEnv
      [("titulo", JsVal.str ""), ("anoPublicacion", JsVal.num 3000)] "anoPublicacion"
      (by decide)⟩

/-! ## Validation followed by creation -/

theorem validateDoc_of_valid {env : Env} {newId : ObjectId} {t a s : String} {y : Int}
    (ht : jsLength t ≤ 200) (htb : jsTrim t ≠ "") (ha : jsLength a ≤ 100) (hab : jsTrim a ≠ "")
    (hy₁ : 1000 ≤ y) (hy₂ : y ≤ env.currentYear) (hs : s ∈ BOOK_STATES.values) :
    validateDoc env (Book.new newId ⟨some t, some a, some (y : ℚ), some s⟩) = [] := by
  have ht₀ : jsLength (jsTrim t) ≠ 0 := fun h => htb ((jsLength_eq_zero_iff _).mp h)
  have ht₁ : ¬ 200 < jsLength (jsTrim t) := by
    have := jsLength_jsTrim_le t
    omega
  have ha₀ : jsLength (jsTrim a) ≠ 0 := fun h => hab ((jsLength_eq_zero_iff _).mp h)
  have ha₁ : ¬ 100 < jsLength (jsTrim a) := by
    have := jsLength_jsTrim_le a
    omega
  have hq₁ : ¬ ((y : ℚ) < 1000) := by
    have : (1000 : ℚ) ≤ (y : ℚ) := by exact_mod_cast hy₁
    exact not_lt.mpr this
  have hq₂ : ¬ ((env.currentYear : ℚ) < (y : ℚ)) := by
    have : (y : ℚ) ≤ (env.currentYear : ℚ) := by exact_mod_cast hy₂
    exact not_lt.mpr this
  have hq₃ : (y : ℚ).isInt = true := by
    simp [Rat.isInt]
  simp [validateDoc, Book.new, validateTitulo, validateAutor, validateAnoPublicacion,
    validateEstado, ht₀, ht₁, ha₀, ha₁, hq₁, hq₂, hq₃, hs]

theorem create_validate_of_valid (env : Env) {body : Payload} {t a : String} {y : Int}
    {estado : JsVal} {s : String}
    (hbt : body.get "titulo" = JsVal.str t) (hba : body.get "autor" = JsVal.str a)
    (hby : body.get "anoPublicacion" = JsVal.num y) (hbe : body.get "estado" = estado)
    (hest : bookSchemas.create.estado estado = .ok (some s))
    (ht₀ : 1 ≤ jsLength t) (ht : jsLength t ≤ 200) (ha₀ : 1 ≤ jsLength a) (ha : jsLength a ≤ 100)
    (hy₁ : 1000 ≤ y) (hy₂ : y ≤ env.currentYear) :
    validateBody (bookSchemas.create.validate env) body =
      Handled.next ⟨some t, some a, some (y : ℚ), some s⟩ := by
  have h1 : bookSchemas.create.titulo (JsVal.str t) = .ok (some t) := by
    have e0 : jsLength t ≠ 0 := by omega
    have e1 : ¬ jsLength t < 1 := by omega
    have e2 : ¬ 200 < jsLength t := by omega
    simp [bookSchemas.create.titulo, joiString, e0, e1, e2]
  have h2 : bookSchemas.create.autor (JsVal.str a) = .ok (some a) := by
    have e0 : jsLength a ≠ 0 := by omega
    have e1 : ¬ jsLength a < 1 := by omega
    have e2 : ¬ 100 < jsLength a := by omega
    simp [bookSchemas.create.autor, joiString, e0, e1, e2]
  have h3 : bookSchemas.create.anoPublicacion env (JsVal.num y) = .ok (some (y : ℚ)) := by
    have hq₁ : ¬ ((y : ℚ) < 1000) := by
      have : (1000 : ℚ) ≤ (y : ℚ) := by exact_mod_cast hy₁
      exact not_lt.mpr this
    have hq₂ : ¬ ((env.currentYear : ℚ) < (y : ℚ)) := by
      have : (y : ℚ) ≤ (env.currentYear : ℚ) := by exact_mod_cast hy₂
      exact not_lt.mpr this
    have hq₃ : (y : ℚ).isInt = true := by
      simp [Rat.isInt]
    have hq₄ : ¬ (MAX_SAFE_INTEGER < (y : ℚ) ∨ (y : ℚ) < -MAX_SAFE_INTEGER) := by
      have hle := env.currentYear_le
      have h₁ : (y : ℚ) ≤ 275760 := by exact_mod_cast hy₂.trans hle
      have h₂ : (1000 : ℚ) ≤ (y : ℚ) := by exact_mod_cast hy₁
      unfold MAX_SAFE_INTEGER
      rintro (h | h) <;> linarith
    simp [bookSchemas.create.anoPublicacion, joiInteger, joiIntegerRules, hq₁, hq₂, hq₃, hq₄]
  unfold validateBody validate bookSchemas.create.validate
  rw [hbt, hba, hby, hbe, h1, h2, h3, hest]
  rfl

/-- C4, what fails: a title of one character, a blank, passes `bookSchemas.create`
(which does not trim), and `createBook` then rejects it, the model trimming the
title before it requires one. -/
theorem create_blank_title_counterexample :
    jsLength " " = 1 ∧
    validateBody (bookSchemas.create.validate sampleEnv)
        [("titulo", JsVal.str " "), ("autor", JsVal.str "Jorge Luis Borges"),
          ("anoPublicacion", JsVal.num 1944)] =
      Handled.next
        { titulo := some " ", autor := some "Jorge Luis Borges", anoPublicacion := some 1944
          estado := some "disponible" } ∧
    createBook sampleEnv none sampleId 1
        { titulo := some " ", autor := some "Jorge Luis Borges", anoPublicacion := some 1944
          estado := some "disponible" } [] =
      (.error
        { newError "Datos de libro inválidos" ERROR_CODES.VALIDATION_ERROR with
          validationErrors := some [⟨"titulo", "El título es requerido", "required"⟩] }, []) := by
  refine ⟨by decide, by decide, by decide⟩

/-- C4, as amended: for every payload whose title is a string of 1 to 200 characters
that is not blank only, whose author is a string of 1 to 100 characters that is not
blank only, whose publication year is an integer from 1000 to the current year
(bounds included), and whose state is omitted or one of the two recognised values,
validation against `bookSchemas.create` passes and `createBook` on the validated
value succeeds (the store answering, under a free identifier); the record stored
and returned has the title and the author trimmed, the year, and the state given,
which is 'disponible' when the state is omitted. -/
theorem create_valid_payload_succeeds (env : Env) (newId : ObjectId) (now : Nat)
    (body : Payload) (db : Collection) (t a : String) (y : Int)
    (hbt : body.get "titulo" = JsVal.str t) (hba : body.get "autor" = JsVal.str a)
    (hby : body.get "anoPublicacion" = JsVal.num y)
    (hbe : body.get "estado" = JsVal.undefined ∨
      body.get "estado" = JsVal.str BOOK_STATES.AVAILABLE ∨
      body.get "estado" = JsVal.str BOOK_STATES.RESERVED)
    (ht : 1 ≤ jsLength t ∧ jsLength t ≤ 200) (htb : jsTrim t ≠ "")
    (ha : 1 ≤ jsLength a ∧ jsLength a ≤ 100) (hab : jsTrim a ≠ "")
    (hy : 1000 ≤ y ∧ y ≤ env.currentYear) (hfree : ∀ b ∈ db, b.id ≠ newId) :
    ∃ value book, validateBody (bookSchemas.create.validate env) body = Handled.next value ∧
      createBook env none newId now value db = (.ok book, db ++ [book]) ∧
      book.titulo = jsTrim t ∧ book.autor = jsTrim a ∧ book.anoPublicacion = y ∧
      (body.get "estado" = JsVal.undefined → book.estado = BOOK_STATES.AVAILABLE) ∧
      (∀ s, body.get "estado" = JsVal.str s → book.estado = s) := by
  have hest : ∃ s, s ∈ BOOK_STATES.values ∧
      bookSchemas.create.estado (body.get "estado") = .ok (some s) ∧
      (body.get "estado" = JsVal.undefined → s = BOOK_STATES.AVAILABLE) ∧
      (∀ s', body.get "estado" = JsVal.str s' → s = s') := by
    rcases hbe with h | h | h
    · refine ⟨BOOK_STATES.AVAILABLE, by decide, ?_, fun _ => rfl, ?_⟩
      · rw [h]; rfl
      · intro s' hs'
        rw [h] at hs'
        cases hs'
    · refine ⟨BOOK_STATES.AVAILABLE, by decide, ?_, fun _ => rfl, ?_⟩
      · rw [h]; decide
      · intro s' hs'
        rw [h] at hs'
        cases hs'
        rfl
    · refine ⟨BOOK_STATES.RESERVED, by decide, ?_, ?_, ?_⟩
      · rw [h]; decide
      · intro hu
        rw [h] at hu
        cases hu
      · intro s' hs'
        rw [h] at hs'
        cases hs'
        rfl
  obtain ⟨s, hs, hes, hsu, hss⟩ := hest
  have hvalue := create_validate_of_valid env hbt hba hby rfl hes ht.1 ht.2 ha.1 ha.2
    hy.1 hy.2
  have hdoc : validateDoc env (Book.new newId ⟨some t, some a, some (y : ℚ), some s⟩) = [] :=
    validateDoc_of_valid ht.2 htb ha.2 hab hy.1 hy.2 hs
  have hcreate := createBook_of_valid now hdoc (findDoc_eq_none_iff.mpr hfree)
  exact ⟨_, _, hvalue, hcreate, rfl, rfl, rfl, hsu, hss⟩

/-- Witness of C4 as amended: the payload of the sample book, without a state. -/
theorem create_valid_payload_succeeds_witness :
    Payload.get [("titulo", JsVal.str "Ficciones"), ("autor", JsVal.str "Jorge Luis Borges"),
      ("anoPublicacion", JsVal.num 1944)] "estado" = JsVal.undefined ∧
    ∃ value book, validateBody (bookSchemas.create.validate sampleEnv)
        [("titulo", JsVal.str "Ficciones"), ("autor", JsVal.str "Jorge Luis Borges"),
          ("anoPublicacion", JsVal.num 1944)] = Handled.next value ∧
      createBook sampleEnv none sampleId 1 value [otherBook] =
        (.ok book, [otherBook] ++ [book]) ∧
      book.titulo = jsTrim "Ficciones" ∧ book.autor = jsTrim "Jorge Luis Borges" ∧
      book.anoPublicacion = ((1944 : Int) : ℚ) ∧
      (Payload.get [("titulo", JsVal.str "Ficciones"), ("autor", JsVal.str "Jorge Luis Borges"),
          ("anoPublicacion", JsVal.num 1944)] "estado" = JsVal.undefined →
        book.estado = BOOK_STATES.AVAILABLE) ∧
      (∀ s, Payload.get [("titulo", JsVal.str "Ficciones"),
          ("autor", JsVal.str "Jorge Luis Borges"), ("anoPublicacion", JsVal.num 1944)]
          "estado" = JsVal.str s → book.estado = s) :=
  ⟨by decide,
    create_valid_payload_succeeds sampleEnv sampleId 1
      [("titulo", JsVal.str "Ficciones"), ("autor", JsVal.str "Jorge Luis Borges"),
        ("anoPublicacion", JsVal.num 1944)] [otherBook] "Ficciones" "Jorge Luis Borges" 1944
      (by decide) (by decide) (by decide) (Or.inl (by decide)) (by decide) (by decide)
      (by decide) (by decide) (by decide) (by decide)⟩

/-! ## The identifiers of the collection stay unique -/

theorem map_id_replaceDoc {oid : ObjectId} {b' : Book} (db : Collection) (hid : b'.id = oid) :
    (replaceDoc oid b' db).map Book.id = db.map Book.id := by
  induction db with
  | nil => rfl
  | cons x rest ih =>
    by_cases hx : x.id = oid
    · simp [replaceDoc, hx, hid]
    · simp [replaceDoc, hx, ih]

theorem removeDoc_sublist (oid : ObjectId) (db : Collection) : (removeDoc oid db).Sublist db := by
  induction db with
  | nil => exact List.Sublist.refl _
  | cons x rest ih =>
    by_cases hx : x.id = oid
    · simp [removeDoc, hx]
    · simp [removeDoc, hx, ih]

/-- A `save()` either fails and leaves the collection as it was, or appends the
document under an identifier that was free. -/
theorem save_cases (env : Env) (fault : Option Fault) (now : Nat) (doc : BookDoc)
    (db : Collection) :
    (∃ f, Book.save env fault now doc db = (.error f, db)) ∨
      ∃ book, Book.save env fault now doc db = (.ok book, db ++ [book]) ∧
        book.id = doc.id ∧ findDoc doc.id db = none := by
  unfold Book.save
  split
  · cases fault with
    | some f => exact Or.inl ⟨f, rfl⟩
    | none =>
      cases hf : findDoc doc.id db with
      | some b₀ => exact Or.inl ⟨duplicateKeyFault doc.id, by simp [hf]⟩
      | none =>
        rename_i t a y _ _ _ _
        exact Or.inr ⟨⟨doc.id, t, a, y, doc.estado, now, now⟩, by simp [hf], rfl, rfl⟩
  · exact Or.inl ⟨_, rfl⟩

/-- Whatever `createBook` does, on any store, unique identifiers stay unique. -/
theorem createBook_preserves_unique_ids (env : Env) (fault : Option Fault) (newId : ObjectId)
    (now : Nat) (bookData : BookData) (db : Collection) (hu : (db.map Book.id).Nodup) :
    ((createBook env fault newId now bookData db).2.map Book.id).Nodup := by
  unfold createBook
  rcases save_cases env fault now (Book.new newId bookData) db with ⟨f, h⟩ | ⟨book, h, hid, hf⟩
  · rw [h]
    exact hu
  · rw [h]
    simp only [List.map_append, List.map_cons, List.map_nil]
    refine List.Nodup.append hu (List.nodup_singleton _) ?_
    intro x hx hx'
    rw [List.mem_singleton] at hx'
    obtain ⟨b, hb, hbx⟩ := List.mem_map.mp hx
    exact findDoc_eq_none_iff.mp hf b hb (by rw [hbx, hx', hid])

/-- An update either leaves the collection as it was or replaces one document by a
document of the same identifier. -/
theorem findByIdAndUpdate_cases (env : Env) (fault : Option Fault) (now : Nat) (bookId : String)
    (upd : BookData) (db : Collection) :
    (Book.findByIdAndUpdate env fault now bookId upd db).2 = db ∨
      ∃ oid b', b'.id = oid ∧
        (Book.findByIdAndUpdate env fault now bookId upd db).2 = replaceDoc oid b' db := by
  unfold Book.findByIdAndUpdate
  cases castObjectId bookId with
  | none => exact Or.inl rfl
  | some oid =>
    cases hv : validateUpdate env (castUpdate upd) with
    | cons e es => exact Or.inl rfl
    | nil =>
      cases fault with
      | some f => exact Or.inl rfl
      | none =>
        cases hf : findDoc oid db with
        | none => exact Or.inl (by simp [hf])
        | some b =>
          refine Or.inr ⟨oid, applyUpdate (castUpdate upd) now b, ?_, by simp [hf]⟩
          exact (findDoc_some_split hf).1

theorem updateBook_db (env : Env) (fault : Option Fault) (now : Nat) (bookId : String)
    (upd : BookData) (db : Collection) :
    (updateBook env fault now bookId upd db).2 =
      (Book.findByIdAndUpdate env fault now bookId upd db).2 := by
  unfold updateBook updateBookTry
  rcases h : Book.findByIdAndUpdate env fault now bookId upd db with ⟨r, db'⟩
  cases r with
  | error f => rfl
  | ok o => cases o <;> rfl

/-- Whatever `updateBook` does, on any store, unique identifiers stay unique. -/
theorem updateBook_preserves_unique_ids (env : Env) (fault : Option Fault) (now : Nat)
    (bookId : String) (upd : BookData) (db : Collection) (hu : (db.map Book.id).Nodup) :
    ((updateBook env fault now bookId upd db).2.map Book.id).Nodup := by
  rw [updateBook_db]
  rcases findByIdAndUpdate_cases env fault now bookId upd db with h | ⟨oid, b', hid, h⟩
  · rw [h]
    exact hu
  · rw [h, map_id_replaceDoc db hid]
    exact hu

/-- Whatever `deleteBook` does, on any store, unique identifiers stay unique. -/
theorem deleteBook_preserves_unique_ids (fault : Option Fault) (bookId : String)
    (db : Collection) (hu : (db.map Book.id).Nodup) :
    ((deleteBook fault bookId db).2.map Book.id).Nodup := by
  have hsub : ((deleteBook fault bookId db).2).Sublist db := by
    unfold deleteBook deleteBookTry Book.findByIdAndDelete
    cases castObjectId bookId with
    | none => exact List.Sublist.refl _
    | some oid =>
      cases fault with
      | some f => exact List.Sublist.refl _
      | none =>
        cases hf : findDoc oid db with
        | none => simp [hf]
        | some b => simpa [hf] using removeDoc_sublist oid db
  exact hu.sublist (hsub.map Book.id)

/-! ## Validation of an update request and of the identifier parameter -/

/-- C11: an update body that has none of the keys `titulo`, `autor`,
`anoPublicacion`, `estado` (an empty body, or one with unknown keys only, which are
stripped) is answered by the validation middleware with 400 "Datos inválidos" and
the single violation "Debe proporcionar al menos un campo para actualizar". On the
route `PUT /:id` the answer is that one when the identifier check has let the
request through, and the answer of the identifier check otherwise, whatever the
controller is: the controller, hence `BookService.updateBook`, does not run and the
collection is the one it was. -/
theorem update_without_fields_rejected (env : Env) (body : Payload)
    (ht : body.get "titulo" = JsVal.undefined) (ha : body.get "autor" = JsVal.undefined)
    (hy : body.get "anoPublicacion" = JsVal.undefined)
    (he : body.get "estado" = JsVal.undefined) :
    validateBody (bookSchemas.update.validate env) body =
        Handled.responded 400
          { success := false, message := "Datos inválidos"
            errors := some [⟨none, some "Debe proporcionar al menos un campo para actualizar"⟩] } ∧
      ∀ (controller : String → BookData → Collection → Reply × Collection) (params : Params)
        (db : Collection),
        (validateMongoId "id" params = Handled.next params →
          books.routes.put env controller params body db =
            (Reply.json 400 (ResBody.failure
              { success := false, message := "Datos inválidos"
                errors := some
                  [⟨none, some "Debe proporcionar al menos un campo para actualizar"⟩] }), db)) ∧
        ∀ status errorBody, validateMongoId "id" params = Handled.responded status errorBody →
          books.routes.put env controller params body db =
            (Reply.json status (ResBody.failure errorBody), db) := by
  have hvalidate : validateBody (bookSchemas.update.validate env) body =
      Handled.responded 400
        { success := false, message := "Datos inválidos"
          errors := some
            [⟨none, some "Debe proporcionar al menos un campo para actualizar"⟩] } := by
    unfold validateBody validate bookSchemas.update.validate
    rw [ht, ha, hy, he]
    rfl
  refine ⟨hvalidate, fun controller params db => ⟨?_, ?_⟩⟩
  · intro hid
    unfold books.routes.put
    rw [hid, hvalidate]
  · intro status errorBody hid
    unfold books.routes.put
    rw [hid]

/-- Witness of C11: a body with an unknown key only, on the route with the real
controller. -/
theorem update_without_fields_rejected_witness :
    Payload.get [("isbn", JsVal.str "950-04-0000-0")] "titulo" = JsVal.undefined ∧
    Payload.get [("isbn", JsVal.str "950-04-0000-0")] "autor" = JsVal.undefined ∧
    Payload.get [("isbn", JsVal.str "950-04-0000-0")] "anoPublicacion" = JsVal.undefined ∧
    Payload.get [("isbn", JsVal.str "950-04-0000-0")] "estado" = JsVal.undefined ∧
    books.routes.put sampleEnv (BookController.updateBook sampleEnv none 5)
        [("id", sampleId.hex)] [("isbn", JsVal.str "950-04-0000-0")] [sampleBook] =
      (Reply.json 400 (ResBody.failure
        { success := false, message := "Datos inválidos"
          errors := some
            [⟨none, some "Debe proporcionar al menos un campo para actualizar"⟩] }),
        [sampleBook]) :=
  ⟨by decide, by decide, by decide, by decide,
    ((update_without_fields_rejected sampleEnv [("isbn", JsVal.str "950-04-0000-0")]
      (by decide) (by decide) (by decide) (by decide)).2
      (BookController.updateBook sampleEnv none 5) [("id", sampleId.hex)] [sampleBook]).1
      (by decide)⟩

theorem isHexChar_iff_range (c : Char) : isHexChar c = true ↔
    ('0' ≤ c ∧ c ≤ '9') ∨ ('a' ≤ c ∧ c ≤ 'f') ∨ ('A' ≤ c ∧ c ≤ 'F') := by
  constructor
  · intro h
    simp only [isHexChar, List.mem_cons, List.mem_singleton, List.not_mem_nil, or_false,
      decide_eq_true_eq] at h
    rcases h with rfl | rfl | rfl | rfl | rfl | rfl | rfl | rfl | rfl | rfl | rfl | rfl | rfl |
      rfl | rfl | rfl | rfl | rfl | rfl | rfl | rfl | rfl <;> decide
  · intro h
    have hc : Char.ofNat c.toNat = c := Char.ofNat_toNat c
    have hn : (48 ≤ c.toNat ∧ c.toNat ≤ 57) ∨ (97 ≤ c.toNat ∧ c.toNat ≤ 102) ∨
        (65 ≤ c.toNat ∧ c.toNat ≤ 70) := by
      rcases h with h | h | h
      · exact Or.inl ⟨h.1, h.2⟩
      · exact Or.inr (Or.inl ⟨h.1, h.2⟩)
      · exact Or.inr (Or.inr ⟨h.1, h.2⟩)
    have hn' : c.toNat ∈ [48, 49, 50, 51, 52, 53, 54, 55, 56, 57, 97, 98, 99, 100, 101, 102,
        65, 66, 67, 68, 69, 70] := by
      simp only [List.mem_cons, List.mem_singleton, List.not_mem_nil, or_false]
      omega
    simp only [List.mem_cons, List.mem_singleton, List.not_mem_nil, or_false] at hn'
    rw [← hc]
    rcases hn' with h | h | h | h | h | h | h | h | h | h | h | h | h | h | h | h | h | h | h |
      h | h | h <;> rw [h] <;> decide

theorem isMongoId_iff (s : String) : isMongoId s = true ↔
    s.toList.length = 24 ∧
      ∀ c ∈ s.toList, ('0' ≤ c ∧ c ≤ '9') ∨ ('a' ≤ c ∧ c ≤ 'f') ∨ ('A' ≤ c ∧ c ≤ 'F') := by
  simp only [isMongoId, Bool.and_eq_true, beq_iff_eq, List.all_eq_true, isHexChar_iff_range]

/-- C12: `validateMongoId()` passes the request on exactly when the parameter `id` is
a string of exactly 24 characters, each of them one of 0-9, a-f, A-F. For every
other value (no parameter, the empty string, a shorter or longer string, a string
with another character) it answers 400 "ID inválido", and on the route `GET /:id`
that is the answer whatever the controller is: the controller, hence the service,
is not reached and the collection is the one it was. -/
theorem validateMongoId_passes_iff_24_hex (params : Params) :
    (validateMongoId "id" params = Handled.next params ↔
      ∃ id, params.lookup "id" = some id ∧ id.toList.length = 24 ∧
        ∀ c ∈ id.toList, ('0' ≤ c ∧ c ≤ '9') ∨ ('a' ≤ c ∧ c ≤ 'f') ∨ ('A' ≤ c ∧ c ≤ 'F')) ∧
      (validateMongoId "id" params = Handled.next params ∨
        (validateMongoId "id" params =
            Handled.responded 400 { success := false, message := "ID inválido" } ∧
          ∀ (controller : String → Collection → Reply × Collection) (db : Collection),
            books.routes.getById controller params db =
              (Reply.json 400 (ResBody.failure { success := false, message := "ID inválido" }),
                db))) := by
  cases hl : params.lookup "id" with
  | none =>
    have hv : validateMongoId "id" params =
        Handled.responded 400 { success := false, message := "ID inválido" } := by
      simp [validateMongoId, hl]
    refine ⟨?_, Or.inr ⟨hv, fun controller db => ?_⟩⟩
    · rw [hv]
      simp
    · simp [books.routes.getById, hv]
  | some id =>
    by_cases hid : id = "" ∨ isMongoId id = false
    · have hv : validateMongoId "id" params =
          Handled.responded 400 { success := false, message := "ID inválido" } := by
        simp only [validateMongoId, hl]
        rw [if_pos hid]
      refine ⟨?_, Or.inr ⟨hv, fun controller db => ?_⟩⟩
      · rw [hv]
        constructor
        · intro h
          cases h
        · rintro ⟨id', hid', hlen, hall⟩
          cases hid'
          have hm : isMongoId id = true := (isMongoId_iff id).mpr ⟨hlen, hall⟩
          rcases hid with rfl | hfalse
          · simp at hlen
          · rw [hm] at hfalse
            cases hfalse
      · simp [books.routes.getById, hv]
    · have hv : validateMongoId "id" params = Handled.next params := by
        simp only [validateMongoId, hl]
        rw [if_neg hid]
      refine ⟨?_, Or.inl hv⟩
      constructor
      · intro _
        have hm : isMongoId id = true := by
          cases h : isMongoId id with
          | true => rfl
          | false => exact absurd (Or.inr h) hid
        exact ⟨id, rfl, (isMongoId_iff id).mp hm⟩
      · intro _
        exact hv

/-! ## Registration and login -/

/-- C13: when an account with e-mail address `e` exists (as stored, lower-cased) and
the store answers, `registerUser` called with an e-mail address whose lower-cased
form is `e` (any upper or lower case variant of it) and a username that no account
has fails with the error "El email ya está en uso", whose `field` is 'email'; the
collection of accounts is the one it was, and `AuthController.register` answers 409
with that field. -/
theorem registerUser_existing_email_rejected (aenv : AuthEnv) (saveFault : Option Fault)
    (newId : ObjectId) (userData : UserData) (users : Users) (e : String)
    (hexists : ∃ u ∈ users, u.email = e) (hvariant : aenv.toLowerCase userData.email = e)
    (hname : ∀ u ∈ users, u.username ≠ userData.username) :
    registerUser aenv none saveFault newId userData users =
        (.error
          { name := "Error", message := "El email ya está en uso"
            code := some (JsCode.str "USER_ALREADY_EXISTS"), field := some "email" }, users) ∧
      AuthController.register aenv none saveFault newId userData users =
        (Reply.json 409 (ResBody.failure
          { success := false, message := "El email ya está en uso"
            error_type := some ERROR_CODES.DUPLICATE_ERROR, field := some "email" }), users) := by
  obtain ⟨u, hu, hue⟩ := hexists
  have hservice : registerUser aenv none saveFault newId userData users =
      (.error (userExistsError "email"), users) := by
    unfold registerUser
    cases hfind : users.find? fun u =>
        decide (u.email = aenv.toLowerCase userData.email ∨ u.username = userData.username) with
    | none =>
      have := List.find?_eq_none.mp hfind u hu
      simp [hvariant, hue] at this
    | some existing =>
      have hmem : existing ∈ users := List.mem_of_find?_eq_some hfind
      have hp := List.find?_some hfind
      simp only [decide_eq_true_eq] at hp
      have hemail : existing.email = aenv.toLowerCase userData.email := by
        rcases hp with h | h
        · exact h
        · exact absurd h (hname existing hmem)
      simp [hemail]
  refine ⟨hservice, ?_⟩
  unfold AuthController.register
  rw [hservice]
  rfl

/-- Witness of C13: the sample account, and its address written with capitals. -/
theorem registerUser_existing_email_rejected_witness :
    (∃ u ∈ [sampleUser], u.email = "admin@libros.com") ∧
    sampleAuthEnv.toLowerCase "Admin@Libros.COM" = "admin@libros.com" ∧
    (∀ u ∈ [sampleUser], u.username ≠ "otro") ∧
    registerUser sampleAuthEnv none none otherId ⟨"otro", "Admin@Libros.COM", "secreto"⟩
        [sampleUser] =
      (.error
        { name := "Error", message := "El email ya está en uso"
          code := some (JsCode.str "USER_ALREADY_EXISTS"), field := some "email" },
        [sampleUser]) ∧
    AuthController.register sampleAuthEnv none none otherId
        ⟨"otro", "Admin@Libros.COM", "secreto"⟩ [sampleUser] =
      (Reply.json 409 (ResBody.failure
        { success := false, message := "El email ya está en uso"
          error_type := some ERROR_CODES.DUPLICATE_ERROR, field := some "email" }),
        [sampleUser]) :=
  ⟨by decide, by decide, by decide,
    registerUser_existing_email_rejected sampleAuthEnv none otherId
      ⟨"otro", "Admin@Libros.COM", "secreto"⟩ [sampleUser] "admin@libros.com"
      (by decide) (by decide) (by decide)⟩

/-- C14: on a store that answers, `loginUser` with an e-mail address that no account
has, and `loginUser` with the e-mail address of an account and a password that does
not match, fail with one and the same error, of message "Credenciales inválidas" and
code `AUTHENTICATION_ERROR`; `AuthController.login` answers both with the same 401
body, and the accounts are left as they were. -/
theorem loginUser_failures_identical (aenv : AuthEnv) (users : Users)
    (email₁ password₁ email₂ password₂ : String)
    (hunknown : ∀ u ∈ users, u.email ≠ aenv.toLowerCase email₁)
    (hknown : ∃ u ∈ users, u.email = aenv.toLowerCase email₂)
    (hwrong : ∀ u ∈ users, u.email = aenv.toLowerCase email₂ →
      aenv.comparePassword u password₂ = false) :
    loginUser aenv none email₁ password₁ users =
        (.error (newError "Credenciales inválidas" "AUTHENTICATION_ERROR"), users) ∧
      loginUser aenv none email₂ password₂ users =
        (.error (newError "Credenciales inválidas" "AUTHENTICATION_ERROR"), users) ∧
      AuthController.login aenv none email₁ password₁ users =
        (Reply.json 401 (ResBody.failure
          { success := false, message := "Credenciales inválidas"
            error_type := some "AUTHENTICATION_ERROR" }), users) ∧
      AuthController.login aenv none email₂ password₂ users =
        (Reply.json 401 (ResBody.failure
          { success := false, message := "Credenciales inválidas"
            error_type := some "AUTHENTICATION_ERROR" }), users) := by
  have h₁ : loginUser aenv none email₁ password₁ users =
      (.error (newError "Credenciales inválidas" "AUTHENTICATION_ERROR"), users) := by
    unfold loginUser
    have hfind : (users.find? fun u => decide (u.email = aenv.toLowerCase email₁)) = none := by
      rw [List.find?_eq_none]
      intro u hu
      simpa using hunknown u hu
    rw [hfind]
    rfl
  have h₂ : loginUser aenv none email₂ password₂ users =
      (.error (newError "Credenciales inválidas" "AUTHENTICATION_ERROR"), users) := by
    unfold loginUser
    obtain ⟨u, hu, hue⟩ := hknown
    cases hfind : users.find? fun u => decide (u.email = aenv.toLowerCase email₂) with
    | none =>
      have := List.find?_eq_none.mp hfind u hu
      simp [hue] at this
    | some found =>
      have hmem : found ∈ users := List.mem_of_find?_eq_some hfind
      have hp := List.find?_some hfind
      simp only [decide_eq_true_eq] at hp
      simp only [hwrong found hmem hp, ↓reduceIte]
      rfl
  refine ⟨h₁, h₂, ?_, ?_⟩
  · unfold AuthController.login
    rw [h₁]
    rfl
  · unfold AuthController.login
    rw [h₂]
    rfl

/-- Witness of C14: an unknown address, and the sample account with a wrong password. -/
theorem loginUser_failures_identical_witness :
    (∀ u ∈ [sampleUser], u.email ≠ sampleAuthEnv.toLowerCase "nadie@libros.com") ∧
    (∃ u ∈ [sampleUser], u.email = sampleAuthEnv.toLowerCase "admin@libros.com") ∧
    (∀ u ∈ [sampleUser], u.email = sampleAuthEnv.toLowerCase "admin@libros.com" →
      sampleAuthEnv.comparePassword u "admin123" = false) ∧
    loginUser sampleAuthEnv none "nadie@libros.com" "admin1234" [sampleUser] =
      (.error (newError "Credenciales inválidas" "AUTHENTICATION_ERROR"), [sampleUser]) ∧
    loginUser sampleAuthEnv none "admin@libros.com" "admin123" [sampleUser] =
      (.error (newError "Credenciales inválidas" "AUTHENTICATION_ERROR"), [sampleUser]) ∧
    AuthController.login sampleAuthEnv none "nadie@libros.com" "admin1234" [sampleUser] =
      (Reply.json 401 (ResBody.failure
        { success := false, message := "Credenciales inválidas"
          error_type := some "AUTHENTICATION_ERROR" }), [sampleUser]) ∧
    AuthController.login sampleAuthEnv none "admin@libros.com" "admin123" [sampleUser] =
      (Reply.json 401 (ResBody.failure
        { success := false, message := "Credenciales inválidas"
          error_type := some "AUTHENTICATION_ERROR" }), [sampleUser]) :=
  ⟨by decide, by decide, by decide,
    loginUser_failures_identical sampleAuthEnv [sampleUser] "nadie@libros.com" "admin1234"
      "admin@libros.com" "admin123" (by decide) (by decide) (by decide)⟩

theorem toJSON_no_password (user : User) : user.toJSON.lookup "password" = none := by
  simp [User.toJSON, List.lookup]

/-- C15: whenever `AuthController.register` or `AuthController.login` answers with
a success body, the `user` in its `data` is the outward representation of the
account the service returned, and that representation has no `password` key; this
holds on the login path too, where the account the service holds was loaded with its
password hash. (The representation is the one the specification gives for an
account; `models/User.js` is not among the sources.) -/
theorem auth_responses_carry_no_password (aenv : AuthEnv) (fault saveFault : Option Fault)
    (newId : ObjectId) (userData : UserData) (email password : String) (users : Users) :
    (∀ status message user token users',
      AuthController.register aenv fault saveFault newId userData users =
          (Reply.json status (ResBody.auth message user token), users') →
        (∃ result, registerUser aenv fault saveFault newId userData users =
            (.ok result, users') ∧ user = result.user.toJSON) ∧
          user.lookup "password" = none) ∧
    (∀ status message user token users',
      AuthController.login aenv fault email password users =
          (Reply.json status (ResBody.auth message user token), users') →
        (∃ result, loginUser aenv fault email password users = (.ok result, users') ∧
            result.user ∈ users ∧ user = result.user.toJSON) ∧
          user.lookup "password" = none) := by
  constructor
  · intro status message user token users' h
    unfold AuthController.register at h
    rcases hr : registerUser aenv fault saveFault newId userData users with ⟨r, users''⟩
    rw [hr] at h
    cases r with
    | error error =>
      simp only [AuthController.registerCatch] at h
      split at h <;> simp at h
    | ok result =>
      simp only [Prod.mk.injEq, Reply.json.injEq, ResBody.auth.injEq] at h
      obtain ⟨⟨_, _, huser, _⟩, husers⟩ := h
      subst huser husers
      exact ⟨⟨result, rfl, rfl⟩, toJSON_no_password _⟩
  · intro status message user token users' h
    unfold AuthController.login at h
    rcases hr : loginUser aenv fault email password users with ⟨r, users''⟩
    rw [hr] at h
    cases r with
    | error error =>
      simp only [AuthController.loginCatch] at h
      split at h <;> simp at h
    | ok result =>
      simp only [Prod.mk.injEq, Reply.json.injEq, ResBody.auth.injEq] at h
      obtain ⟨⟨_, _, huser, _⟩, husers⟩ := h
      subst huser husers
      refine ⟨⟨result, rfl, ?_, rfl⟩, toJSON_no_password _⟩
      unfold loginUser at hr
      cases fault with
      | some f => simp at hr
      | none =>
        cases hfind : users.find? fun u => decide (u.email = aenv.toLowerCase email) with
        | none => simp [hfind] at hr
        | some found =>
          simp only [hfind] at hr
          split at hr
          · simp at hr
          · simp only [Prod.mk.injEq, Except.ok.injEq] at hr
            rw [← hr.1]
            exact List.mem_of_find?_eq_some hfind

/-- C16: `verifyToken` returns the decoded payload when `jwt.verify` accepts the
token. When `jwt.verify` throws, it throws the error 'TOKEN_EXPIRED' exactly when the
thrown error is a `TokenExpiredError`, the error 'INVALID_TOKEN' exactly when it is a
`JsonWebTokenError` (a malformed or badly signed token), and the error 'TOKEN_ERROR'
exactly when it is neither; the three messages differ, so the failures can be told
apart. -/
theorem verifyToken_distinguishes_failures (aenv : AuthEnv) (token : String) :
    (∀ decoded, aenv.verify token = .ok decoded → verifyToken aenv token = .ok decoded) ∧
    (∀ error, aenv.verify token = .error error →
      (verifyToken aenv token = .error (plainError "TOKEN_EXPIRED") ↔
        error.name = "TokenExpiredError") ∧
      (verifyToken aenv token = .error (plainError "INVALID_TOKEN") ↔
        error.name = "JsonWebTokenError") ∧
      (verifyToken aenv token = .error (plainError "TOKEN_ERROR") ↔
        error.name ≠ "TokenExpiredError" ∧ error.name ≠ "JsonWebTokenError")) ∧
    plainError "TOKEN_EXPIRED" ≠ plainError "INVALID_TOKEN" ∧
    plainError "TOKEN_EXPIRED" ≠ plainError "TOKEN_ERROR" ∧
    plainError "INVALID_TOKEN" ≠ plainError "TOKEN_ERROR" := by
  refine ⟨?_, ?_, by decide, by decide, by decide⟩
  · intro decoded h
    simp [verifyToken, h]
  · intro error h
    have hv : verifyToken aenv token = .error (verifyTokenCatch error.toError) := by
      simp [verifyToken, h]
    have hname : error.toError.name = error.name := rfl
    rw [hv]
    unfold verifyTokenCatch
    rw [hname]
    have d₁ : (Except.error (plainError "TOKEN_EXPIRED") : Except JsError Payload) ≠
        .error (plainError "INVALID_TOKEN") := by decide
    have d₂ : (Except.error (plainError "TOKEN_EXPIRED") : Except JsError Payload) ≠
        .error (plainError "TOKEN_ERROR") := by decide
    have d₃ : (Except.error (plainError "INVALID_TOKEN") : Except JsError Payload) ≠
        .error (plainError "TOKEN_ERROR") := by decide
    by_cases h₁ : error.name = "TokenExpiredError"
    · have h₂ : error.name ≠ "JsonWebTokenError" := by rw [h₁]; decide
      rw [if_pos h₁]
      exact ⟨⟨fun _ => h₁, fun _ => rfl⟩, ⟨fun h => absurd h d₁, fun h => absurd h h₂⟩,
        ⟨fun h => absurd h d₂, fun h => absurd h₁ h.1⟩⟩
    · rw [if_neg h₁]
      by_cases h₂ : error.name = "JsonWebTokenError"
      · rw [if_pos h₂]
        exact ⟨⟨fun h => absurd h.symm d₁, fun h => absurd h h₁⟩, ⟨fun _ => h₂, fun _ => rfl⟩,
          ⟨fun h => absurd h d₃, fun h => absurd h₂ h.2⟩⟩
      · rw [if_neg h₂]
        exact ⟨⟨fun h => absurd h.symm d₂, fun h => absurd h h₁⟩,
          ⟨fun h => absurd h.symm d₃, fun h => absurd h h₂⟩, ⟨fun _ => ⟨h₁, h₂⟩, fun _ => rfl⟩⟩

/-! ## The translation of errors -/

theorem serviceCode_of_mem {code : String} (h : code ∈ ERROR_CODES.values) :
    errorHandler.serviceCode (some (JsCode.str code)) = some code := by
  simp [errorHandler.serviceCode, h]

theorem serviceCode_mem {c : Option JsCode} {code : String}
    (h : errorHandler.serviceCode c = some code) : code ∈ ERROR_CODES.values := by
  unfold errorHandler.serviceCode at h
  split at h
  · split at h
    · cases h
      assumption
    · cases h
  · cases h

/-- C17: for every error whose code is one of the six `ERROR_CODES` and whose name
is none of those the earlier branches test (a string code is not the number 11000),
`errorHandler`, called with the error, answers with status 404 for
`NOT_FOUND_ERROR`, 401 for `AUTHENTICATION_ERROR`, 403 for `AUTHORIZATION_ERROR`, 400
for `VALIDATION_ERROR`, 409 for `DUPLICATE_ERROR` and 500 for
`INTERNAL_SERVER_ERROR`, and a body whose `error_type` is the code of the error,
whose `message` is its message, and whose `success` is false. -/
theorem errorHandler_maps_service_codes (nodeEnv : Option String) (now : String)
    (err : JsError) (req : Req) (code : String)
    (hname : err.name ∉ ["ValidationError", "CastError", "JsonWebTokenError",
      "TokenExpiredError", "MongoNetworkError", "MongoServerError"])
    (hcode : err.code = some (JsCode.str code)) (hmem : code ∈ ERROR_CODES.values) :
    ∃ status body, errorHandler nodeEnv now err req = .ok (status, body) ∧
      body.success = false ∧ body.message = err.message ∧ body.error_type = some code ∧
      (code = "NOT_FOUND_ERROR" → status = 404) ∧
      (code = "AUTHENTICATION_ERROR" → status = 401) ∧
      (code = "AUTHORIZATION_ERROR" → status = 403) ∧
      (code = "VALIDATION_ERROR" → status = 400) ∧
      (code = "DUPLICATE_ERROR" → status = 409) ∧
      (code = "INTERNAL_SERVER_ERROR" → status = 500) := by
  simp only [List.mem_cons, List.mem_singleton, List.not_mem_nil, or_false, not_or] at hname
  obtain ⟨n₁, n₂, n₃, n₄, n₅, n₆⟩ := hname
  have h11000 : ¬ (some (JsCode.str code) = some (JsCode.num 11000)) := by simp
  have hclass : errorHandler.classify err =
      .ok ⟨errorHandler.statusOfCode code, err.message, code,
        errorHandler.serviceDetails err⟩ := by
    unfold errorHandler.classify
    rw [if_neg n₁, hcode, if_neg h11000, if_neg n₂, if_neg n₃, if_neg n₄, if_neg n₅, if_neg n₆,
      serviceCode_of_mem hmem]
  have hanswer : ∃ body, errorHandler nodeEnv now err req =
      .ok (errorHandler.statusOfCode code, body) ∧
      body.success = false ∧ body.message = err.message ∧ body.error_type = some code := by
    unfold errorHandler
    rw [hclass]
    exact ⟨_, rfl, rfl, rfl, rfl⟩
  obtain ⟨body, hbody, hs, hm, ht⟩ := hanswer
  refine ⟨errorHandler.statusOfCode code, body, hbody, hs, hm, ht, ?_, ?_, ?_, ?_, ?_, ?_⟩
  all_goals
    intro h
    rw [h]
    decide

/-- Witness of C17: the error `getBookById` throws for a book that is not there. -/
theorem errorHandler_maps_service_codes_witness :
    (newError "Libro no encontrado" "NOT_FOUND_ERROR").name ∉
      ["ValidationError", "CastError", "JsonWebTokenError", "TokenExpiredError",
        "MongoNetworkError", "MongoServerError"] ∧
    (newError "Libro no encontrado" "NOT_FOUND_ERROR").code =
      some (JsCode.str "NOT_FOUND_ERROR") ∧
    "NOT_FOUND_ERROR" ∈ ERROR_CODES.values ∧
    ∃ status body, errorHandler none "2025-01-01T00:00:00.000Z"
        (newError "Libro no encontrado" "NOT_FOUND_ERROR") sampleReq = .ok (status, body) ∧
      body.success = false ∧
      body.message = (newError "Libro no encontrado" "NOT_FOUND_ERROR").message ∧
      body.error_type = some "NOT_FOUND_ERROR" ∧
      ("NOT_FOUND_ERROR" = "NOT_FOUND_ERROR" → status = 404) ∧
      ("NOT_FOUND_ERROR" = "AUTHENTICATION_ERROR" → status = 401) ∧
      ("NOT_FOUND_ERROR" = "AUTHORIZATION_ERROR" → status = 403) ∧
      ("NOT_FOUND_ERROR" = "VALIDATION_ERROR" → status = 400) ∧
      ("NOT_FOUND_ERROR" = "DUPLICATE_ERROR" → status = 409) ∧
      ("NOT_FOUND_ERROR" = "INTERNAL_SERVER_ERROR" → status = 500) :=
  ⟨by decide, by decide, by decide,
    errorHandler_maps_service_codes none "2025-01-01T00:00:00.000Z"
      (newError "Libro no encontrado" "NOT_FOUND_ERROR") sampleReq "NOT_FOUND_ERROR"
      (by decide) (by decide) (by decide)⟩

/-- C18, evaluated where it fails: the body the validation middleware answers with
for an empty create payload, and the body the identifier check answers with for an
identifier that is not well-formed, have `success` false and a message and no
`error_type`, unlike the body an inline handler of a controller answers with for the
`VALIDATION_ERROR` of a service. -/
theorem validation_failure_bodies_lack_error_type :
    (∃ body, validateBody (bookSchemas.create.validate sampleEnv) [] =
        Handled.responded 400 body ∧
      body.success = false ∧ body.message = "Datos inválidos" ∧ body.error_type = none) ∧
    (∃ body, validateMongoId "id" [("id", "xyz")] = Handled.responded 400 body ∧
      body.success = false ∧ body.message = "ID inválido" ∧ body.error_type = none) ∧
    BookController.getBookByIdCatch (newError "ID de libro inválido" "VALIDATION_ERROR") =
      Reply.json 400 (ResBody.failure
        { success := false, message := "ID de libro inválido"
          error_type := some "VALIDATION_ERROR" }) := by
  refine ⟨⟨{ success := false, message := "Datos inválidos"
             errors := some
               [⟨some "titulo", some "El título es requerido"⟩,
                ⟨some "autor", some "El autor es requerido"⟩,
                ⟨some "anoPublicacion", some "El año de publicación es requerido"⟩] },
      by decide, by decide, by decide, by decide⟩,
    ⟨{ success := false, message := "ID inválido" }, by decide, by decide, by decide,
      by decide⟩, by decide⟩

/-- C19, evaluated where it fails: the two functions `server.js` registers after the
routes declare three parameters each, `errorHandler` among them, so neither is an
error handler for Express, and every error a controller forwards with `next(error)`
is answered by the built-in handler of Express, not by `errorHandler`. -/
theorem forwarded_error_answered_by_express_default :
    server.errorHandler.length = 3 ∧
    server.afterRoutes = [server.notFoundHandler, server.errorHandler] ∧
    forwardedErrorResponder server.afterRoutes = ErrorResponder.expressDefault ∧
    forwardedErrorResponder server.afterRoutes ≠ ErrorResponder.middleware "errorHandler" := by
  decide

theorem classify_errorType_mem {err : JsError} {c : Classified}
    (h : errorHandler.classify err = .ok c) :
    c.errorType ∈ ERROR_CODES.values ++
      ["DATABASE_CONNECTION_ERROR", "DATABASE_SERVER_ERROR", "PAYLOAD_TOO_LARGE"] := by
  unfold errorHandler.classify at h
  repeat' split at h
  all_goals first
    | (simp only [Except.ok.injEq] at h
       subst h
       first
         | (dsimp only
            decide)
         | (rename_i hsc
            exact List.mem_append_left _ (serviceCode_mem hsc)))
    | cases h

/-- C20, what fails: for an error named `MongoNetworkError`, one named
`MongoServerError` and one of type `entity.too.large`, the `error_type` of the answer
of `errorHandler` is `DATABASE_CONNECTION_ERROR`, `DATABASE_SERVER_ERROR` and
`PAYLOAD_TOO_LARGE`, none of which is among the six kinds. -/
theorem errorHandler_error_type_counterexample :
    (∃ status body, errorHandler none "2025-01-01T00:00:00.000Z"
        { name := "MongoNetworkError", message := "connection timed out" } sampleReq =
          .ok (status, body) ∧
      body.error_type = some "DATABASE_CONNECTION_ERROR" ∧
      "DATABASE_CONNECTION_ERROR" ∉ ERROR_CODES.values) ∧
    (∃ status body, errorHandler none "2025-01-01T00:00:00.000Z"
        { name := "MongoServerError", message := "not primary" } sampleReq =
          .ok (status, body) ∧
      body.error_type = some "DATABASE_SERVER_ERROR" ∧
      "DATABASE_SERVER_ERROR" ∉ ERROR_CODES.values) ∧
    (∃ status body, errorHandler none "2025-01-01T00:00:00.000Z"
        { name := "PayloadTooLargeError", message := "request entity too large"
          type := some "entity.too.large" } sampleReq = .ok (status, body) ∧
      body.error_type = some "PAYLOAD_TOO_LARGE" ∧
      "PAYLOAD_TOO_LARGE" ∉ ERROR_CODES.values) := by
  refine ⟨⟨503, _, rfl, by decide, by decide⟩, ⟨503, _, rfl, by decide, by decide⟩,
    ⟨413, _, rfl, by decide, by decide⟩⟩

/-- C20, as amended: for every error for which `errorHandler` produces an answer,
the `error_type` of the answer is one of the six kinds of the taxonomy or one of the
three tags `DATABASE_CONNECTION_ERROR`, `DATABASE_SERVER_ERROR` and
`PAYLOAD_TOO_LARGE`. -/
theorem errorHandler_error_type_in_taxonomy_or_transport (nodeEnv : Option String)
    (now : String) (err : JsError) (req : Req) (status : Nat) (body : ErrorBody)
    (h : errorHandler nodeEnv now err req = .ok (status, body)) :
    ∃ tag, body.error_type = some tag ∧
      (tag ∈ ["VALIDATION_ERROR", "AUTHENTICATION_ERROR", "AUTHORIZATION_ERROR",
          "NOT_FOUND_ERROR", "DUPLICATE_ERROR", "INTERNAL_SERVER_ERROR"] ∨
        tag ∈ ["DATABASE_CONNECTION_ERROR", "DATABASE_SERVER_ERROR", "PAYLOAD_TOO_LARGE"]) := by
  unfold errorHandler at h
  cases hc : errorHandler.classify err with
  | error thrown => simp [hc] at h
  | ok c =>
    simp only [hc, Except.ok.injEq, Prod.mk.injEq] at h
    refine ⟨c.errorType, by rw [← h.2], ?_⟩
    have hmem := classify_errorType_mem hc
    rcases List.mem_append.mp hmem with h₁ | h₂
    · exact Or.inl h₁
    · exact Or.inr h₂

/-- Witness of C20 as amended: an error of the store's connection. -/
theorem errorHandler_error_type_in_taxonomy_or_transport_witness :
    errorHandler none "2025-01-01T00:00:00.000Z"
        { name := "MongoNetworkError", message := "connection timed out" } sampleReq =
      .ok (503,
        { success := false, message := "Error de conexión con la base de datos"
          error_type := some "DATABASE_CONNECTION_ERROR"
          timestamp := some "2025-01-01T00:00:00.000Z"
          path := some "/api/books", method := some "GET" }) ∧
    ∃ tag, (some "DATABASE_CONNECTION_ERROR" : Option String) = some tag ∧
      (tag ∈ ["VALIDATION_ERROR", "AUTHENTICATION_ERROR", "AUTHORIZATION_ERROR",
          "NOT_FOUND_ERROR", "DUPLICATE_ERROR", "INTERNAL_SERVER_ERROR"] ∨
        tag ∈ ["DATABASE_CONNECTION_ERROR", "DATABASE_SERVER_ERROR", "PAYLOAD_TOO_LARGE"]) :=
  ⟨by decide,
    errorHandler_error_type_in_taxonomy_or_transport none "2025-01-01T00:00:00.000Z"
      { name := "MongoNetworkError", message := "connection timed out" } sampleReq 503
      { success := false, message := "Error de conexión con la base de datos"
        error_type := some "DATABASE_CONNECTION_ERROR"
        timestamp := some "2025-01-01T00:00:00.000Z"
        path := some "/api/books", method := some "GET" } (by decide)⟩

/-! ## The listings -/

theorem insertNewest_perm (b : Book) (l : List Book) : (insertNewest b l).Perm (b :: l) := by
  induction l with
  | nil => exact List.Perm.refl _
  | cons x rest ih =>
    unfold insertNewest
    split
    · exact List.Perm.refl _
    · exact (List.Perm.cons x ih).trans (List.Perm.swap b x rest)

theorem sortNewestFirst_perm (l : List Book) : (sortNewestFirst l).Perm l := by
  induction l with
  | nil => exact List.Perm.refl _
  | cons b rest ih =>
    unfold sortNewestFirst
    exact (insertNewest_perm b _).trans (List.Perm.cons b ih)

theorem insertNewest_sorted (b : Book) {l : List Book}
    (h : l.Pairwise fun x y => y.createdAt ≤ x.createdAt) :
    (insertNewest b l).Pairwise fun x y => y.createdAt ≤ x.createdAt := by
  induction l with
  | nil => simp [insertNewest]
  | cons x rest ih =>
    have hx := (List.pairwise_cons.mp h).1
    have hrest := (List.pairwise_cons.mp h).2
    unfold insertNewest
    split
    · rename_i hle
      refine List.pairwise_cons.mpr ⟨?_, h⟩
      intro y hy
      rcases List.mem_cons.mp hy with rfl | hy
      · exact hle
      · exact Nat.le_trans (hx y hy) hle
    · rename_i hnle
      refine List.pairwise_cons.mpr ⟨?_, ih hrest⟩
      intro y hy
      rcases List.mem_cons.mp ((insertNewest_perm b rest).subset hy) with rfl | hy
      · omega
      · exact hx y hy

theorem sortNewestFirst_sorted (l : List Book) :
    (sortNewestFirst l).Pairwise fun x y => y.createdAt ≤ x.createdAt := by
  induction l with
  | nil => exact List.Pairwise.nil
  | cons b rest ih =>
    unfold sortNewestFirst
    exact insertNewest_sorted b ih

/-- C25: on a store that answers, `getAllBooks` returns a list that has every book
of the collection exactly once (a rearrangement of the collection) and is ordered
newest first: each result is created no earlier than every result after it, its
successor in particular. The collection is the one it was, whatever the store does,
so that a second call returns the same list. -/
theorem getAllBooks_every_book_newest_first (db : Collection) :
    ∃ books, getAllBooks none db = (.ok books, db) ∧
      books.Perm db ∧
      books.Pairwise (fun a b => a.createdAt ≥ b.createdAt) ∧
      books.Chain' (fun a b => a.createdAt ≥ b.createdAt) ∧
      (∀ fault, (getAllBooks fault db).2 = db) ∧
      getAllBooks none (getAllBooks none db).2 = (.ok books, db) := by
  have h : getAllBooks none db = (.ok (sortNewestFirst (db.filter fun _ => true)), db) := rfl
  have hfilter : (db.filter fun _ => true) = db := List.filter_true db
  rw [hfilter] at h
  refine ⟨sortNewestFirst db, h, sortNewestFirst_perm db, sortNewestFirst_sorted db,
    List.Pairwise.chain' (sortNewestFirst_sorted db), ?_, ?_⟩
  · intro fault
    cases fault <;> rfl
  · rw [h]
    exact h

theorem sortNewestFirst_length (l : List Book) : (sortNewestFirst l).length = l.length :=
  (sortNewestFirst_perm l).length_eq

theorem getBooksByAuthor_of_pattern (regExp : RegExpEngine) (fault : Option Fault)
    (autor : String) (db : Collection) (hne : autor ≠ "") :
    getBooksByAuthor regExp fault autor db =
      match regExp autor with
      | .error thrown =>
        (.error { newError "Error al obtener libros" ERROR_CODES.INTERNAL_ERROR with
                  originalError := some thrown }, db)
      | .ok test =>
        match fault with
        | some f =>
          (.error { newError "Error al obtener libros" ERROR_CODES.INTERNAL_ERROR with
                    originalError := some f }, db)
        | none => (.ok (sortNewestFirst (db.filter fun b => test b.autor)), db) := by
  unfold getBooksByAuthor getBooks getBooksTry getBooks.autorFilter
  simp only [hne, if_false]
  cases hr : regExp autor with
  | error thrown => rfl
  | ok test =>
    cases fault with
    | some f => rfl
    | none =>
      have hm : getBooks.matches none (some test) = fun b => test b.autor := by
        funext b
        simp [getBooks.matches]
      simp only [Book.findSorted, getBooks.estadoFilter, hm]

/-- C26 (counterexample): with the pattern `.`, which the engine reads as "any
character", `getBooksByAuthor` returns both books of the collection, although the
author of neither contains a full stop. -/
theorem getBooksByAuthor_counterexample :
    (getBooksByAuthor sampleRegExp none "." [sampleBook, otherBook]).1 =
        .ok [otherBook, sampleBook] ∧
      ¬ ("." : String).toList <:+: sampleBook.autor.toList ∧
      ¬ ("." : String).toList <:+: otherBook.autor.toList ∧
      ([sampleBook, otherBook].filter fun b =>
        decide ((("." : String).toList.map Char.toLower) <:+:
          (b.autor.toList.map Char.toLower))) = [] := by
  decide

/-- C26 (amended): for a non-empty author string that the engine accepts as a
regular expression, `getBooksByAuthor` on a store that answers returns exactly the
books of the collection whose author the case-insensitive expression matches, newest
first; a book is in the result if and only if it is in the collection and its author
matches. The collection is the one it was. -/
theorem getBooksByAuthor_returns_pattern_matches (regExp : RegExpEngine) (autor : String)
    (test : String → Bool) (db : Collection)
    (hne : autor ≠ "") (hpattern : regExp autor = .ok test) :
    ∃ books, getBooksByAuthor regExp none autor db = (.ok books, db) ∧
      books = sortNewestFirst (db.filter fun b => test b.autor) ∧
      (∀ b, b ∈ books ↔ b ∈ db ∧ test b.autor = true) ∧
      books.Pairwise (fun a b => a.createdAt ≥ b.createdAt) := by
  refine ⟨_, ?_, rfl, ?_, sortNewestFirst_sorted _⟩
  · rw [getBooksByAuthor_of_pattern regExp none autor db hne, hpattern]
  · intro b
    rw [(sortNewestFirst_perm _).mem_iff, List.mem_filter]

theorem getBooksByAuthor_returns_pattern_matches_witness :
    ("BORGES" : String) ≠ "" ∧
    ∃ books, getBooksByAuthor sampleRegExp none "BORGES" [sampleBook, otherBook] =
        (.ok books, [sampleBook, otherBook]) ∧
      books = sortNewestFirst ([sampleBook, otherBook].filter fun b =>
        decide ((("BORGES" : String).toList.map Char.toLower) <:+:
          (b.autor.toList.map Char.toLower))) ∧
      (∀ b, b ∈ books ↔ b ∈ [sampleBook, otherBook] ∧
        decide ((("BORGES" : String).toList.map Char.toLower) <:+:
          (b.autor.toList.map Char.toLower)) = true) ∧
      books.Pairwise (fun a b => a.createdAt ≥ b.createdAt) :=
  ⟨by decide,
    getBooksByAuthor_returns_pattern_matches sampleRegExp "BORGES"
      (fun s => decide ((("BORGES" : String).toList.map Char.toLower) <:+:
        (s.toList.map Char.toLower)))
      [sampleBook, otherBook] (by decide) (by
        unfold sampleRegExp
        rw [if_neg (by decide), if_neg (by decide)])⟩


/-- For a limit of at least 1, `getRecentBooks(limit)` on a store that answers returns
at most `limit` books, namely the first min(limit, n) books of the newest-first list
`getAllBooks` returns for the collection of n books, each reduced to the fields
`titulo`, `autor`, `anoPublicacion`, `estado` and `createdAt` (and the id). The
collection is the one it was. -/
theorem getRecentBooks_first_of_getAllBooks (limit : Int) (db : Collection) (hlimit : 1 ≤ limit) :
    ∃ all recent, getAllBooks none db = (.ok all, db) ∧
      getRecentBooks none limit db = (.ok recent, db) ∧
      recent = (all.take (min limit.toNat db.length)).map Book.select ∧
      recent.length = min limit.toNat db.length ∧
      (recent.length : Int) ≤ limit := by
  have hall : getAllBooks none db = (.ok (sortNewestFirst db), db) := by
    have h : getAllBooks none db = (.ok (sortNewestFirst (db.filter fun _ => true)), db) := rfl
    rw [List.filter_true] at h
    exact h
  have hne : limit ≠ 0 := by omega
  have hnat : limit.natAbs = limit.toNat := by omega
  have htake : (sortNewestFirst db).take (min limit.toNat db.length) =
      (sortNewestFirst db).take limit.toNat := by
    rw [← sortNewestFirst_length db, List.take_eq_take]
    simp
  have hrecent : getRecentBooks none limit db =
      (.ok (((sortNewestFirst db).take (min limit.toNat db.length)).map Book.select), db) := by
    rw [htake]
    simp only [getRecentBooks, Book.findRecent, applyLimit, if_neg hne, hnat]
  have hlen : (((sortNewestFirst db).take (min limit.toNat db.length)).map Book.select).length =
      min limit.toNat db.length := by
    rw [List.length_map, List.length_take, sortNewestFirst_length]
    omega
  refine ⟨_, _, hall, hrecent, rfl, hlen, ?_⟩
  rw [hlen]
  omega

/-- C27, evaluated where it fails: the limit 0 is below the least limit the route
documents, nothing refuses it, and `getRecentBooks(0)` returns every book of the
collection, newest first: on the two sample books it returns both, which is more than
0 books. For every limit from the documented least one on, the method does return at
most `limit` books, the first min(limit, n) of the list `getAllBooks` returns, each
reduced to the selected fields. -/
theorem getRecentBooks_limit_zero_returns_every_book :
    (0 : Int) < books.routes.recent.limitMinimum ∧
    (getRecentBooks none 0 [sampleBook, otherBook]).1 =
      .ok [otherBook.select, sampleBook.select] ∧
    ¬ ([otherBook.select, sampleBook.select].length ≤ 0) ∧
    (∀ db : Collection,
      getRecentBooks none 0 db = (.ok ((sortNewestFirst db).map Book.select), db)) ∧
    (∀ (limit : Int) (db : Collection), books.routes.recent.limitMinimum ≤ limit →
      ∃ all recent, getAllBooks none db = (.ok all, db) ∧
        getRecentBooks none limit db = (.ok recent, db) ∧
        recent = (all.take (min limit.toNat db.length)).map Book.select ∧
        recent.length = min limit.toNat db.length ∧
        (recent.length : Int) ≤ limit) := by
  refine ⟨by decide, by decide, by decide, ?_, ?_⟩
  · intro db
    rfl
  · intro limit db hlimit
    exact getRecentBooks_first_of_getAllBooks limit db hlimit

/-- C30: an author string that passes `validateParams(paramSchemas.bookAuthor)` and
for which `new RegExp(autor, 'i')` throws makes `getBooksByAuthor` fail with the
error of the `catch` block of `getBooks`, whose code is `INTERNAL_SERVER_ERROR` and
not `VALIDATION_ERROR`, and which keeps the thrown error as `originalError`. The
result is the same whatever the store would do and whatever the collection holds: the
store is not asked. -/
theorem getBooksByAuthor_invalid_pattern_is_internal_error (regExp : RegExpEngine)
    (fault : Option Fault) (autor : String) (thrown : Fault) (db : Collection)
    (hvalid : validateParams paramSchemas.bookAuthor.validate [("autor", autor)] =
      Handled.next autor)
    (hthrown : regExp autor = .error thrown) :
    ∃ e, getBooksByAuthor regExp fault autor db = (.error e, db) ∧
      e = { newError "Error al obtener libros" ERROR_CODES.INTERNAL_ERROR with
            originalError := some thrown } ∧
      e.code = some (JsCode.str "INTERNAL_SERVER_ERROR") ∧
      e.code ≠ some (JsCode.str ERROR_CODES.VALIDATION_ERROR) := by
  have hne : autor ≠ "" := by
    rintro rfl
    revert hvalid
    decide
  have hcode : ({ newError "Error al obtener libros" ERROR_CODES.INTERNAL_ERROR with
      originalError := some thrown } : JsError).code =
      some (JsCode.str "INTERNAL_SERVER_ERROR") := rfl
  refine ⟨_, ?_, rfl, hcode, ?_⟩
  · rw [getBooksByAuthor_of_pattern regExp fault autor db hne, hthrown]
  · rw [hcode]
    decide

theorem getBooksByAuthor_invalid_pattern_is_internal_error_witness :
    validateParams paramSchemas.bookAuthor.validate [("autor", "(")] = Handled.next "(" ∧
    sampleRegExp "(" = .error { name := "SyntaxError"
                                message := "Invalid regular expression: /(/: Unterminated group" } ∧
    ∃ e, getBooksByAuthor sampleRegExp none "(" [sampleBook, otherBook] =
        (.error e, [sampleBook, otherBook]) ∧
      e = { newError "Error al obtener libros" ERROR_CODES.INTERNAL_ERROR with
            originalError := some
              { name := "SyntaxError"
                message := "Invalid regular expression: /(/: Unterminated group" } } ∧
      e.code = some (JsCode.str "INTERNAL_SERVER_ERROR") ∧
      e.code ≠ some (JsCode.str ERROR_CODES.VALIDATION_ERROR) :=
  ⟨by decide, rfl,
    getBooksByAuthor_invalid_pattern_is_internal_error sampleRegExp none "(" _
      [sampleBook, otherBook] (by decide) rfl⟩

/-! ## The codes of the failures of `BookService` -/

theorem getBookByIdCatch_code (error : JsError) :
    (getBookByIdCatch error).code = some (JsCode.str "VALIDATION_ERROR") ∨
      (getBookByIdCatch error).code = some (JsCode.str "NOT_FOUND_ERROR") ∨
      (getBookByIdCatch error).code = some (JsCode.str "INTERNAL_SERVER_ERROR") := by
  unfold getBookByIdCatch
  split_ifs with h1 h2
  · exact Or.inl rfl
  · exact Or.inr (Or.inl h2)
  · exact Or.inr (Or.inr rfl)

theorem createBookCatch_code (error : JsError) :
    (createBookCatch error).code = some (JsCode.str "VALIDATION_ERROR") ∨
      (createBookCatch error).code = some (JsCode.str "NOT_FOUND_ERROR") ∨
      (createBookCatch error).code = some (JsCode.str "INTERNAL_SERVER_ERROR") := by
  unfold createBookCatch
  split_ifs with h1
  · exact Or.inl rfl
  · exact Or.inr (Or.inr rfl)

theorem updateBookCatch_code (error : JsError) :
    (updateBookCatch error).code = some (JsCode.str "VALIDATION_ERROR") ∨
      (updateBookCatch error).code = some (JsCode.str "NOT_FOUND_ERROR") ∨
      (updateBookCatch error).code = some (JsCode.str "INTERNAL_SERVER_ERROR") := by
  unfold updateBookCatch
  split_ifs with h1 h2 h3
  · exact Or.inl rfl
  · exact Or.inl rfl
  · exact Or.inr (Or.inl h3)
  · exact Or.inr (Or.inr rfl)

theorem deleteBookCatch_code (error : JsError) :
    (deleteBookCatch error).code = some (JsCode.str "VALIDATION_ERROR") ∨
      (deleteBookCatch error).code = some (JsCode.str "NOT_FOUND_ERROR") ∨
      (deleteBookCatch error).code = some (JsCode.str "INTERNAL_SERVER_ERROR") := by
  unfold deleteBookCatch
  split_ifs with h1 h2
  · exact Or.inl rfl
  · exact Or.inr (Or.inl h2)
  · exact Or.inr (Or.inr rfl)

theorem getBookById_error_code {fault : Option Fault} {bookId : String} {db : Collection}
    {e : JsError} (h : (getBookById fault bookId db).1 = .error e) :
    e.code = some (JsCode.str "VALIDATION_ERROR") ∨
      e.code = some (JsCode.str "NOT_FOUND_ERROR") ∨
      e.code = some (JsCode.str "INTERNAL_SERVER_ERROR") := by
  unfold getBookById at h
  split at h
  · cases h
  · simp only [Except.error.injEq] at h
    subst h
    exact getBookByIdCatch_code _

theorem createBook_error_code {env : Env} {fault : Option Fault} {newId : ObjectId} {now : Nat}
    {bookData : BookData} {db : Collection} {e : JsError}
    (h : (createBook env fault newId now bookData db).1 = .error e) :
    e.code = some (JsCode.str "VALIDATION_ERROR") ∨
      e.code = some (JsCode.str "NOT_FOUND_ERROR") ∨
      e.code = some (JsCode.str "INTERNAL_SERVER_ERROR") := by
  unfold createBook at h
  split at h
  · cases h
  · simp only [Except.error.injEq] at h
    subst h
    exact createBookCatch_code _

theorem updateBook_error_code {env : Env} {fault : Option Fault} {now : Nat} {bookId : String}
    {updateData : BookData} {db : Collection} {e : JsError}
    (h : (updateBook env fault now bookId updateData db).1 = .error e) :
    e.code = some (JsCode.str "VALIDATION_ERROR") ∨
      e.code = some (JsCode.str "NOT_FOUND_ERROR") ∨
      e.code = some (JsCode.str "INTERNAL_SERVER_ERROR") := by
  unfold updateBook at h
  split at h
  · cases h
  · simp only [Except.error.injEq] at h
    subst h
    exact updateBookCatch_code _

theorem deleteBook_error_code {fault : Option Fault} {bookId : String} {db : Collection}
    {e : JsError} (h : (deleteBook fault bookId db).1 = .error e) :
    e.code = some (JsCode.str "VALIDATION_ERROR") ∨
      e.code = some (JsCode.str "NOT_FOUND_ERROR") ∨
      e.code = some (JsCode.str "INTERNAL_SERVER_ERROR") := by
  unfold deleteBook at h
  split at h
  · cases h
  · simp only [Except.error.injEq] at h
    subst h
    exact deleteBookCatch_code _

theorem changeBookState_error_code {env : Env} {fault : Option Fault} {now : Nat}
    {bookId : String} {newState : JsVal} {db : Collection} {e : JsError}
    (h : (changeBookState env fault now bookId newState db).1 = .error e) :
    e.code = some (JsCode.str "VALIDATION_ERROR") ∨
      e.code = some (JsCode.str "NOT_FOUND_ERROR") ∨
      e.code = some (JsCode.str "INTERNAL_SERVER_ERROR") := by
  unfold changeBookState at h
  split_ifs at h
  · simp only [Except.error.injEq] at h
    subst h
    exact Or.inl rfl
  · split at h
    · exact updateBook_error_code h
    · simp only [Except.error.injEq] at h
      subst h
      exact Or.inl rfl

theorem getAllBooks_error_code {fault : Option Fault} {db : Collection} {e : JsError}
    (h : (getAllBooks fault db).1 = .error e) :
    e.code = some (JsCode.str "INTERNAL_SERVER_ERROR") := by
  unfold getAllBooks at h
  split at h
  · cases h
  · simp only [Except.error.injEq] at h
    subst h
    rfl

theorem getBooks_error_code {regExp : RegExpEngine} {fault : Option Fault}
    {options : BookOptions} {db : Collection} {e : JsError}
    (h : (getBooks regExp fault options db).1 = .error e) :
    e.code = some (JsCode.str "INTERNAL_SERVER_ERROR") := by
  unfold getBooks at h
  split at h
  · cases h
  · simp only [Except.error.injEq] at h
    subst h
    rfl

theorem getRecentBooks_error_code {fault : Option Fault} {limit : Int} {db : Collection}
    {e : JsError} (h : (getRecentBooks fault limit db).1 = .error e) :
    e.code = some (JsCode.str "INTERNAL_SERVER_ERROR") := by
  unfold getRecentBooks at h
  split at h
  · cases h
  · simp only [Except.error.injEq] at h
    subst h
    rfl

theorem save_of_fault {env : Env} {now : Nat} {doc : BookDoc} {db : Collection} (f : Fault)
    (hv : validateDoc env doc = []) : Book.save env (some f) now doc db = (.error f, db) := by
  obtain ⟨id, titulo, autor, ano, estado⟩ := doc
  cases titulo with
  | none => simp [validateDoc, validateTitulo] at hv
  | some t =>
    cases autor with
    | none => simp [validateDoc, validateAutor] at hv
    | some a =>
      cases ano with
      | none => simp [validateDoc, validateAnoPublicacion] at hv
      | some y => simp [Book.save, hv]

/-- C22: every failure of every operation of `BookService` has one of the codes
`VALIDATION_ERROR`, `NOT_FOUND_ERROR` and `INTERNAL_SERVER_ERROR`, whatever the store
does. And a fault of the store that is no `CastError` and no `ValidationError` (and
does not itself carry the code `NOT_FOUND_ERROR`, which is the service's own and which
the `catch` blocks let through) is replaced, in every operation that reaches the
store, by an error with code `INTERNAL_SERVER_ERROR` and the fixed message of the
operation; the fault is kept as `originalError` only, so that two faults that differ
in their message give the same code and message. An operation reaches the store when
the identifier is well-formed and the document or update is valid. -/
theorem bookService_failures_coded_and_faults_wrapped (env : Env) (regExp : RegExpEngine)
    (newId : ObjectId) (now : Nat) (bookId : String) (bookData updateData : BookData)
    (newState : JsVal) (options : BookOptions) (autor : String) (limit : Int)
    (db : Collection) (f : Fault)
    (hcast : f.name ≠ "CastError") (hvalidation : f.name ≠ "ValidationError")
    (hown : f.code ≠ some (JsCode.str ERROR_CODES.NOT_FOUND_ERROR)) :
    (∀ (fault : Option Fault) (e : JsError),
      ((getAllBooks fault db).1 = .error e ∨
        (getBookById fault bookId db).1 = .error e ∨
        (createBook env fault newId now bookData db).1 = .error e ∨
        (updateBook env fault now bookId updateData db).1 = .error e ∨
        (deleteBook fault bookId db).1 = .error e ∨
        (changeBookState env fault now bookId newState db).1 = .error e ∨
        (getBooks regExp fault options db).1 = .error e ∨
        (getBooksByAuthor regExp fault autor db).1 = .error e ∨
        (getRecentBooks fault limit db).1 = .error e) →
      e.code = some (JsCode.str "VALIDATION_ERROR") ∨
        e.code = some (JsCode.str "NOT_FOUND_ERROR") ∨
        e.code = some (JsCode.str "INTERNAL_SERVER_ERROR")) ∧
    getAllBooks (some f) db =
      (.error { newError "Error al obtener los libros" ERROR_CODES.INTERNAL_ERROR with
                originalError := some f }, db) ∧
    (∀ oid, castObjectId bookId = some oid →
      getBookById (some f) bookId db =
        (.error { newError "Error al obtener el libro" ERROR_CODES.INTERNAL_ERROR with
                  originalError := some f }, db)) ∧
    (validateDoc env (Book.new newId bookData) = [] →
      createBook env (some f) newId now bookData db =
        (.error { newError "Error al crear el libro" ERROR_CODES.INTERNAL_ERROR with
                  originalError := some f }, db)) ∧
    (∀ oid, castObjectId bookId = some oid →
      validateUpdate env (castUpdate updateData) = [] →
      updateBook env (some f) now bookId updateData db =
        (.error { newError "Error al actualizar el libro" ERROR_CODES.INTERNAL_ERROR with
                  originalError := some f }, db)) ∧
    (∀ oid, castObjectId bookId = some oid →
      deleteBook (some f) bookId db =
        (.error { newError "Error al eliminar el libro" ERROR_CODES.INTERNAL_ERROR with
                  originalError := some f }, db)) ∧
    (∀ oid s, castObjectId bookId = some oid → newState = JsVal.str s →
      s ∈ BOOK_STATES.values →
      changeBookState env (some f) now bookId newState db =
        (.error { newError "Error al actualizar el libro" ERROR_CODES.INTERNAL_ERROR with
                  originalError := some f }, db)) ∧
    (∀ autorFilter, getBooks.autorFilter regExp options.autor = .ok autorFilter →
      getBooks regExp (some f) options db =
        (.error { newError "Error al obtener libros" ERROR_CODES.INTERNAL_ERROR with
                  originalError := some f }, db)) ∧
    getRecentBooks (some f) limit db =
      (.error { newError "Error al obtener libros recientes" ERROR_CODES.INTERNAL_ERROR with
                originalError := some f }, db) := by
  have hupdate : ∀ (upd : BookData) (oid : ObjectId), castObjectId bookId = some oid →
      validateUpdate env (castUpdate upd) = [] →
      updateBook env (some f) now bookId upd db =
        (.error { newError "Error al actualizar el libro" ERROR_CODES.INTERNAL_ERROR with
                  originalError := some f }, db) := by
    intro upd oid hc hv
    simp [updateBook, updateBookTry, Book.findByIdAndUpdate, hc, hv, updateBookCatch,
      Fault.toError, hcast, hvalidation, hown]
  refine ⟨?_, rfl, ?_, ?_, hupdate updateData, ?_, ?_, ?_, rfl⟩
  · intro fault e h
    rcases h with h | h | h | h | h | h | h | h | h
    · exact Or.inr (Or.inr (getAllBooks_error_code h))
    · exact getBookById_error_code h
    · exact createBook_error_code h
    · exact updateBook_error_code h
    · exact deleteBook_error_code h
    · exact changeBookState_error_code h
    · exact Or.inr (Or.inr (getBooks_error_code h))
    · exact Or.inr (Or.inr (getBooks_error_code h))
    · exact Or.inr (Or.inr (getRecentBooks_error_code h))
  · intro oid hc
    simp [getBookById, getBookByIdTry, Book.findById, hc, getBookByIdCatch, Fault.toError,
      hcast, hown]
  · intro hv
    simp [createBook, save_of_fault f hv, createBookCatch, Fault.toError, hvalidation]
  · intro oid hc
    simp [deleteBook, deleteBookTry, Book.findByIdAndDelete, hc, deleteBookCatch,
      Fault.toError, hcast, hown]
  · intro oid s hc hs hmem
    subst hs
    rw [changeBookState_of_mem hmem]
    exact hupdate _ oid hc (validateUpdate_estado hmem)
  · intro autorFilter hfilter
    simp [getBooks, getBooksTry, hfilter, Book.findSorted, getBooksCatch, Fault.toError]

theorem bookService_failures_coded_and_faults_wrapped_witness :
    ("MongoNetworkError" : String) ≠ "CastError" ∧
    ("MongoNetworkError" : String) ≠ "ValidationError" ∧
    (none : Option JsCode) ≠ some (JsCode.str ERROR_CODES.NOT_FOUND_ERROR) ∧
    getBookById (some { name := "MongoNetworkError", message := "connection timed out" })
        sampleId.hex [sampleBook] =
      (.error { newError "Error al obtener el libro" ERROR_CODES.INTERNAL_ERROR with
                originalError :=
                  some { name := "MongoNetworkError", message := "connection timed out" } },
        [sampleBook]) ∧
    createBook sampleEnv
        (some { name := "MongoNetworkError", message := "connection timed out" }) otherId 3
        { titulo := some "El Aleph", autor := some "Jorge Luis Borges"
          anoPublicacion := some 1949 } [sampleBook] =
      (.error { newError "Error al crear el libro" ERROR_CODES.INTERNAL_ERROR with
                originalError :=
                  some { name := "MongoNetworkError", message := "connection timed out" } },
        [sampleBook]) :=
  ⟨by decide, by decide, by decide,
    (bookService_failures_coded_and_faults_wrapped sampleEnv sampleRegExp otherId 3
      sampleId.hex
      { titulo := some "El Aleph", autor := some "Jorge Luis Borges"
        anoPublicacion := some 1949 }
      {} (JsVal.str "reservado") {} "Borges" 10 [sampleBook]
      { name := "MongoNetworkError", message := "connection timed out" }
      (by decide) (by decide) (by decide)).2.2.1 sampleId (castObjectId_hex sampleId),
    (bookService_failures_coded_and_faults_wrapped sampleEnv sampleRegExp otherId 3
      sampleId.hex
      { titulo := some "El Aleph", autor := some "Jorge Luis Borges"
        anoPublicacion := some 1949 }
      {} (JsVal.str "reservado") {} "Borges" 10 [sampleBook]
      { name := "MongoNetworkError", message := "connection timed out" }
      (by decide) (by decide) (by decide)).2.2.2.1 (by decide)⟩

/-! ## The validation middleware -/

/-- C23: the middleware `validate`, on request data its schema rejects, answers 400
with the list of violations and does not call `next()`; on request data the schema
accepts it calls `next()`, once, with the request data replaced by the normalised
value. `validateBody`, `validateQuery` and `validateParams` are `validate` on the
body, the query and the route parameters. On the route `POST /`, when the middleware
answers, the answer of the route is that of the middleware and the collection is the
one it was, for every controller: the controller, and the service behind it, do not
run; when it calls `next()`, the controller runs on the normalised value. -/
theorem validate_answers_400_or_calls_next {α : Type}
    (schema : Payload → Except (List Detail) α) (data : Payload) (params : Params) (env : Env)
    (controller : BookData → Collection → Reply × Collection) (db : Collection) :
    (∀ details, schema data = .error details →
      validate schema data =
        Handled.responded 400
          { success := false, message := "Datos inválidos"
            errors := some (details.map fun detail => ⟨detail.key, detail.message⟩) }) ∧
    (∀ value, schema data = .ok value → validate schema data = Handled.next value) ∧
    validateBody schema data = validate schema data ∧
    validateQuery schema data = validate schema data ∧
    validateParams schema params =
      validate schema (params.map fun kv => (kv.1, JsVal.str kv.2)) ∧
    (∀ status errorBody,
      validateBody (bookSchemas.create.validate env) data =
        Handled.responded status errorBody →
      books.routes.post env controller data db =
        (Reply.json status (ResBody.failure errorBody), db)) ∧
    (∀ value,
      validateBody (bookSchemas.create.validate env) data = Handled.next value →
      books.routes.post env controller data db = controller value db) := by
  refine ⟨?_, ?_, rfl, rfl, rfl, ?_, ?_⟩
  · intro details h
    unfold validate
    rw [h]
  · intro value h
    unfold validate
    rw [h]
  · intro status errorBody h
    unfold books.routes.post
    rw [h]
  · intro value h
    unfold books.routes.post
    rw [h]

theorem joiString_value_iff {key : String} {min max : Nat} {required : Bool}
    {messages : List (String × String)} {v : JsVal} (t : String)
    (h : (joiString key min max required messages v).details = []) :
    (joiString key min max required messages v).value = some t ↔ v = JsVal.str t := by
  cases v with
  | str s =>
    unfold joiString at h ⊢
    dsimp only at h ⊢
    by_cases h1 : jsLength s = 0 ∧ min ≠ 0
    · rw [if_pos h1] at h
      simp [KeyResult.details] at h
    · rw [if_neg h1] at h ⊢
      generalize (if jsLength s < min then [Detail.of messages key "string.min"] else []) ++
        (if max < jsLength s then [Detail.of messages key "string.max"] else []) = l at h ⊢
      cases l with
      | nil => simp [KeyResult.value]
      | cons d ds => simp [KeyResult.details] at h
  | undefined =>
    cases required <;> simp [joiString, KeyResult.details, KeyResult.value] at h ⊢
  | _ => simp [joiString, KeyResult.details] at h

theorem create_validate_ok_inv {env : Env} {data : Payload} {value : BookData}
    (h : validateBody (bookSchemas.create.validate env) data = Handled.next value) :
    (bookSchemas.create.titulo (data.get "titulo")).details = [] ∧
      (bookSchemas.create.autor (data.get "autor")).details = [] ∧
      value.titulo = (bookSchemas.create.titulo (data.get "titulo")).value ∧
      value.autor = (bookSchemas.create.autor (data.get "autor")).value := by
  unfold validateBody validate bookSchemas.create.validate at h
  split at h
  · rename_i herr
    cases h
  · rename_i v hok
    simp only [Handled.next.injEq] at h
    subst h
    split at hok
    · rename_i hl
      simp only [Except.ok.injEq] at hok
      subst hok
      simp only [List.append_eq_nil] at hl
      exact ⟨hl.1.1.1, hl.1.1.2, rfl, rfl⟩
    · cases hok

theorem update_validate_ok_inv {env : Env} {data : Payload} {value : BookData}
    (h : validateBody (bookSchemas.update.validate env) data = Handled.next value) :
    (bookSchemas.update.titulo (data.get "titulo")).details = [] ∧
      (bookSchemas.update.autor (data.get "autor")).details = [] ∧
      value.titulo = (bookSchemas.update.titulo (data.get "titulo")).value ∧
      value.autor = (bookSchemas.update.autor (data.get "autor")).value := by
  unfold validateBody validate bookSchemas.update.validate at h
  split at h
  · rename_i herr
    cases h
  · rename_i v hok
    simp only [Handled.next.injEq] at h
    subst h
    split at hok
    · rename_i hl
      split_ifs at hok
      simp only [Except.ok.injEq] at hok
      subst hok
      simp only [List.append_eq_nil] at hl
      exact ⟨hl.1.1.1, hl.1.1.2, rfl, rfl⟩
    · cases hok

/-- C24 (counterexample): `bookSchemas.create` accepts a payload whose title is three
blanks and whose author has a blank on each side, and the normalised record handed on
has that title and that author: neither is trimmed, and the title of blanks is handed
on as a valid title of 3 characters. The same holds for `bookSchemas.update`. -/
theorem validation_untrimmed_counterexample :
    validateBody (bookSchemas.create.validate sampleEnv)
        [("titulo", JsVal.str "   "), ("autor", JsVal.str " Julio Cortázar "),
          ("anoPublicacion", JsVal.num 1963)] =
      Handled.next
        { titulo := some "   ", autor := some " Julio Cortázar ", anoPublicacion := some 1963
          estado := some "disponible" } ∧
    validateBody (bookSchemas.update.validate sampleEnv) [("titulo", JsVal.str "   ")] =
      Handled.next { titulo := some "   " } ∧
    jsTrim "   " = "" ∧ jsTrim "   " ≠ "   " ∧
    jsTrim " Julio Cortázar " = "Julio Cortázar" ∧
    jsTrim " Julio Cortázar " ≠ " Julio Cortázar " := by
  decide

/-- C24 (amended): the validation layer does not trim. For every create or update
payload that validation accepts, the `titulo` of the normalised record handed to the
service is a string exactly when the payload has a string as `titulo`, and it is that
string, character for character, leading and trailing whitespace included; the same
holds for `autor`. The strings are trimmed afterwards, by the setters of the model:
in the document `new Book(..)` builds and in the update the store is sent. -/
theorem validation_hands_on_strings_as_supplied (env : Env) (body : Payload) (value : BookData)
    (newId : ObjectId)
    (h : validateBody (bookSchemas.create.validate env) body = Handled.next value ∨
      validateBody (bookSchemas.update.validate env) body = Handled.next value) :
    (∀ t, value.titulo = some t ↔ body.get "titulo" = JsVal.str t) ∧
    (∀ a, value.autor = some a ↔ body.get "autor" = JsVal.str a) ∧
    (Book.new newId value).titulo = value.titulo.map jsTrim ∧
    (Book.new newId value).autor = value.autor.map jsTrim ∧
    (castUpdate value).titulo = value.titulo.map jsTrim ∧
    (castUpdate value).autor = value.autor.map jsTrim := by
  refine ⟨?_, ?_, rfl, rfl, rfl, rfl⟩
  · intro t
    rcases h with h | h
    · obtain ⟨h1, _, h3, _⟩ := create_validate_ok_inv h
      rw [h3]
      exact joiString_value_iff t h1
    · obtain ⟨h1, _, h3, _⟩ := update_validate_ok_inv h
      rw [h3]
      exact joiString_value_iff t h1
  · intro a
    rcases h with h | h
    · obtain ⟨_, h2, _, h4⟩ := create_validate_ok_inv h
      rw [h4]
      exact joiString_value_iff a h2
    · obtain ⟨_, h2, _, h4⟩ := update_validate_ok_inv h
      rw [h4]
      exact joiString_value_iff a h2

theorem validation_hands_on_strings_as_supplied_witness :
    (validateBody (bookSchemas.create.validate sampleEnv)
          [("titulo", JsVal.str " Rayuela"), ("autor", JsVal.str "Julio Cortázar "),
            ("anoPublicacion", JsVal.num 1963)] =
        Handled.next
          { titulo := some " Rayuela", autor := some "Julio Cortázar "
            anoPublicacion := some 1963, estado := some "disponible" } ∨
      validateBody (bookSchemas.update.validate sampleEnv)
          [("titulo", JsVal.str " Rayuela"), ("autor", JsVal.str "Julio Cortázar "),
            ("anoPublicacion", JsVal.num 1963)] =
        Handled.next
          { titulo := some " Rayuela", autor := some "Julio Cortázar "
            anoPublicacion := some 1963, estado := some "disponible" }) ∧
    (∀ t, (some " Rayuela" : Option String) = some t ↔
      Payload.get [("titulo", JsVal.str " Rayuela"), ("autor", JsVal.str "Julio Cortázar "),
        ("anoPublicacion", JsVal.num 1963)] "titulo" = JsVal.str t) :=
  ⟨Or.inl (by decide),
    (validation_hands_on_strings_as_supplied sampleEnv
      [("titulo", JsVal.str " Rayuela"), ("autor", JsVal.str "Julio Cortázar "),
        ("anoPublicacion", JsVal.num 1963)]
      { titulo := some " Rayuela", autor := some "Julio Cortázar "
        anoPublicacion := some 1963, estado := some "disponible" }
      sampleId (Or.inl (by decide))).1⟩

/-! ## The failures of the services and their translation -/

theorem getBookById_none_error {bookId : String} {db : Collection} {e : JsError}
    (h : (getBookById none bookId db).1 = .error e) :
    e = newError "ID de libro inválido" ERROR_CODES.VALIDATION_ERROR ∨
      e = newError "Libro no encontrado" ERROR_CODES.NOT_FOUND_ERROR := by
  cases hc : castObjectId bookId with
  | none =>
    left
    have : getBookById none bookId db =
        (.error (newError "ID de libro inválido" ERROR_CODES.VALIDATION_ERROR), db) := by
      simp [getBookById, getBookByIdTry, Book.findById, hc, getBookByIdCatch, castFault,
        Fault.toError]
    rw [this] at h
    simp only [Except.error.injEq] at h
    exact h.symm
  | some oid =>
    cases hf : findDoc oid db with
    | none =>
      right
      rw [getBookById_of_not_found hc hf] at h
      simp only [Except.error.injEq] at h
      exact h.symm
    | some b =>
      rw [getBookById_of_found hc hf] at h
      cases h

theorem deleteBook_none_error {bookId : String} {db : Collection} {e : JsError}
    (h : (deleteBook none bookId db).1 = .error e) :
    e = newError "ID de libro inválido" ERROR_CODES.VALIDATION_ERROR ∨
      e = newError "Libro no encontrado" ERROR_CODES.NOT_FOUND_ERROR := by
  cases hc : castObjectId bookId with
  | none =>
    left
    have : deleteBook none bookId db =
        (.error (newError "ID de libro inválido" ERROR_CODES.VALIDATION_ERROR), db) := by
      simp [deleteBook, deleteBookTry, Book.findByIdAndDelete, hc, deleteBookCatch, castFault,
        Fault.toError]
    rw [this] at h
    simp only [Except.error.injEq] at h
    exact h.symm
  | some oid =>
    cases hf : findDoc oid db with
    | none =>
      right
      rw [deleteBook_of_not_found hc hf] at h
      simp only [Except.error.injEq] at h
      exact h.symm
    | some b =>
      rw [deleteBook_of_found hc hf] at h
      cases h

theorem updateBook_none_error {env : Env} {now : Nat} {bookId : String} {upd : BookData}
    {db : Collection} {e : JsError} (h : (updateBook env none now bookId upd db).1 = .error e) :
    e = newError "ID de libro inválido" ERROR_CODES.VALIDATION_ERROR ∨
      (∃ errs, e =
        { newError "Datos de actualización inválidos" ERROR_CODES.VALIDATION_ERROR with
          validationErrors := some errs }) ∨
      e = newError "Libro no encontrado" ERROR_CODES.NOT_FOUND_ERROR := by
  cases hc : castObjectId bookId with
  | none =>
    left
    have : updateBook env none now bookId upd db =
        (.error (newError "ID de libro inválido" ERROR_CODES.VALIDATION_ERROR), db) := by
      simp [updateBook, updateBookTry, Book.findByIdAndUpdate, hc, updateBookCatch, castFault,
        Fault.toError]
    rw [this] at h
    simp only [Except.error.injEq] at h
    exact h.symm
  | some oid =>
    by_cases hv : validateUpdate env (castUpdate upd) = []
    · cases hf : findDoc oid db with
      | none =>
        right
        right
        rw [updateBook_of_not_found hc hv hf] at h
        simp only [Except.error.injEq] at h
        exact h.symm
      | some b =>
        rw [updateBook_of_found hc hv hf] at h
        cases h
    · right
      left
      rw [updateBook_of_invalid hc hv] at h
      simp only [Except.error.injEq] at h
      exact ⟨_, h.symm⟩

theorem changeBookState_none_error {env : Env} {now : Nat} {bookId : String}
    {newState : JsVal} {db : Collection} {e : JsError}
    (h : (changeBookState env none now bookId newState db).1 = .error e) :
    e = newError "Estado de libro inválido" ERROR_CODES.VALIDATION_ERROR ∨
      e = newError "ID de libro inválido" ERROR_CODES.VALIDATION_ERROR ∨
      (∃ errs, e =
        { newError "Datos de actualización inválidos" ERROR_CODES.VALIDATION_ERROR with
          validationErrors := some errs }) ∨
      e = newError "Libro no encontrado" ERROR_CODES.NOT_FOUND_ERROR := by
  unfold changeBookState at h
  split_ifs at h
  · simp only [Except.error.injEq] at h
    exact Or.inl h.symm
  · split at h
    · exact Or.inr (updateBook_none_error h)
    · simp only [Except.error.injEq] at h
      exact Or.inl h.symm

theorem loginUser_none_error {aenv : AuthEnv} {email password : String} {users : Users}
    {e : JsError} (h : (loginUser aenv none email password users).1 = .error e) :
    e = invalidCredentialsError := by
  unfold loginUser at h
  dsimp only at h
  split at h
  · simp only [Except.error.injEq] at h
    exact h.symm
  · split_ifs at h
    simp only [Except.error.injEq] at h
    exact h.symm

theorem registerUser_none_error {aenv : AuthEnv} {newId : ObjectId} {userData : UserData}
    {users : Users} {e : JsError}
    (h : (registerUser aenv none none newId userData users).1 = .error e) :
    e = userExistsError "email" ∨ e = userExistsError "username" := by
  unfold registerUser at h
  dsimp only at h
  split at h
  · simp only [Except.error.injEq] at h
    subst h
    split_ifs
    · exact Or.inl rfl
    · exact Or.inr rfl
  · cases h

theorem errorHandler_of_service_error (nodeEnv : Option String) (now : String) (err : JsError)
    (req : Req) {code : String} (hname : err.name = "Error")
    (hcode : err.code = some (JsCode.str code)) (hmem : code ∈ ERROR_CODES.values) :
    ∃ body, errorHandler nodeEnv now err req = .ok (errorHandler.statusOfCode code, body) ∧
      body.message = err.message ∧ body.error_type = some code := by
  have h11000 : ¬ (some (JsCode.str code) = some (JsCode.num 11000)) := by simp
  have hclass : errorHandler.classify err =
      .ok ⟨errorHandler.statusOfCode code, err.message, code,
        errorHandler.serviceDetails err⟩ := by
    unfold errorHandler.classify
    rw [hname, if_neg (by decide), hcode, if_neg h11000, if_neg (by decide),
      if_neg (by decide), if_neg (by decide), if_neg (by decide), if_neg (by decide),
      serviceCode_of_mem hmem]
  unfold errorHandler
  rw [hclass]
  exact ⟨_, rfl, rfl, rfl⟩

/-- C21 (counterexample): registering with the e-mail address of an existing account
(in other letter case) makes `registerUser` throw an error whose code is
`USER_ALREADY_EXISTS`, which is none of the `ERROR_CODES`; `errorHandler`, given that
error, answers with the default: status 500 and `INTERNAL_SERVER_ERROR`. -/
theorem registerUser_failure_code_counterexample :
    (registerUser sampleAuthEnv none none otherId
        ⟨"otra", "Admin@Libros.com", "secreto1234"⟩ [sampleUser]).1 =
      .error (userExistsError "email") ∧
    (userExistsError "email").code = some (JsCode.str "USER_ALREADY_EXISTS") ∧
    "USER_ALREADY_EXISTS" ∉ ERROR_CODES.values ∧
    (errorHandler none "2025-01-01T00:00:00.000Z" (userExistsError "email") sampleReq).map
        (fun answer => (answer.1, answer.2.error_type, answer.2.message)) =
      .ok (500, some "INTERNAL_SERVER_ERROR", "Error interno del servidor") := by
  decide

/-- C21 (amended): every failure that `getBookById`, `updateBook`, `deleteBook`,
`changeBookState` or `loginUser` raises on a store that answers (the identifier or the
update is invalid, the state is not a listed one, the book is not found, the
credentials are invalid) is an `Error` whose code is one of `VALIDATION_ERROR`,
`NOT_FOUND_ERROR` and `AUTHENTICATION_ERROR` of `ERROR_CODES`, and `errorHandler`,
given the error unchanged, answers with the status of that code (400, 404 and 401; not
500), the code as `error_type` and the message of the error. The failure `registerUser`
raises for an account that exists is not of that kind: its code is
`USER_ALREADY_EXISTS`, which is none of the `ERROR_CODES`, and it is
`AuthController.register` that answers it, inline, with 409 and `DUPLICATE_ERROR`. -/
theorem service_failures_typed_except_account_exists (env : Env) (aenv : AuthEnv)
    (nodeEnv : Option String) (timestamp : String) (req : Req) (now : Nat) (bookId : String)
    (updateData : BookData) (newState : JsVal) (db : Collection) (email password : String)
    (users : Users) (newId : ObjectId) (userData : UserData) (e : JsError)
    (h : (getBookById none bookId db).1 = .error e ∨
      (updateBook env none now bookId updateData db).1 = .error e ∨
      (deleteBook none bookId db).1 = .error e ∨
      (changeBookState env none now bookId newState db).1 = .error e ∨
      (loginUser aenv none email password users).1 = .error e) :
    (∃ code, e.code = some (JsCode.str code) ∧
      code ∈ [ERROR_CODES.VALIDATION_ERROR, ERROR_CODES.NOT_FOUND_ERROR,
        ERROR_CODES.AUTHENTICATION_ERROR] ∧
      code ∈ ERROR_CODES.values ∧
      errorHandler.statusOfCode code ∈ [400, 404, 401] ∧
      ∃ body, errorHandler nodeEnv timestamp e req =
          .ok (errorHandler.statusOfCode code, body) ∧
        body.message = e.message ∧ body.error_type = some code) ∧
    (∀ e', (registerUser aenv none none newId userData users).1 = .error e' →
      e'.code = some (JsCode.str "USER_ALREADY_EXISTS") ∧
      "USER_ALREADY_EXISTS" ∉ ERROR_CODES.values ∧
      (AuthController.register aenv none none newId userData users).1 =
        Reply.json 409 (ResBody.failure
          { success := false, message := e'.message
            error_type := some ERROR_CODES.DUPLICATE_ERROR, field := e'.field })) := by
  have key : ∀ (code : String), e.name = "Error" → e.code = some (JsCode.str code) →
      code ∈ [ERROR_CODES.VALIDATION_ERROR, ERROR_CODES.NOT_FOUND_ERROR,
        ERROR_CODES.AUTHENTICATION_ERROR] →
      ∃ code, e.code = some (JsCode.str code) ∧
        code ∈ [ERROR_CODES.VALIDATION_ERROR, ERROR_CODES.NOT_FOUND_ERROR,
          ERROR_CODES.AUTHENTICATION_ERROR] ∧
        code ∈ ERROR_CODES.values ∧
        errorHandler.statusOfCode code ∈ [400, 404, 401] ∧
        ∃ body, errorHandler nodeEnv timestamp e req =
            .ok (errorHandler.statusOfCode code, body) ∧
          body.message = e.message ∧ body.error_type = some code := by
    intro code hname hcode hmem
    have hvalues : code ∈ ERROR_CODES.values := by
      simp only [List.mem_cons, List.mem_singleton, List.not_mem_nil, or_false] at hmem
      rcases hmem with rfl | rfl | rfl <;> decide
    have hstatus : errorHandler.statusOfCode code ∈ [400, 404, 401] := by
      simp only [List.mem_cons, List.mem_singleton, List.not_mem_nil, or_false] at hmem
      rcases hmem with rfl | rfl | rfl <;> decide
    exact ⟨code, hcode, hmem, hvalues, hstatus,
      errorHandler_of_service_error nodeEnv timestamp e req hname hcode hvalues⟩
  have hinvalid : ∀ msg, e = newError msg ERROR_CODES.VALIDATION_ERROR → _ :=
    fun msg he => key ERROR_CODES.VALIDATION_ERROR (by rw [he]; rfl) (by rw [he]; rfl)
      (by decide)
  have hnotfound : e = newError "Libro no encontrado" ERROR_CODES.NOT_FOUND_ERROR → _ :=
    fun he => key ERROR_CODES.NOT_FOUND_ERROR (by rw [he]; rfl) (by rw [he]; rfl) (by decide)
  have hupdate : ∀ errs, e =
      { newError "Datos de actualización inválidos" ERROR_CODES.VALIDATION_ERROR with
        validationErrors := some errs } → _ :=
    fun errs he => key ERROR_CODES.VALIDATION_ERROR (by rw [he]; rfl) (by rw [he]; rfl)
      (by decide)
  refine ⟨?_, ?_⟩
  · rcases h with h | h | h | h | h
    · rcases getBookById_none_error h with he | he
      · exact hinvalid _ he
      · exact hnotfound he
    · rcases updateBook_none_error h with he | ⟨errs, he⟩ | he
      · exact hinvalid _ he
      · exact hupdate errs he
      · exact hnotfound he
    · rcases deleteBook_none_error h with he | he
      · exact hinvalid _ he
      · exact hnotfound he
    · rcases changeBookState_none_error h with he | he | ⟨errs, he⟩ | he
      · exact hinvalid _ he
      · exact hinvalid _ he
      · exact hupdate errs he
      · exact hnotfound he
    · have he := loginUser_none_error h
      exact key ERROR_CODES.AUTHENTICATION_ERROR (by rw [he]; rfl) (by rw [he]; rfl)
        (by decide)
  · intro e' h'
    have hreply : (AuthController.register aenv none none newId userData users).1 =
        AuthController.registerCatch e' := by
      unfold AuthController.register
      split
      · rename_i heq
        rw [heq] at h'
        cases h'
      · rename_i heq
        rw [heq] at h'
        simp only [Except.error.injEq] at h'
        rw [h']
    rw [hreply]
    rcases registerUser_none_error h' with he | he <;>
      · subst he
        exact ⟨rfl, by decide, rfl⟩

theorem service_failures_typed_except_account_exists_witness :
    ((getBookById none otherId.hex [sampleBook]).1 =
        .error (newError "Libro no encontrado" ERROR_CODES.NOT_FOUND_ERROR) ∨
      (updateBook sampleEnv none 3 otherId.hex {} [sampleBook]).1 =
        .error (newError "Libro no encontrado" ERROR_CODES.NOT_FOUND_ERROR) ∨
      (deleteBook none otherId.hex [sampleBook]).1 =
        .error (newError "Libro no encontrado" ERROR_CODES.NOT_FOUND_ERROR) ∨
      (changeBookState sampleEnv none 3 otherId.hex (JsVal.str "reservado") [sampleBook]).1 =
        .error (newError "Libro no encontrado" ERROR_CODES.NOT_FOUND_ERROR) ∨
      (loginUser sampleAuthEnv none "admin@libros.com" "admin1234" [sampleUser]).1 =
        .error (newError "Libro no encontrado" ERROR_CODES.NOT_FOUND_ERROR)) ∧
    ∃ code, (newError "Libro no encontrado" ERROR_CODES.NOT_FOUND_ERROR).code =
        some (JsCode.str code) ∧
      code ∈ [ERROR_CODES.VALIDATION_ERROR, ERROR_CODES.NOT_FOUND_ERROR,
        ERROR_CODES.AUTHENTICATION_ERROR] ∧
      code ∈ ERROR_CODES.values ∧
      errorHandler.statusOfCode code ∈ [400, 404, 401] ∧
      ∃ body, errorHandler none "2025-01-01T00:00:00.000Z"
          (newError "Libro no encontrado" ERROR_CODES.NOT_FOUND_ERROR) sampleReq =
          .ok (errorHandler.statusOfCode code, body) ∧
        body.message = (newError "Libro no encontrado" ERROR_CODES.NOT_FOUND_ERROR).message ∧
        body.error_type = some code :=
  ⟨Or.inl (by decide),
    (service_failures_typed_except_account_exists sampleEnv sampleAuthEnv none
      "2025-01-01T00:00:00.000Z" sampleReq 3 otherId.hex {} (JsVal.str "reservado")
      [sampleBook] "admin@libros.com" "admin1234" [sampleUser] otherId
      ⟨"otra", "Admin@Libros.com", "secreto1234"⟩
      (newError "Libro no encontrado" ERROR_CODES.NOT_FOUND_ERROR) (Or.inl (by decide))).1⟩

/-- C28 (counterexample): for an error with the code `DUPLICATE_ERROR`, the `catch`
blocks of `BookController.createBook` and `BookController.updateBook` choose status
400, while `errorHandler` assigns 409 to that code and `AuthController.register`
answers its `DUPLICATE_ERROR` with 409. For `NOT_FOUND_ERROR`, `VALIDATION_ERROR` and
`AUTHENTICATION_ERROR` the inline handlers and `errorHandler` agree (404, 400, 401). -/
theorem bookController_duplicate_status_counterexample :
    BookController.createBookCatch
        { newError "El título ya está en uso" ERROR_CODES.DUPLICATE_ERROR with
          field := some "titulo" } =
      Reply.json 400 (ResBody.failure
        { success := false, message := "El título ya está en uso"
          error_type := some "DUPLICATE_ERROR", field := some "titulo" }) ∧
    BookController.updateBookCatch
        { newError "El título ya está en uso" ERROR_CODES.DUPLICATE_ERROR with
          field := some "titulo" } =
      Reply.json 400 (ResBody.failure
        { success := false, message := "El título ya está en uso"
          error_type := some "DUPLICATE_ERROR", field := some "titulo" }) ∧
    errorHandler.statusOfCode ERROR_CODES.DUPLICATE_ERROR = 409 ∧
    (errorHandler none "2025-01-01T00:00:00.000Z"
        { newError "El título ya está en uso" ERROR_CODES.DUPLICATE_ERROR with
          field := some "titulo" } sampleReq).map
        (fun answer => (answer.1, answer.2.error_type)) =
      .ok (409, some "DUPLICATE_ERROR") ∧
    AuthController.registerCatch (userExistsError "email") =
      Reply.json 409 (ResBody.failure
        { success := false, message := "El email ya está en uso"
          error_type := some "DUPLICATE_ERROR", field := some "email" }) ∧
    (BookController.getBookByIdCatch
          (newError "Libro no encontrado" ERROR_CODES.NOT_FOUND_ERROR) =
        Reply.json 404 (ResBody.failure
          { success := false, message := "Libro no encontrado"
            error_type := some "NOT_FOUND_ERROR" }) ∧
      BookController.updateBookCatch
          (newError "Libro no encontrado" ERROR_CODES.NOT_FOUND_ERROR) =
        Reply.json 404 (ResBody.failure
          { success := false, message := "Libro no encontrado"
            error_type := some "NOT_FOUND_ERROR" }) ∧
      errorHandler.statusOfCode ERROR_CODES.NOT_FOUND_ERROR = 404) ∧
    (BookController.createBookCatch
          (newError "Datos de libro inválidos" ERROR_CODES.VALIDATION_ERROR) =
        Reply.json 400 (ResBody.failure
          { success := false, message := "Datos de libro inválidos"
            error_type := some "VALIDATION_ERROR" }) ∧
      errorHandler.statusOfCode ERROR_CODES.VALIDATION_ERROR = 400) ∧
    (AuthController.loginCatch invalidCredentialsError =
        Reply.json 401 (ResBody.failure
          { success := false, message := "Credenciales inválidas"
            error_type := some "AUTHENTICATION_ERROR" }) ∧
      errorHandler.statusOfCode ERROR_CODES.AUTHENTICATION_ERROR = 401) := by
  decide

theorem BookController.getBookById_failure {fault : Option Fault} {id : String}
    {db : Collection} {status : Nat} {errorBody : ErrorBody}
    (h : (BookController.getBookById fault id db).1 =
      Reply.json status (ResBody.failure errorBody)) :
    ∃ e, (Libreria.getBookById fault id db).1 = .error e ∧
      BookController.getBookByIdCatch e = Reply.json status (ResBody.failure errorBody) := by
  unfold BookController.getBookById at h
  split at h
  · cases h
  · rename_i error db' heq
    exact ⟨error, by rw [heq], h⟩

theorem BookController.createBook_failure {env : Env} {fault : Option Fault}
    {newId : ObjectId} {now : Nat} {body : BookData} {db : Collection} {status : Nat}
    {errorBody : ErrorBody}
    (h : (BookController.createBook env fault newId now body db).1 =
      Reply.json status (ResBody.failure errorBody)) :
    ∃ e, (Libreria.createBook env fault newId now body db).1 = .error e ∧
      BookController.createBookCatch e = Reply.json status (ResBody.failure errorBody) := by
  unfold BookController.createBook at h
  split at h
  · cases h
  · rename_i error db' heq
    exact ⟨error, by rw [heq], h⟩

theorem BookController.updateBook_failure {env : Env} {fault : Option Fault} {now : Nat}
    {id : String} {body : BookData} {db : Collection} {status : Nat} {errorBody : ErrorBody}
    (h : (BookController.updateBook env fault now id body db).1 =
      Reply.json status (ResBody.failure errorBody)) :
    ∃ e, (Libreria.updateBook env fault now id body db).1 = .error e ∧
      BookController.updateBookCatch e = Reply.json status (ResBody.failure errorBody) := by
  unfold BookController.updateBook at h
  split at h
  · cases h
  · rename_i error db' heq
    exact ⟨error, by rw [heq], h⟩

theorem AuthController.register_failure {aenv : AuthEnv} {fault saveFault : Option Fault}
    {newId : ObjectId} {body : UserData} {users : Users} {status : Nat} {errorBody : ErrorBody}
    (h : (AuthController.register aenv fault saveFault newId body users).1 =
      Reply.json status (ResBody.failure errorBody)) :
    ∃ e, AuthController.registerCatch e = Reply.json status (ResBody.failure errorBody) := by
  unfold AuthController.register at h
  split at h
  · cases h
  · rename_i error users' heq
    exact ⟨error, h⟩

theorem AuthController.login_failure {aenv : AuthEnv} {fault : Option Fault}
    {email password : String} {users : Users} {status : Nat} {errorBody : ErrorBody}
    (h : (AuthController.login aenv fault email password users).1 =
      Reply.json status (ResBody.failure errorBody)) :
    ∃ e, AuthController.loginCatch e = Reply.json status (ResBody.failure errorBody) := by
  unfold AuthController.login at h
  split at h
  · cases h
  · rename_i error users' heq
    exact ⟨error, h⟩

/-- What the `catch` blocks of the three book handlers answer for an error whose code
is one a `BookService` operation sets: 404 with `NOT_FOUND_ERROR` or 400 with
`VALIDATION_ERROR`. -/
theorem bookController_catch_of_service_code {e : JsError} {status : Nat}
    {errorBody : ErrorBody}
    (hcode : e.code = some (JsCode.str "VALIDATION_ERROR") ∨
      e.code = some (JsCode.str "NOT_FOUND_ERROR") ∨
      e.code = some (JsCode.str "INTERNAL_SERVER_ERROR"))
    (h : BookController.getBookByIdCatch e = Reply.json status (ResBody.failure errorBody) ∨
      BookController.createBookCatch e = Reply.json status (ResBody.failure errorBody) ∨
      BookController.updateBookCatch e = Reply.json status (ResBody.failure errorBody)) :
    (errorBody.error_type = some ERROR_CODES.NOT_FOUND_ERROR ∧ status = 404) ∨
      (errorBody.error_type = some ERROR_CODES.VALIDATION_ERROR ∧ status = 400) := by
  have hdup : e.code ≠ some (JsCode.str ERROR_CODES.DUPLICATE_ERROR) := by
    rcases hcode with hc | hc | hc <;>
      · rw [hc]
        decide
  rcases h with h | h | h
  · unfold BookController.getBookByIdCatch at h
    split_ifs at h
    · simp only [Reply.json.injEq, ResBody.failure.injEq] at h
      obtain ⟨hs, hb⟩ := h
      subst hs
      subst hb
      exact Or.inl ⟨rfl, rfl⟩
    · simp only [Reply.json.injEq, ResBody.failure.injEq] at h
      obtain ⟨hs, hb⟩ := h
      subst hs
      subst hb
      exact Or.inr ⟨rfl, rfl⟩
  · unfold BookController.createBookCatch at h
    rw [if_neg hdup] at h
    split_ifs at h
    simp only [Reply.json.injEq, ResBody.failure.injEq] at h
    obtain ⟨hs, hb⟩ := h
    subst hs
    subst hb
    exact Or.inr ⟨rfl, rfl⟩
  · unfold BookController.updateBookCatch at h
    rw [if_neg hdup] at h
    split_ifs at h
    · simp only [Reply.json.injEq, ResBody.failure.injEq] at h
      obtain ⟨hs, hb⟩ := h
      subst hs
      subst hb
      exact Or.inl ⟨rfl, rfl⟩
    · simp only [Reply.json.injEq, ResBody.failure.injEq] at h
      obtain ⟨hs, hb⟩ := h
      subst hs
      subst hb
      exact Or.inr ⟨rfl, rfl⟩

/-- C28 (amended): every failure answer the handlers `BookController.getBookById`,
`BookController.createBook`, `BookController.updateBook`, `AuthController.register`
and `AuthController.login` give inline, whatever the request, the collection and the
store do, has an `error_type` among `NOT_FOUND_ERROR`, `VALIDATION_ERROR`,
`AUTHENTICATION_ERROR` and `DUPLICATE_ERROR`, and its status is the one `errorHandler`
assigns to that kind (404, 400, 401, 409). An answer of a `BookController` handler
never has the kind `DUPLICATE_ERROR`: the branch of the `catch` blocks of `createBook`
and `updateBook` that answers that code with 400 is there, for every error with that
code, and no `BookService` operation raises it. -/
theorem inline_answers_have_errorHandler_status (env : Env) (aenv : AuthEnv)
    (fault saveFault : Option Fault) (newId : ObjectId) (now : Nat) (id : String)
    (bookData updateData : BookData) (db : Collection) (userData : UserData)
    (email password : String) (users : Users) (status : Nat) (errorBody : ErrorBody)
    (h : (BookController.getBookById fault id db).1 =
        Reply.json status (ResBody.failure errorBody) ∨
      (BookController.createBook env fault newId now bookData db).1 =
        Reply.json status (ResBody.failure errorBody) ∨
      (BookController.updateBook env fault now id updateData db).1 =
        Reply.json status (ResBody.failure errorBody) ∨
      (AuthController.register aenv fault saveFault newId userData users).1 =
        Reply.json status (ResBody.failure errorBody) ∨
      (AuthController.login aenv fault email password users).1 =
        Reply.json status (ResBody.failure errorBody)) :
    (∃ code, errorBody.error_type = some code ∧
      code ∈ [ERROR_CODES.NOT_FOUND_ERROR, ERROR_CODES.VALIDATION_ERROR,
        ERROR_CODES.AUTHENTICATION_ERROR, ERROR_CODES.DUPLICATE_ERROR] ∧
      status = errorHandler.statusOfCode code) ∧
    (∀ (status' : Nat) (errorBody' : ErrorBody),
      ((BookController.getBookById fault id db).1 =
          Reply.json status' (ResBody.failure errorBody') ∨
        (BookController.createBook env fault newId now bookData db).1 =
          Reply.json status' (ResBody.failure errorBody') ∨
        (BookController.updateBook env fault now id updateData db).1 =
          Reply.json status' (ResBody.failure errorBody')) →
      errorBody'.error_type ≠ some ERROR_CODES.DUPLICATE_ERROR) ∧
    (∀ error : JsError, error.code = some (JsCode.str ERROR_CODES.DUPLICATE_ERROR) →
      BookController.createBookCatch error =
        Reply.json 400 (ResBody.failure
          { success := false, message := error.message
            error_type := some ERROR_CODES.DUPLICATE_ERROR, field := error.field }) ∧
      BookController.updateBookCatch error =
        Reply.json 400 (ResBody.failure
          { success := false, message := error.message
            error_type := some ERROR_CODES.DUPLICATE_ERROR, field := error.field }) ∧
      errorHandler.statusOfCode ERROR_CODES.DUPLICATE_ERROR = 409) := by
  have hbooks : ∀ (status' : Nat) (errorBody' : ErrorBody),
      ((BookController.getBookById fault id db).1 =
          Reply.json status' (ResBody.failure errorBody') ∨
        (BookController.createBook env fault newId now bookData db).1 =
          Reply.json status' (ResBody.failure errorBody') ∨
        (BookController.updateBook env fault now id updateData db).1 =
          Reply.json status' (ResBody.failure errorBody')) →
      (errorBody'.error_type = some ERROR_CODES.NOT_FOUND_ERROR ∧ status' = 404) ∨
        (errorBody'.error_type = some ERROR_CODES.VALIDATION_ERROR ∧ status' = 400) := by
    intro status' errorBody' h'
    rcases h' with h' | h' | h'
    · obtain ⟨e, he, hcatch⟩ := BookController.getBookById_failure h'
      exact bookController_catch_of_service_code (getBookById_error_code he) (Or.inl hcatch)
    · obtain ⟨e, he, hcatch⟩ := BookController.createBook_failure h'
      exact bookController_catch_of_service_code (createBook_error_code he)
        (Or.inr (Or.inl hcatch))
    · obtain ⟨e, he, hcatch⟩ := BookController.updateBook_failure h'
      exact bookController_catch_of_service_code (updateBook_error_code he)
        (Or.inr (Or.inr hcatch))
  have hofbooks : ∀ (status' : Nat) (errorBody' : ErrorBody),
      ((errorBody'.error_type = some ERROR_CODES.NOT_FOUND_ERROR ∧ status' = 404) ∨
        (errorBody'.error_type = some ERROR_CODES.VALIDATION_ERROR ∧ status' = 400)) →
      ∃ code, errorBody'.error_type = some code ∧
        code ∈ [ERROR_CODES.NOT_FOUND_ERROR, ERROR_CODES.VALIDATION_ERROR,
          ERROR_CODES.AUTHENTICATION_ERROR, ERROR_CODES.DUPLICATE_ERROR] ∧
        status' = errorHandler.statusOfCode code := by
    intro status' errorBody' h'
    rcases h' with ⟨ht, hs⟩ | ⟨ht, hs⟩
    · exact ⟨_, ht, by decide, by rw [hs]; decide⟩
    · exact ⟨_, ht, by decide, by rw [hs]; decide⟩
  refine ⟨?_, ?_, ?_⟩
  · rcases h with h | h | h | h | h
    · exact hofbooks _ _ (hbooks _ _ (Or.inl h))
    · exact hofbooks _ _ (hbooks _ _ (Or.inr (Or.inl h)))
    · exact hofbooks _ _ (hbooks _ _ (Or.inr (Or.inr h)))
    · obtain ⟨e, hcatch⟩ := AuthController.register_failure h
      unfold AuthController.registerCatch at hcatch
      split_ifs at hcatch
      simp only [Reply.json.injEq, ResBody.failure.injEq] at hcatch
      obtain ⟨hs, hb⟩ := hcatch
      subst hs
      subst hb
      exact ⟨ERROR_CODES.DUPLICATE_ERROR, rfl, by decide, by decide⟩
    · obtain ⟨e, hcatch⟩ := AuthController.login_failure h
      unfold AuthController.loginCatch at hcatch
      split_ifs at hcatch
      simp only [Reply.json.injEq, ResBody.failure.injEq] at hcatch
      obtain ⟨hs, hb⟩ := hcatch
      subst hs
      subst hb
      exact ⟨ERROR_CODES.AUTHENTICATION_ERROR, rfl, by decide, by decide⟩
  · intro status' errorBody' h'
    rcases hbooks status' errorBody' h' with ⟨ht, _⟩ | ⟨ht, _⟩ <;>
      · rw [ht]
        decide
  · intro error hcode
    have hnf : error.code ≠ some (JsCode.str ERROR_CODES.NOT_FOUND_ERROR) := by
      rw [hcode]
      decide
    refine ⟨?_, ?_, by decide⟩
    · unfold BookController.createBookCatch
      rw [if_pos hcode]
    · unfold BookController.updateBookCatch
      rw [if_neg hnf, if_pos hcode]

theorem inline_answers_have_errorHandler_status_witness :
    ((BookController.getBookById none otherId.hex [sampleBook]).1 =
        Reply.json 404 (ResBody.failure
          { success := false, message := "Libro no encontrado"
            error_type := some "NOT_FOUND_ERROR" }) ∨
      (BookController.createBook sampleEnv none otherId 3 {} [sampleBook]).1 =
        Reply.json 404 (ResBody.failure
          { success := false, message := "Libro no encontrado"
            error_type := some "NOT_FOUND_ERROR" }) ∨
      (BookController.updateBook sampleEnv none 3 otherId.hex {} [sampleBook]).1 =
        Reply.json 404 (ResBody.failure
          { success := false, message := "Libro no encontrado"
            error_type := some "NOT_FOUND_ERROR" }) ∨
      (AuthController.register sampleAuthEnv none none otherId
          ⟨"otra", "Admin@Libros.com", "secreto1234"⟩ [sampleUser]).1 =
        Reply.json 404 (ResBody.failure
          { success := false, message := "Libro no encontrado"
            error_type := some "NOT_FOUND_ERROR" }) ∨
      (AuthController.login sampleAuthEnv none "admin@libros.com" "otra1234" [sampleUser]).1 =
        Reply.json 404 (ResBody.failure
          { success := false, message := "Libro no encontrado"
            error_type := some "NOT_FOUND_ERROR" })) ∧
    ∃ code, (some "NOT_FOUND_ERROR" : Option String) = some code ∧
      code ∈ [ERROR_CODES.NOT_FOUND_ERROR, ERROR_CODES.VALIDATION_ERROR,
        ERROR_CODES.AUTHENTICATION_ERROR, ERROR_CODES.DUPLICATE_ERROR] ∧
      404 = errorHandler.statusOfCode code :=
  ⟨Or.inl (by decide),
    (inline_answers_have_errorHandler_status sampleEnv sampleAuthEnv none none otherId 3
      otherId.hex {} {} [sampleBook] ⟨"otra", "Admin@Libros.com", "secreto1234"⟩
      "admin@libros.com" "otra1234" [sampleUser] 404
      { success := false, message := "Libro no encontrado"
        error_type := some "NOT_FOUND_ERROR" } (Or.inl (by decide))).1⟩

/-- C29, evaluated where it fails: given an error named `ValidationError` that has
no `errors`, and given an error of code 11000 that has no `keyValue`, `errorHandler`
throws a `TypeError` (from `Object.values` and `Object.keys` of `undefined`) and sends
no response. -/
theorem errorHandler_throws_on_incomplete_error :
    errorHandler none "2025-01-01T00:00:00.000Z"
        { name := "ValidationError", message := "\"titulo\" is required" } sampleReq =
      .error objectTypeError ∧
    errorHandler none "2025-01-01T00:00:00.000Z"
        { name := "MongoError", message := "E11000 duplicate key error"
          code := some (JsCode.num 11000) } sampleReq =
      .error objectTypeError ∧
    (∀ (nodeEnv : Option String) (now : String) (err : JsError) (req : Req),
      errorHandler nodeEnv now { err with name := "ValidationError", errors := none } req =
        .error objectTypeError) := by
  refine ⟨by decide, by decide, ?_⟩
  intro nodeEnv now err req
  simp [errorHandler, errorHandler.classify]

end Libreria
